import Mathlib

/-!
# Drawing-layer property tables and DrawingML fill properties

A shallow embedding of

* `svx/source/unodraw/XPropertyTable.cxx`  (the name-keyed property tables),
* `oox/source/drawingml/fillproperties.cxx` (`assignUsed`, `FillProperties::pushToPropMap`,
  `GraphicProperties::pushToPropMap` and the cropping helpers),
* `xmloff/source/style/TransGradientStyle.cxx` (import and export of `draw:opacity`),
* `include/docmodel/color/ComplexColor.hxx` (`ComplexColor::applyTransformations`),

followed by the theorems that settle the specification claims about them.
Stateful code is written in explicit state-passing style: a mutator returns its
outcome together with the final state of the object it works on.
-/

set_option autoImplicit false

/-! ## Part 1: `SvxUnoXPropertyTable` -/

namespace XPropertyTable

/-- The UNO exceptions thrown by the container interface of the table. -/
inductive UnoException where
  | ElementExistException
  | IllegalArgumentException
  | NoSuchElementException
  deriving DecidableEq, Repr

/-- An `XPropertyEntry`: a name (`GetName()`) and the data of the concrete
entry class (`XColorEntry`, `XDashEntry`, ...). -/
structure XPropertyEntry (P : Type) where
  name : String
  payload : P
  deriving DecidableEq, Repr

/-- Modelled from the spec: `XPropertyList` (svx/xtable.hxx, not among the
sources) is the ordered list of entry pointers behind a property table; a
pointer may be null. -/
abbrev XPropertyList (P : Type) := List (Option (XPropertyEntry P))

/-- Modelled from the spec: `XPropertyList::Count`, the number of list slots. -/
def Count {P : Type} (l : XPropertyList P) : Nat := l.length

/-- Modelled from the spec: `XPropertyList::Get`, the entry pointer at an index;
null for an index outside the list. -/
def Get {P : Type} (l : XPropertyList P) (index : Nat) : Option (XPropertyEntry P) :=
  match l[index]? with
  | some p => p
  | none => none

/-- Modelled from the spec: `XPropertyList::Insert` without an index, which adds
the entry to the list and keeps all previous entries (it is appended). -/
def Insert {P : Type} (l : XPropertyList P) (pEntry : XPropertyEntry P) : XPropertyList P :=
  l ++ [some pEntry]

/-- Modelled from the spec: `XPropertyList::Remove`, which erases the slot at
the index. -/
def Remove {P : Type} (l : XPropertyList P) (index : Nat) : XPropertyList P :=
  l.eraseIdx index

/-- Modelled from the spec: `XPropertyList::Replace`, which overwrites the slot
at the index with the new entry. -/
def Replace {P : Type} (l : XPropertyList P) (pEntry : XPropertyEntry P) (index : Nat) :
    XPropertyList P :=
  l.set index (some pEntry)

/-- The parts of `SvxUnoXPropertyTable` that differ between tables: the item id
(through `SvxUnogetInternalNameForItem(mnWhich, ·)`, which is not among the
sources and is taken as a parameter), the virtual `getAny`, and the conversion
of a UNO value into entry data on which every `createEntry` override is built. -/
structure SvxUnoXPropertyTable (P A : Type) where
  internalName : String → String
  getAny : XPropertyEntry P → A
  fromAny : A → Option P

/-- The virtual `createEntry(rName, rAny)`: every override in the file returns
a null pointer when the value cannot be converted and otherwise
`std::make_unique<X...Entry>(data, rName)`. -/
def createEntry {P A : Type} (T : SvxUnoXPropertyTable P A) (rName : String) (rAny : A) :
    Option (XPropertyEntry P) :=
  match T.fromAny rAny with
  | none => none
  | some d => some ⟨rName, d⟩

/-- The loop shared by all name look-ups:
`for( i = 0; i < nCount; i++ ) { pEntry = get(i); if (pEntry && aInternalName == pEntry->GetName()) ... }`.
`remaining` is `nCount - i`; the result is the index and entry at which the
loop body fires, or `none` when the loop runs to its end. -/
def findLoop {P : Type} (l : XPropertyList P) (aInternalName : String) :
    Nat → Nat → Option (Nat × XPropertyEntry P)
  | 0, _ => none
  | remaining + 1, i =>
    match Get l i with
    | some pEntry =>
      if aInternalName = pEntry.name then some (i, pEntry)
      else findLoop l aInternalName remaining (i + 1)
    | none => findLoop l aInternalName remaining (i + 1)

/-- Embeds `SvxUnoXPropertyTable::hasByName`. -/
def hasByName {P A : Type} (T : SvxUnoXPropertyTable P A) (mrList : XPropertyList P)
    (aName : String) : Bool :=
  let aInternalName := T.internalName aName
  let nCount := Count mrList
  match findLoop mrList aInternalName nCount 0 with
  | some _ => true
  | none => false

/-- Embeds `SvxUnoXPropertyTable::getByName`. -/
def getByName {P A : Type} (T : SvxUnoXPropertyTable P A) (mrList : XPropertyList P)
    (aName : String) : Except UnoException A :=
  let aInternalName := T.internalName aName
  let nCount := Count mrList
  match findLoop mrList aInternalName nCount 0 with
  | some (_, pEntry) => .ok (T.getAny pEntry)
  | none => .error .NoSuchElementException

/-- Embeds `SvxUnoXPropertyTable::insertByName`: the outcome and the final list. -/
def insertByName {P A : Type} (T : SvxUnoXPropertyTable P A) (mrList : XPropertyList P)
    (aName : String) (aElement : A) : Except UnoException Unit × XPropertyList P :=
  if hasByName T mrList aName then
    (.error .ElementExistException, mrList)
  else
    let aInternalName := T.internalName aName
    match createEntry T aInternalName aElement with
    | none => (.error .IllegalArgumentException, mrList)
    | some pNewEntry => (.ok (), Insert mrList pNewEntry)

/-- Embeds `SvxUnoXPropertyTable::removeByName`: the outcome and the final list. -/
def removeByName {P A : Type} (T : SvxUnoXPropertyTable P A) (mrList : XPropertyList P)
    (Name : String) : Except UnoException Unit × XPropertyList P :=
  let aInternalName := T.internalName Name
  let nCount := Count mrList
  match findLoop mrList aInternalName nCount 0 with
  | some (i, _) => (.ok (), Remove mrList i)
  | none => (.error .NoSuchElementException, mrList)

/-- Embeds `SvxUnoXPropertyTable::replaceByName`: the outcome and the final list. -/
def replaceByName {P A : Type} (T : SvxUnoXPropertyTable P A) (mrList : XPropertyList P)
    (aName : String) (aElement : A) : Except UnoException Unit × XPropertyList P :=
  let aInternalName := T.internalName aName
  let nCount := Count mrList
  match findLoop mrList aInternalName nCount 0 with
  | some (i, _) =>
    match createEntry T aInternalName aElement with
    | none => (.error .IllegalArgumentException, mrList)
    | some pNewEntry => (.ok (), Replace mrList pNewEntry i)
  | none => (.error .NoSuchElementException, mrList)

/-- A UNO `Any` as far as the colour table looks at it: a 32-bit integer, or
a value of some other type. -/
inductive UnoAny where
  | long (n : Int)
  | other (tag : String)
  deriving DecidableEq, Repr

/-- Embeds `SvxUnoXColorTable`: `getAny` returns the colour as `sal_Int32`,
`createEntry` accepts a value from which a colour can be extracted. The item
names are taken unchanged (no predefined-name translation). -/
def SvxUnoXColorTable : SvxUnoXPropertyTable Int UnoAny where
  internalName := fun s => s
  getAny := fun pEntry => UnoAny.long pEntry.payload
  fromAny := fun rAny =>
    match rAny with
    | .long n => some n
    | .other _ => none

/-- One call of the modifying container interface. -/
inductive Call (A : Type) where
  | insert (aName : String) (aElement : A)
  | replace (aName : String) (aElement : A)
  | remove (aName : String)

/-- The list after a call, whether the call returned or threw. -/
def applyCall {P A : Type} (T : SvxUnoXPropertyTable P A) (mrList : XPropertyList P) :
    Call A → XPropertyList P
  | .insert aName aElement => (insertByName T mrList aName aElement).2
  | .replace aName aElement => (replaceByName T mrList aName aElement).2
  | .remove aName => (removeByName T mrList aName).2

/-- The list after a sequence of calls. -/
def applyCalls {P A : Type} (T : SvxUnoXPropertyTable P A) (mrList : XPropertyList P)
    (calls : List (Call A)) : XPropertyList P :=
  calls.foldl (applyCall T) mrList

/-! ### Specification vocabulary for the tables -/

/-- Entry `e` is the lowest-index non-null entry of `l` named `i`, at index `k`. -/
def IsFirstMatch {P : Type} (l : XPropertyList P) (i : String) (k : Nat)
    (e : XPropertyEntry P) : Prop :=
  l[k]? = some (some e) ∧ e.name = i ∧
    ∀ (j : Nat) (e' : XPropertyEntry P), j < k → l[j]? = some (some e') → e'.name ≠ i

/-- Some non-null entry of `l` is named `i`. -/
def HasMatch {P : Type} (l : XPropertyList P) (i : String) : Prop :=
  ∃ (k : Nat) (e : XPropertyEntry P), l[k]? = some (some e) ∧ e.name = i

/-- The names of the non-null entries, in list order. -/
def entryNames {P : Type} (l : XPropertyList P) : List String :=
  l.reduceOption.map (fun e => e.name)

/-- No two entries of the list have the same name. -/
def NameKeyed {P : Type} (l : XPropertyList P) : Prop :=
  (entryNames l).Nodup

end XPropertyTable

/-! ## Part 2: DrawingML fill properties -/

namespace Oox

/-- Modelled from the spec: `MAX_PERCENT` of drawingmltypes.hxx (not among
the sources), 100% in 1/1000 percent. -/
def MAX_PERCENT : Int := 100000

/-- Modelled from the spec: `PER_PERCENT` of drawingmltypes.hxx, one percent in
1/1000 percent. -/
def PER_PERCENT : Int := 1000

/-- Modelled from the spec: `PER_DEGREE` of drawingmltypes.hxx, one degree in
1/60000 degree. -/
def PER_DEGREE : Int := 60000

/-- A value stored in a signed machine integer of `bits` bits (two's
complement wrap-around). -/
def wrapInt (bits : Nat) (x : Int) : Int :=
  (x + 2 ^ (bits - 1)) % 2 ^ bits - 2 ^ (bits - 1)

/-- A value stored in a `sal_Int32`. -/
def wrap32 (x : Int) : Int := wrapInt 32 x

/-- A value stored in a `sal_Int16`. -/
def wrap16 (x : Int) : Int := wrapInt 16 x

/-- Modelled from the spec: the token ids of oox/token/tokens.hxx (generated,
not among the sources): one constructor for every token the code names,
`other` for every remaining id, `TOKEN_INVALID` for `XML_TOKEN_INVALID`. -/
inductive Token where
  | noFill | solidFill | gradFill | blipFill | pattFill | grpFill
  | circle
  | tile | stretch
  | tl | t | tr | l | ctr | r | bl | b | br
  | biLevel | grayscl
  | TOKEN_INVALID
  | other (id : Nat)
  deriving DecidableEq, Repr

/-- The UNO struct `com.sun.star.geometry.IntegerRectangle2D`. -/
structure IntegerRectangle2D where
  X1 : Int
  Y1 : Int
  X2 : Int
  Y2 : Int
  deriving DecidableEq, Repr

/-- The UNO struct `com.sun.star.awt.Size`. -/
structure Size where
  Width : Int
  Height : Int
  deriving DecidableEq, Repr

/-- Modelled from the spec: `oox::drawingml::Color` (color.hxx is not among the
sources), as the observations the fill code makes of it: `isUsed()`,
`hasTransparency()`, `getTransparency()`, `getSchemeColorIndex()`, `getLumMod()`,
`getLumOff()`, `getTintOrShade()`, and the colour data resolved by `getColor`. -/
structure Color where
  used : Bool := false
  data : Int := 0
  hasTransparency : Bool := false
  transparency : Int := 0
  schemeColorIndex : Int := 0
  lumMod : Int := 10000
  lumOff : Int := 0
  tintOrShade : Int := 0
  deriving DecidableEq, Repr

/-- Modelled from the spec: `Color::assignIfUsed`, "skip if the value isn't
set": the colour is overwritten when the source colour is used. -/
def Color.assignIfUsed (self rColor : Color) : Color :=
  if rColor.used then rColor else self

/-- Modelled from the spec: the helper template `assignIfUsed` for optionals,
"skip if the optional value isn't set". -/
def assignIfUsed {α : Type} (rDestValue rSourceValue : Option α) : Option α :=
  match rSourceValue with
  | some v => some v
  | none => rDestValue

/-- An `XGraphic` reference: null, or the identity of a graphic object. -/
abbrev XGraphicRef := Option Nat

/-- The embedded original graphic of an artistic effect (`OleObjectInfo`). -/
structure OleObjectInfo where
  maProgId : String := ""
  maEmbeddedData : List Nat := []
  deriving DecidableEq, Repr

/-- Embeds `ArtisticEffectProperties` with the members the code names (the struct
is declared in fillproperties.hxx, which is not among the sources); attribute
values are kept as strings. -/
structure ArtisticEffectProperties where
  msName : String := ""
  maAttribs : List (String × String) := []
  mrOleObjectInfo : OleObjectInfo := {}
  deriving DecidableEq, Repr

/-- Embeds `ArtisticEffectProperties::isEmpty`. -/
def ArtisticEffectProperties.isEmpty (self : ArtisticEffectProperties) : Bool :=
  self.msName.isEmpty

/-- Embeds `ArtisticEffectProperties::assignUsed`. -/
def ArtisticEffectProperties.assignUsed (self rSourceProps : ArtisticEffectProperties) :
    ArtisticEffectProperties :=
  if !rSourceProps.isEmpty then
    { self with msName := rSourceProps.msName, maAttribs := rSourceProps.maAttribs }
  else self

/-- Embeds `GradientFillProperties` with the members the code names; the stop map
(`std::multimap<double, Color>`) is the list of its pairs in key order, with
rational offsets. -/
structure GradientFillProperties where
  maGradientStops : List (Rat × Color) := []
  moFillToRect : Option IntegerRectangle2D := none
  moTileRect : Option IntegerRectangle2D := none
  moGradientPath : Option Token := none
  moShadeAngle : Option Int := none
  moShadeFlip : Option Token := none
  moShadeScaled : Option Bool := none
  moRotateWithShape : Option Bool := none
  deriving DecidableEq, Repr

/-- Embeds `PatternFillProperties` with the members the code names. -/
structure PatternFillProperties where
  maPattFgColor : Color := {}
  maPattBgColor : Color := {}
  moPattPreset : Option Token := none
  deriving DecidableEq, Repr

/-- Embeds `BlipFillProperties` with the members the code names, `moClipRect`
(read by `GraphicProperties::pushToPropMap`) among them; the two-element array
`maDuotoneColors` is kept as two fields. -/
structure BlipFillProperties where
  mxFillGraphic : XGraphicRef := none
  moBitmapMode : Option Token := none
  moFillRect : Option IntegerRectangle2D := none
  moClipRect : Option IntegerRectangle2D := none
  moTileOffsetX : Option Int := none
  moTileOffsetY : Option Int := none
  moTileScaleX : Option Int := none
  moTileScaleY : Option Int := none
  moTileAlign : Option Token := none
  moTileFlip : Option Token := none
  moRotateWithShape : Option Bool := none
  moColorEffect : Option Token := none
  moBrightness : Option Int := none
  moContrast : Option Int := none
  moBiLevelThreshold : Option Int := none
  maColorChangeFrom : Color := {}
  maColorChangeTo : Color := {}
  maDuotoneColors0 : Color := {}
  maDuotoneColors1 : Color := {}
  maEffect : ArtisticEffectProperties := {}
  moAlphaModFix : Option Int := none
  deriving DecidableEq, Repr

/-- Embeds `FillProperties` with the members the code names. -/
structure FillProperties where
  moFillType : Option Token := none
  maFillColor : Color := {}
  moUseBgFill : Option Bool := none
  maGradientProps : GradientFillProperties := {}
  maPatternProps : PatternFillProperties := {}
  maBlipProps : BlipFillProperties := {}
  deriving DecidableEq, Repr

/-- Embeds `GradientFillProperties::assignUsed`. -/
def GradientFillProperties.assignUsed (self rSourceProps : GradientFillProperties) :
    GradientFillProperties :=
  { maGradientStops :=
      if !rSourceProps.maGradientStops.isEmpty then rSourceProps.maGradientStops
      else self.maGradientStops
    moFillToRect := assignIfUsed self.moFillToRect rSourceProps.moFillToRect
    moTileRect := assignIfUsed self.moTileRect rSourceProps.moTileRect
    moGradientPath := assignIfUsed self.moGradientPath rSourceProps.moGradientPath
    moShadeAngle := assignIfUsed self.moShadeAngle rSourceProps.moShadeAngle
    moShadeFlip := assignIfUsed self.moShadeFlip rSourceProps.moShadeFlip
    moShadeScaled := assignIfUsed self.moShadeScaled rSourceProps.moShadeScaled
    moRotateWithShape := assignIfUsed self.moRotateWithShape rSourceProps.moRotateWithShape }

/-- Embeds `PatternFillProperties::assignUsed`. -/
def PatternFillProperties.assignUsed (self rSourceProps : PatternFillProperties) :
    PatternFillProperties :=
  { maPattFgColor := self.maPattFgColor.assignIfUsed rSourceProps.maPattFgColor
    maPattBgColor := self.maPattBgColor.assignIfUsed rSourceProps.maPattBgColor
    moPattPreset := assignIfUsed self.moPattPreset rSourceProps.moPattPreset }

/-- Embeds `BlipFillProperties::assignUsed`. The function has no statement for
`moClipRect`, which therefore keeps the value of the target. -/
def BlipFillProperties.assignUsed (self rSourceProps : BlipFillProperties) :
    BlipFillProperties :=
  { mxFillGraphic :=
      if rSourceProps.mxFillGraphic.isSome then rSourceProps.mxFillGraphic
      else self.mxFillGraphic
    moBitmapMode := assignIfUsed self.moBitmapMode rSourceProps.moBitmapMode
    moFillRect := assignIfUsed self.moFillRect rSourceProps.moFillRect
    moClipRect := self.moClipRect
    moTileOffsetX := assignIfUsed self.moTileOffsetX rSourceProps.moTileOffsetX
    moTileOffsetY := assignIfUsed self.moTileOffsetY rSourceProps.moTileOffsetY
    moTileScaleX := assignIfUsed self.moTileScaleX rSourceProps.moTileScaleX
    moTileScaleY := assignIfUsed self.moTileScaleY rSourceProps.moTileScaleY
    moTileAlign := assignIfUsed self.moTileAlign rSourceProps.moTileAlign
    moTileFlip := assignIfUsed self.moTileFlip rSourceProps.moTileFlip
    moRotateWithShape := assignIfUsed self.moRotateWithShape rSourceProps.moRotateWithShape
    moColorEffect := assignIfUsed self.moColorEffect rSourceProps.moColorEffect
    moBrightness := assignIfUsed self.moBrightness rSourceProps.moBrightness
    moContrast := assignIfUsed self.moContrast rSourceProps.moContrast
    moBiLevelThreshold := assignIfUsed self.moBiLevelThreshold rSourceProps.moBiLevelThreshold
    maColorChangeFrom := self.maColorChangeFrom.assignIfUsed rSourceProps.maColorChangeFrom
    maColorChangeTo := self.maColorChangeTo.assignIfUsed rSourceProps.maColorChangeTo
    maDuotoneColors0 := self.maDuotoneColors0.assignIfUsed rSourceProps.maDuotoneColors0
    maDuotoneColors1 := self.maDuotoneColors1.assignIfUsed rSourceProps.maDuotoneColors1
    maEffect := self.maEffect.assignUsed rSourceProps.maEffect
    moAlphaModFix := assignIfUsed self.moAlphaModFix rSourceProps.moAlphaModFix }

/-- Embeds `FillProperties::assignUsed`. -/
def FillProperties.assignUsed (self rSourceProps : FillProperties) : FillProperties :=
  { moFillType := assignIfUsed self.moFillType rSourceProps.moFillType
    maFillColor := self.maFillColor.assignIfUsed rSourceProps.maFillColor
    moUseBgFill := assignIfUsed self.moUseBgFill rSourceProps.moUseBgFill
    maGradientProps := self.maGradientProps.assignUsed rSourceProps.maGradientProps
    maPatternProps := self.maPatternProps.assignUsed rSourceProps.maPatternProps
    maBlipProps := self.maBlipProps.assignUsed rSourceProps.maBlipProps }

end Oox

namespace Oox

/-- The UNO enum `com.sun.star.drawing.FillStyle`. -/
inductive FillStyle where
  | NONE | SOLID | GRADIENT | HATCH | BITMAP
  deriving DecidableEq, Repr

/-- The UNO enum `com.sun.star.drawing.BitmapMode`. -/
inductive BitmapMode where
  | REPEAT | STRETCH | NO_REPEAT
  deriving DecidableEq, Repr

/-- The UNO enum `com.sun.star.drawing.RectanglePoint`. -/
inductive RectanglePoint where
  | LEFT_TOP | MIDDLE_TOP | RIGHT_TOP
  | LEFT_MIDDLE | MIDDLE_MIDDLE | RIGHT_MIDDLE
  | LEFT_BOTTOM | MIDDLE_BOTTOM | RIGHT_BOTTOM
  deriving DecidableEq, Repr

/-- The UNO enum `com.sun.star.awt.GradientStyle`. -/
inductive GradientStyle where
  | LINEAR | AXIAL | RADIAL | ELLIPTICAL | SQUARE | RECT
  deriving DecidableEq, Repr

/-- A `basegfx::BColor`: three colour channels, as rationals. -/
structure BColor where
  red : Rat
  green : Rat
  blue : Rat
  deriving DecidableEq, Repr

/-- A `basegfx::ColorStop`: offset and colour of one point of a gradient ramp. -/
structure ColorStop where
  offset : Rat
  color : BColor
  deriving DecidableEq, Repr

/-- The UNO struct `com.sun.star.awt.Gradient2`, default-constructed. -/
structure Gradient2 where
  Style : GradientStyle := .LINEAR
  StartColor : Int := 0
  EndColor : Int := 0
  Angle : Int := 0
  Border : Int := 0
  XOffset : Int := 0
  YOffset : Int := 0
  StartIntensity : Int := 0
  EndIntensity : Int := 0
  StepCount : Int := 0
  ColorStops : List ColorStop := []
  deriving DecidableEq, Repr

/-- The UNO struct `com.sun.star.text.GraphicCrop`. -/
structure GraphicCrop where
  Top : Int
  Bottom : Int
  Left : Int
  Right : Int
  deriving DecidableEq, Repr

/-- Embeds `model::ColorType` (ComplexColor.hxx). -/
inductive ColorType where
  | Unused | RGB | CRGB | HSL | Scheme | Palette | System | Placeholder
  deriving DecidableEq, Repr

/-- Embeds `model::TransformationType`: the four kinds `ComplexColor` acts on, and
every other kind. -/
inductive TransformationType where
  | Tint | Shade | LumMod | LumOff
  | Other (id : Nat)
  deriving DecidableEq, Repr

/-- Embeds `model::Transformation`. -/
structure Transformation where
  meType : TransformationType
  mnValue : Int
  deriving DecidableEq, Repr

/-- Embeds `model::ComplexColor` (ComplexColor.hxx); the system colour type and the
theme colour type are kept as their numbers. -/
structure ComplexColor where
  meType : ColorType := .Unused
  mnComponent1 : Int := 0
  mnComponent2 : Int := 0
  mnComponent3 : Int := 0
  meSystemColorType : Int := 0
  maLastColor : Int := 0
  meSchemeType : Int := 0
  maTransformations : List Transformation := []
  deriving DecidableEq, Repr

/-- Embeds `ComplexColor::setSchemeColor`. -/
def ComplexColor.setSchemeColor (self : ComplexColor) (eType : Int) : ComplexColor :=
  { self with meSchemeType := eType, meType := .Scheme }

/-- Embeds `ComplexColor::addTransformation`. -/
def ComplexColor.addTransformation (self : ComplexColor) (rTransform : Transformation) :
    ComplexColor :=
  { self with maTransformations := self.maTransformations ++ [rTransform] }

/-- The members of `ShapeProperty` (shapepropertymap.hxx) that concern fills. -/
inductive ShapeProperty where
  | FillStyle | FillColor | FillTransparency | GradientTransparency | FillGradient
  | FillBitmap | FillBitmapMode | FillBitmapSizeX | FillBitmapSizeY
  | FillBitmapOffsetX | FillBitmapOffsetY | FillBitmapRectanglePoint
  | FillHatch | FillBackground | FillBitmapName | FillUseSlideBackground
  deriving DecidableEq, Repr

/-- What a write to the property map names: a `ShapeProperty`, or one of the
plain property ids `PROP_FillComplexColor` and `PROP_GraphicCrop`. -/
inductive PropKey where
  | shape (p : ShapeProperty)
  | PROP_FillComplexColor
  | PROP_GraphicCrop
  deriving DecidableEq, Repr

/-- The values written to the property map. A hatch is kept as the arguments
of `createHatch` (hatchmap.hxx is not among the sources). -/
inductive PropValue where
  | bool (b : Bool)
  | int (n : Int)
  | color (c : Int)
  | complexColor (c : ComplexColor)
  | gradient (g : Gradient2)
  | graphic (x : XGraphicRef)
  | hatch (preset : Token) (color : Int)
  | rectPoint (p : RectanglePoint)
  | bitmapMode (m : BitmapMode)
  | fillStyle (s : FillStyle)
  | crop (c : GraphicCrop)
  deriving DecidableEq, Repr

/-- Modelled from the spec: `ShapePropertyMap` (shapepropertymap.cxx is not among
the sources). `supports` answers `supportsProperty`, `accepts` is the result
`setProperty` returns for a shape property and value, and `writes` records, in
order, every `setProperty` call made on the map. -/
structure ShapePropertyMap where
  supports : ShapeProperty → Bool
  accepts : ShapeProperty → PropValue → Bool
  writes : List (PropKey × PropValue) := []

/-- Modelled from the spec: `ShapePropertyMap::supportsProperty`. -/
def ShapePropertyMap.supportsProperty (self : ShapePropertyMap) (p : ShapeProperty) : Bool :=
  self.supports p

/-- Modelled from the spec: `ShapePropertyMap::setProperty( ShapeProperty, value )`:
the map after the call and the result of the call. -/
def ShapePropertyMap.setProperty (self : ShapePropertyMap) (p : ShapeProperty)
    (v : PropValue) : ShapePropertyMap × Bool :=
  ({ self with writes := self.writes ++ [(.shape p, v)] }, self.accepts p v)

/-- Modelled from the spec: `PropertyMap::setProperty( nPropId, value )` for a
plain property id. -/
def ShapePropertyMap.setPropertyId (self : ShapePropertyMap) (k : PropKey)
    (v : PropValue) : ShapePropertyMap :=
  { self with writes := self.writes ++ [(k, v)] }

/-- The four crop quotients of `getQuotients`, with rationals for doubles. -/
structure Quotients where
  qx1 : Rat
  qy1 : Rat
  qx2 : Rat
  qy2 : Rat
  deriving DecidableEq, Repr

/-- The collaborators of the fill code that are not among the sources, taken as
parameters: colour resolution (`Color::getColor` with the graphic helper),
the conversions between `::Color` and `basegfx::BColor`,
`model::convertToThemeColorType`, `basegfx::utils::reverseColorStops`, the value
read by `front()` or `back()` of an empty stop vector, the graphic
transformations, the size queries, and the double-precision computations of
the bitmap branch. -/
structure GraphicHelper where
  getColor : Color → Int → Int
  getBColor : Int → BColor
  fromBColor : BColor → Int
  undefinedStop : ColorStop
  convertToThemeColorType : Int → Int
  reverseColorStops : List ColorStop → List ColorStop
  isTransformer : XGraphicRef → Bool
  applyDuotone : XGraphicRef → XGraphicRef → Int → Int → XGraphicRef
  lclGreysScaleGraphic : XGraphicRef → XGraphicRef
  lclCropGraphic : XGraphicRef → Option Quotients → XGraphicRef
  lclGetOriginalSize : XGraphicRef → Size
  getOriginalSize : XGraphicRef → Size
  tileSize : Int → Int → Int
  tileOffset : Int → Int → Int
  cropValue : Int → Int → Int
  stretchSize : Int → Int → Int → Int

/-- Embeds `getQuotients`. -/
def getQuotients (aRelRect : IntegerRectangle2D) (hDiv vDiv : Rat) : Quotients :=
  { qx1 := aRelRect.X1 / hDiv, qy1 := aRelRect.Y1 / vDiv,
    qx2 := aRelRect.X2 / hDiv, qy2 := aRelRect.Y2 / vDiv }

/-- Embeds `CropQuotientsFromFillRect`. -/
def CropQuotientsFromFillRect (aFillRect : IntegerRectangle2D) : Option Quotients :=
  let X1 := min aFillRect.X1 0
  let X2 := min aFillRect.X2 0
  let Y1 := min aFillRect.Y1 0
  let Y2 := min aFillRect.Y2 0
  some (getQuotients ⟨X1, Y1, X2, Y2⟩ (-100000 + (X1 : Rat) + (X2 : Rat))
    (-100000 + (Y1 : Rat) + (Y2 : Rat)))

/-- Embeds `lclCheckAndApplyDuotoneTransform`. -/
def lclCheckAndApplyDuotoneTransform (rGraphicHelper : GraphicHelper)
    (aBlipProps : BlipFillProperties) (xGraphic : XGraphicRef) (nPhClr : Int) : XGraphicRef :=
  if aBlipProps.maDuotoneColors0.used && aBlipProps.maDuotoneColors1.used then
    let nColor1 := rGraphicHelper.getColor aBlipProps.maDuotoneColors0 nPhClr
    let nColor2 := rGraphicHelper.getColor aBlipProps.maDuotoneColors1 nPhClr
    if rGraphicHelper.isTransformer aBlipProps.mxFillGraphic then
      rGraphicHelper.applyDuotone aBlipProps.mxFillGraphic xGraphic nColor1 nColor2
    else xGraphic
  else xGraphic

/-- Embeds `lclGetBitmapMode`. -/
def lclGetBitmapMode (nToken : Token) : BitmapMode :=
  match nToken with
  | .tile => .REPEAT
  | .stretch => .STRETCH
  | _ => .REPEAT

/-- Embeds `lclGetRectanglePoint`. -/
def lclGetRectanglePoint (nToken : Token) : RectanglePoint :=
  match nToken with
  | .tl => .LEFT_TOP
  | .t => .MIDDLE_TOP
  | .tr => .RIGHT_TOP
  | .l => .LEFT_MIDDLE
  | .ctr => .MIDDLE_MIDDLE
  | .r => .RIGHT_MIDDLE
  | .bl => .LEFT_BOTTOM
  | .b => .MIDDLE_BOTTOM
  | .br => .RIGHT_BOTTOM
  | _ => .LEFT_TOP

/-- Modelled from the spec: `getLimitedValue< sal_Int16, sal_Int32 >` of
helper.hxx (not among the sources): the value clamped to `[nMin, nMax]`. -/
def getLimitedValue (nValue nMin nMax : Int) : Int :=
  wrap16 (max nMin (min nValue nMax))

end Oox

namespace Oox

/-- Embeds `FillProperties::pushToPropMap`, case `XML_noFill`: the map after the case
and the value left in `eFillStyle`. -/
def pushNoFill (fp : FillProperties) (rPropMap : ShapePropertyMap) :
    ShapePropertyMap × FillStyle :=
  ((rPropMap.setProperty .FillUseSlideBackground (.bool (fp.moUseBgFill.getD false))).1, .NONE)

/-- The `model::ComplexColor` built in case `XML_solidFill`. -/
def solidComplexColor (rGraphicHelper : GraphicHelper) (maFillColor : Color)
    (aFillColor nPhClr nPhClrTheme : Int) : ComplexColor :=
  let aComplexColor : ComplexColor := {}
  if aFillColor = nPhClr then
    aComplexColor.setSchemeColor (rGraphicHelper.convertToThemeColorType nPhClrTheme)
  else
    let c0 := aComplexColor.setSchemeColor
      (rGraphicHelper.convertToThemeColorType maFillColor.schemeColorIndex)
    let c1 := if maFillColor.lumMod ≠ 10000 then
        c0.addTransformation ⟨.LumMod, maFillColor.lumMod⟩ else c0
    let c2 := if maFillColor.lumOff ≠ 0 then
        c1.addTransformation ⟨.LumOff, maFillColor.lumOff⟩ else c1
    let c3 := if maFillColor.tintOrShade > 0 then
        c2.addTransformation ⟨.Tint, maFillColor.tintOrShade⟩ else c2
    if maFillColor.tintOrShade < 0 then
      c3.addTransformation ⟨.Shade, wrap16 (-maFillColor.tintOrShade)⟩
    else c3

/-- Embeds `FillProperties::pushToPropMap`, case `XML_solidFill`. -/
def pushSolidFill (fp : FillProperties) (rGraphicHelper : GraphicHelper)
    (rPropMap : ShapePropertyMap) (nPhClr nPhClrTheme : Int) : ShapePropertyMap × FillStyle :=
  if fp.maFillColor.used then
    let aFillColor := rGraphicHelper.getColor fp.maFillColor nPhClr
    let m1 := (rPropMap.setProperty .FillColor (.color aFillColor)).1
    let m2 := if fp.maFillColor.hasTransparency then
        (m1.setProperty .FillTransparency (.int fp.maFillColor.transparency)).1 else m1
    let m3 := m2.setPropertyId .PROP_FillComplexColor
      (.complexColor (solidComplexColor rGraphicHelper fp.maFillColor aFillColor nPhClr
        nPhClrTheme))
    (m3, .SOLID)
  else (rPropMap, .NONE)

/-- The colour stops built from the DrawingML stops ("convert to ColorStops"). -/
def gradColorStops (rGraphicHelper : GraphicHelper) (g : GradientFillProperties)
    (nPhClr : Int) : List ColorStop :=
  g.maGradientStops.map fun rCandidate =>
    ⟨rCandidate.1, rGraphicHelper.getBColor (rGraphicHelper.getColor rCandidate.2 nPhClr)⟩

/-- The flag `bContainsTransparency` after the first loop over the stops. -/
def gradContainsTransparency (g : GradientFillProperties) : Bool :=
  g.maGradientStops.foldl (fun bContainsTransparency rCandidate =>
    bContainsTransparency || rCandidate.2.hasTransparency) false

/-- The transparency stops ("if we have transparency, convert to ColorStops"). -/
def gradTransparencyStops (g : GradientFillProperties) : List ColorStop :=
  if gradContainsTransparency g then
    g.maGradientStops.map fun rCandidate =>
      let fTrans : Rat := (rCandidate.2.transparency : Rat) * (1 / 100)
      ⟨rCandidate.1, ⟨fTrans, fTrans, fTrans⟩⟩
  else []

/-- The rotation used for the gradient: `"rotate with shape" set to false ->
do not rotate`. -/
def gradShapeRotation (g : GradientFillProperties) (nShapeRotation : Int) : Int :=
  if !(g.moRotateWithShape.getD true) then 0 else nShapeRotation

/-- The gradient of a path gradient (`moGradientPath` has a value): centre,
style and corner angles. -/
def pathGradient (g : GradientFillProperties) (path : Token) (aGradient : Gradient2) :
    Gradient2 :=
  let aFillToRect := g.moFillToRect.getD ⟨0, 0, MAX_PERCENT, MAX_PERCENT⟩
  let nCenterX := Int.tdiv (wrap32 (wrap32 (MAX_PERCENT + aFillToRect.X1) - aFillToRect.X2)) 2
  let XOffset := getLimitedValue (Int.tdiv nCenterX PER_PERCENT) 0 100
  let nCenterY := Int.tdiv (wrap32 (wrap32 (MAX_PERCENT + aFillToRect.Y1) - aFillToRect.Y2)) 2
  let YOffset := getLimitedValue (Int.tdiv nCenterY PER_PERCENT) 0 100
  let g1 := { aGradient with XOffset := XOffset, YOffset := YOffset }
  if path = .circle then
    if XOffset = 100 ∧ YOffset = 100 then { g1 with Angle := 450 }
    else if XOffset = 0 ∧ YOffset = 100 then { g1 with Angle := 3150 }
    else if XOffset = 100 ∧ YOffset = 0 then { g1 with Angle := 1350 }
    else if XOffset = 0 ∧ YOffset = 0 then { g1 with Angle := 2250 }
    else { g1 with Style := .RADIAL }
  else { g1 with Style := .RECT }

/-- The angle of a linear gradient: the shade angle adjusted for flips plus the
shape rotation, converted from DrawingML angle (1/60000 degree) to API angle
(1/10 degree) and stored in the `sal_Int16` member `Angle`. -/
def linearGradientAngle (moShadeAngle : Option Int) (nShapeRotation : Int)
    (bFlipH bFlipV : Bool) : Int :=
  let nShadeAngle := moShadeAngle.getD 0
  let nShadeAngle := if bFlipH then wrap32 (180 * 60000 - nShadeAngle) else nShadeAngle
  let nShadeAngle := if bFlipV then wrap32 (-nShadeAngle) else nShadeAngle
  let nDmlAngle := wrap32 (nShadeAngle + nShapeRotation)
  wrap16 (Int.tmod (wrap32 (8100 - Int.tdiv nDmlAngle (Int.tdiv PER_DEGREE 10))) 3600)

/-- The `awt::Gradient2` of case `XML_gradFill` before its colour stops and
start and end colour are set: the defaults, then the path or the linear case. -/
def gradGeometry (g : GradientFillProperties) (nShapeRotation : Int) (bFlipH bFlipV : Bool) :
    Gradient2 :=
  let aGradient : Gradient2 :=
    { Angle := 900, StartIntensity := 100, EndIntensity := 100, Style := .LINEAR }
  let nShapeRotation := gradShapeRotation g nShapeRotation
  match g.moGradientPath with
  | some path => pathGradient g path aGradient
  | none =>
    if !g.maGradientStops.isEmpty then
      { aGradient with
        Angle := linearGradientAngle g.moShadeAngle nShapeRotation bFlipH bFlipV }
    else aGradient

/-- The colour stops at the point where their first and last element are read:
reversed for a path gradient. -/
def gradFinalColorStops (rGraphicHelper : GraphicHelper) (g : GradientFillProperties)
    (nPhClr : Int) : List ColorStop :=
  match g.moGradientPath with
  | some _ => rGraphicHelper.reverseColorStops (gradColorStops rGraphicHelper g nPhClr)
  | none => gradColorStops rGraphicHelper g nPhClr

/-- The transparency stops after the path or linear case: reversed for a path
gradient. -/
def gradFinalTransparencyStops (rGraphicHelper : GraphicHelper) (g : GradientFillProperties) :
    List ColorStop :=
  match g.moGradientPath with
  | some _ => rGraphicHelper.reverseColorStops (gradTransparencyStops g)
  | none => gradTransparencyStops g

/-- The gradient pushed as `FillGradient`: geometry, colour stops, and the
start and end colour read from the first and last stop. -/
def gradFillGradient (rGraphicHelper : GraphicHelper) (g : GradientFillProperties)
    (nShapeRotation nPhClr : Int) (bFlipH bFlipV : Bool) : Gradient2 :=
  let aColorStops := gradFinalColorStops rGraphicHelper g nPhClr
  { gradGeometry g nShapeRotation bFlipH bFlipV with
    ColorStops := aColorStops
    StartColor := rGraphicHelper.fromBColor
      (aColorStops.head?.getD rGraphicHelper.undefinedStop).color
    EndColor := rGraphicHelper.fromBColor
      (aColorStops.getLast?.getD rGraphicHelper.undefinedStop).color }

/-- Embeds `FillProperties::pushToPropMap`, case `XML_gradFill`. -/
def pushGradFill (fp : FillProperties) (rGraphicHelper : GraphicHelper)
    (rPropMap : ShapePropertyMap) (nShapeRotation nPhClr : Int) (bFlipH bFlipV : Bool) :
    ShapePropertyMap × FillStyle :=
  if rPropMap.supportsProperty .FillGradient then
    let aGradient := gradFillGradient rGraphicHelper fp.maGradientProps nShapeRotation nPhClr
      bFlipH bFlipV
    let aTransparencyStops := gradFinalTransparencyStops rGraphicHelper fp.maGradientProps
    let r := rPropMap.setProperty .FillGradient (.gradient aGradient)
    let eFillStyle := if r.2 then FillStyle.GRADIENT else FillStyle.NONE
    if !aTransparencyStops.isEmpty then
      ((r.1.setProperty .GradientTransparency
        (.gradient { aGradient with ColorStops := aTransparencyStops })).1, eFillStyle)
    else (r.1, eFillStyle)
  else (rPropMap, .NONE)

/-- Case `XML_pattFill` where no hatch is set: the background colour, if used,
becomes a solid fill. -/
def pushPattBackground (fp : FillProperties) (rGraphicHelper : GraphicHelper)
    (rPropMap : ShapePropertyMap) (nPhClr : Int) : ShapePropertyMap × FillStyle :=
  if fp.maPatternProps.maPattBgColor.used then
    let aColor := fp.maPatternProps.maPattBgColor
    let m1 := (rPropMap.setProperty .FillColor
      (.color (rGraphicHelper.getColor aColor nPhClr))).1
    let m2 := if aColor.hasTransparency then
        (m1.setProperty .FillTransparency (.int aColor.transparency)).1 else m1
    (m2, .SOLID)
  else (rPropMap, .NONE)

/-- Embeds `FillProperties::pushToPropMap`, case `XML_pattFill`. -/
def pushPattFill (fp : FillProperties) (rGraphicHelper : GraphicHelper)
    (rPropMap : ShapePropertyMap) (nPhClr : Int) : ShapePropertyMap × FillStyle :=
  if rPropMap.supportsProperty .FillHatch then
    let aColor := fp.maPatternProps.maPattFgColor
    match aColor.used, fp.maPatternProps.moPattPreset with
    | true, some preset =>
      let m1 := (rPropMap.setProperty .FillHatch
        (.hatch preset (rGraphicHelper.getColor aColor nPhClr))).1
      let m2 := if aColor.hasTransparency then
          (m1.setProperty .FillTransparency (.int aColor.transparency)).1 else m1
      if fp.maPatternProps.maPattBgColor.used then
        let aColor := fp.maPatternProps.maPattBgColor
        let m3 := (m2.setProperty .FillBackground
          (.bool (decide (aColor.transparency ≠ 100)))).1
        ((m3.setProperty .FillColor (.color (rGraphicHelper.getColor aColor nPhClr))).1,
          .HATCH)
      else (m2, .HATCH)
    | _, _ => pushPattBackground fp rGraphicHelper rPropMap nPhClr
  else (rPropMap, .NONE)

end Oox

namespace Oox

/-- Case `XML_blipFill`: pushing the (possibly transformed) graphic as
`FillBitmapName` or `FillBitmap`; the map, `eFillStyle` and `xGraphic` afterwards. -/
def pushBlipGraphic (fp : FillProperties) (rGraphicHelper : GraphicHelper)
    (rPropMap : ShapePropertyMap) (nPhClr : Int) : ShapePropertyMap × FillStyle × XGraphicRef :=
  let xGraphic := lclCheckAndApplyDuotoneTransform rGraphicHelper fp.maBlipProps
    fp.maBlipProps.mxFillGraphic nPhClr
  if xGraphic.isSome then
    let xGraphic := if fp.maBlipProps.moColorEffect.getD .TOKEN_INVALID = .grayscl then
        rGraphicHelper.lclGreysScaleGraphic xGraphic else xGraphic
    if rPropMap.supportsProperty .FillBitmapName then
      let r := rPropMap.setProperty .FillBitmapName (.graphic xGraphic)
      if r.2 then (r.1, .BITMAP, xGraphic)
      else
        let r2 := r.1.setProperty .FillBitmap (.graphic xGraphic)
        (r2.1, if r2.2 then .BITMAP else .NONE, xGraphic)
    else
      let r2 := rPropMap.setProperty .FillBitmap (.graphic xGraphic)
      (r2.1, if r2.2 then .BITMAP else .NONE, xGraphic)
  else (rPropMap, .NONE, xGraphic)

/-- Case `XML_blipFill`, "additional settings for repeated bitmap". -/
def pushBlipRepeat (fp : FillProperties) (rGraphicHelper : GraphicHelper)
    (rPropMap : ShapePropertyMap) : ShapePropertyMap :=
  let eRectPoint := lclGetRectanglePoint (fp.maBlipProps.moTileAlign.getD .tl)
  let m1 := (rPropMap.setProperty .FillBitmapRectanglePoint (.rectPoint eRectPoint)).1
  let aOriginalSize := rGraphicHelper.lclGetOriginalSize fp.maBlipProps.mxFillGraphic
  if aOriginalSize.Width > 0 ∧ aOriginalSize.Height > 0 then
    let nFillBmpSizeX := rGraphicHelper.tileSize aOriginalSize.Width
      (fp.maBlipProps.moTileScaleX.getD MAX_PERCENT)
    let m2 := (m1.setProperty .FillBitmapSizeX (.int nFillBmpSizeX)).1
    let nFillBmpSizeY := rGraphicHelper.tileSize aOriginalSize.Height
      (fp.maBlipProps.moTileScaleY.getD MAX_PERCENT)
    let m3 := (m2.setProperty .FillBitmapSizeY (.int nFillBmpSizeY)).1
    let nTileOffsetX := rGraphicHelper.tileOffset (fp.maBlipProps.moTileOffsetX.getD 0)
      nFillBmpSizeX
    let m4 := (m3.setProperty .FillBitmapOffsetX (.int nTileOffsetX)).1
    let nTileOffsetY := rGraphicHelper.tileOffset (fp.maBlipProps.moTileOffsetY.getD 0)
      nFillBmpSizeY
    (m4.setProperty .FillBitmapOffsetY (.int nTileOffsetY)).1
  else m1

/-- The anchor chosen for a stretched bitmap that is pushed as a single tile. -/
def stretchRectPoint (aFillRect : IntegerRectangle2D) : RectanglePoint :=
  if aFillRect.X1 = 0 ∧ aFillRect.X2 ≠ 0 then
    if aFillRect.Y1 = 0 ∧ aFillRect.Y2 ≠ 0 then lclGetRectanglePoint .tl
    else if aFillRect.Y1 ≠ 0 ∧ aFillRect.Y2 = 0 then lclGetRectanglePoint .bl
    else lclGetRectanglePoint .l
  else if aFillRect.X1 ≠ 0 ∧ aFillRect.X2 = 0 then
    if aFillRect.Y1 = 0 ∧ aFillRect.Y2 ≠ 0 then lclGetRectanglePoint .tr
    else if aFillRect.Y1 ≠ 0 ∧ aFillRect.Y2 = 0 then lclGetRectanglePoint .br
    else lclGetRectanglePoint .r
  else
    if aFillRect.Y1 = 0 ∧ aFillRect.Y2 ≠ 0 then lclGetRectanglePoint .t
    else if aFillRect.Y1 ≠ 0 ∧ aFillRect.Y2 = 0 then lclGetRectanglePoint .b
    else lclGetRectanglePoint .ctr

/-- Case `XML_blipFill`, stretched bitmap with a fill rectangle: the map and
`eBitmapMode` afterwards. -/
def pushBlipStretch (rGraphicHelper : GraphicHelper) (rPropMap : ShapePropertyMap)
    (aFillRect : IntegerRectangle2D) (xGraphic : XGraphicRef) (rSize : Size)
    (bIsCustomShape : Bool) : ShapePropertyMap × BitmapMode :=
  let aOriginalSize := rGraphicHelper.getOriginalSize xGraphic
  if aOriginalSize.Width ≠ 0 ∧ aOriginalSize.Height ≠ 0 then
    let aGraphCrop : GraphicCrop :=
      { Left := if aFillRect.X1 ≠ 0 then
          rGraphicHelper.cropValue aOriginalSize.Width aFillRect.X1 else 0
        Top := if aFillRect.Y1 ≠ 0 then
          rGraphicHelper.cropValue aOriginalSize.Height aFillRect.Y1 else 0
        Right := if aFillRect.X2 ≠ 0 then
          rGraphicHelper.cropValue aOriginalSize.Width aFillRect.X2 else 0
        Bottom := if aFillRect.Y2 ≠ 0 then
          rGraphicHelper.cropValue aOriginalSize.Height aFillRect.Y2 else 0 }
    let bHasCropValues : Bool := decide (aGraphCrop.Left ≠ 0 ∨ aGraphCrop.Right ≠ 0 ∨
      aGraphCrop.Top ≠ 0 ∨ aGraphCrop.Bottom ≠ 0)
    let bNeedCrop : Bool := decide (aGraphCrop.Left ≤ 0 ∧ aGraphCrop.Right ≤ 0 ∧
      aGraphCrop.Top ≤ 0 ∧ aGraphCrop.Bottom ≤ 0)
    if bHasCropValues then
      if bIsCustomShape && bNeedCrop then
        let xGraphic := rGraphicHelper.lclCropGraphic xGraphic
          (CropQuotientsFromFillRect aFillRect)
        if rPropMap.supportsProperty .FillBitmapName then
          ((rPropMap.setProperty .FillBitmapName (.graphic xGraphic)).1, .STRETCH)
        else
          ((rPropMap.setProperty .FillBitmap (.graphic xGraphic)).1, .STRETCH)
      else if (aFillRect.X1 ≠ 0 ∧ aFillRect.X2 ≠ 0 ∧ aFillRect.X1 ≠ aFillRect.X2) ∨
          (aFillRect.Y1 ≠ 0 ∧ aFillRect.Y2 ≠ 0 ∧ aFillRect.Y1 ≠ aFillRect.Y2) then
        (rPropMap.setPropertyId .PROP_GraphicCrop (.crop aGraphCrop), .STRETCH)
      else
        let nSizeX := if aFillRect.X1 ≠ 0 ∨ aFillRect.X2 ≠ 0 then
            rGraphicHelper.stretchSize rSize.Width aFillRect.X1 aFillRect.X2
          else rSize.Width
        let m1 := (rPropMap.setProperty .FillBitmapSizeX (.int nSizeX)).1
        let nSizeY := if aFillRect.Y1 ≠ 0 ∨ aFillRect.Y2 ≠ 0 then
            rGraphicHelper.stretchSize rSize.Height aFillRect.Y1 aFillRect.Y2
          else rSize.Height
        let m2 := (m1.setProperty .FillBitmapSizeY (.int nSizeY)).1
        let m3 := (m2.setProperty .FillBitmapRectanglePoint
          (.rectPoint (stretchRectPoint aFillRect))).1
        (m3, .NO_REPEAT)
    else (rPropMap, .STRETCH)
  else (rPropMap, .STRETCH)

/-- Case `XML_blipFill`, "set other bitmap properties, if bitmap has been
inserted into the map". -/
def pushBlipMode (fp : FillProperties) (rGraphicHelper : GraphicHelper)
    (rPropMap : ShapePropertyMap) (xGraphic : XGraphicRef) (rSize : Size)
    (bIsCustomShape : Bool) : ShapePropertyMap :=
  let eBitmapMode := lclGetBitmapMode (fp.maBlipProps.moBitmapMode.getD .TOKEN_INVALID)
  if eBitmapMode = .REPEAT then
    ((pushBlipRepeat fp rGraphicHelper rPropMap).setProperty .FillBitmapMode
      (.bitmapMode eBitmapMode)).1
  else
    match eBitmapMode, fp.maBlipProps.moFillRect with
    | .STRETCH, some aFillRect =>
      let r := pushBlipStretch rGraphicHelper rPropMap aFillRect xGraphic rSize bIsCustomShape
      (r.1.setProperty .FillBitmapMode (.bitmapMode r.2)).1
    | _, _ => (rPropMap.setProperty .FillBitmapMode (.bitmapMode eBitmapMode)).1

/-- Embeds `FillProperties::pushToPropMap`, case `XML_blipFill`. -/
def pushBlipFill (fp : FillProperties) (rGraphicHelper : GraphicHelper)
    (rPropMap : ShapePropertyMap) (nPhClr : Int) (rSize : Size) (bIsCustomShape : Bool) :
    ShapePropertyMap × FillStyle :=
  if fp.maBlipProps.mxFillGraphic.isSome && rPropMap.supportsProperty .FillBitmap then
    let r := pushBlipGraphic fp rGraphicHelper rPropMap nPhClr
    let eFillStyle := r.2.1
    let m1 := if eFillStyle = .BITMAP then
        pushBlipMode fp rGraphicHelper r.1 r.2.2 rSize bIsCustomShape
      else r.1
    match fp.maBlipProps.moAlphaModFix with
    | some nAlpha =>
      ((m1.setProperty .FillTransparency
        (.int (wrap16 (wrap32 (100 - Int.tdiv nAlpha PER_PERCENT))))).1, eFillStyle)
    | none => (m1, eFillStyle)
  else (rPropMap, .NONE)

/-- Embeds `FillProperties::pushToPropMap`: the property map after the call. -/
def FillProperties.pushToPropMap (fp : FillProperties) (rPropMap : ShapePropertyMap)
    (rGraphicHelper : GraphicHelper) (nShapeRotation : Int) (nPhClr : Int) (rSize : Size)
    (nPhClrTheme : Int) (bFlipH bFlipV bIsCustomShape : Bool) : ShapePropertyMap :=
  match fp.moFillType with
  | none => rPropMap
  | some nFillType =>
    let r : ShapePropertyMap × FillStyle :=
      match nFillType with
      | .noFill => pushNoFill fp rPropMap
      | .solidFill => pushSolidFill fp rGraphicHelper rPropMap nPhClr nPhClrTheme
      | .gradFill =>
        pushGradFill fp rGraphicHelper rPropMap nShapeRotation nPhClr bFlipH bFlipV
      | .blipFill => pushBlipFill fp rGraphicHelper rPropMap nPhClr rSize bIsCustomShape
      | .pattFill => pushPattFill fp rGraphicHelper rPropMap nPhClr
      | .grpFill => (rPropMap, .NONE)
      | _ => (rPropMap, .NONE)
    (r.1.setProperty .FillStyle (.fillStyle r.2)).1

/-- A graphic helper with simple collaborators, for evaluating the code on
concrete inputs: colours resolve to their data, channels are not converted,
and no graphic is transformed. -/
def sampleHelper : GraphicHelper where
  getColor := fun c _ => c.data
  getBColor := fun c => ⟨c, c, c⟩
  fromBColor := fun c => c.red.floor
  undefinedStop := ⟨0, ⟨0, 0, 0⟩⟩
  convertToThemeColorType := fun n => n
  reverseColorStops := fun l => l.reverse
  isTransformer := fun _ => false
  applyDuotone := fun _ x _ _ => x
  lclGreysScaleGraphic := fun x => x
  lclCropGraphic := fun x _ => x
  lclGetOriginalSize := fun _ => ⟨100, 100⟩
  getOriginalSize := fun _ => ⟨100, 100⟩
  tileSize := fun n _ => n
  tileOffset := fun _ _ => 0
  cropValue := fun _ _ => 0
  stretchSize := fun n _ _ => n

/-- A property map that supports every shape property, accepts every value
and has no writes yet. -/
def emptyMap : ShapePropertyMap where
  supports := fun _ => true
  accepts := fun _ _ => true
  writes := []

/-- A two-stop linear gradient fill with shade angle 90 degrees. -/
def sampleLinearFill : FillProperties where
  moFillType := some .gradFill
  maGradientProps :=
    { maGradientStops := [(0, { used := true, data := 1 }), (1, { used := true, data := 2 })]
      moShadeAngle := some 5400000 }

/-- A two-stop linear gradient fill with shade angle 45 degrees that does not
rotate with the shape. -/
def sampleFixedFill : FillProperties where
  moFillType := some .gradFill
  maGradientProps :=
    { maGradientStops := [(0, { used := true, data := 1 }), (1, { used := true, data := 2 })]
      moShadeAngle := some 2700000
      moRotateWithShape := some false }

end Oox

namespace Oox

/-! ### Specification vocabulary for the fill properties -/

/-- Map `m'` arises from `m` by further writes, none of them to `FillStyle`. -/
def ExtendsWithoutFillStyle (m m' : ShapePropertyMap) : Prop :=
  m'.supports = m.supports ∧ m'.accepts = m.accepts ∧
    ∃ ws : List (PropKey × PropValue),
      m'.writes = m.writes ++ ws ∧ ∀ w ∈ ws, w.1 ≠ PropKey.shape .FillStyle

/-- The gradient angle as the specification words it: the shade angle `a`,
replaced by `10800000 - a` when flipped horizontally and then negated when
flipped vertically, plus the rotation `r`, converted with truncating division
and remainder. -/
def specGradientAngle (a r : Int) (bFlipH bFlipV : Bool) : Int :=
  let a1 := if bFlipH then 10800000 - a else a
  let a2 := if bFlipV then -a1 else a1
  Int.tmod (8100 - Int.tdiv (a2 + r) 6000) 3600

end Oox

/-! ## Part 3: ODF transparency gradient styles (`TransGradientStyle.cxx`) -/

namespace Xmloff

open Oox

/-- A value stored in a `sal_uInt8` (wrap-around modulo 256). -/
def wrapU8 (x : Int) : Int := x % 256

/-- Modelled from the spec: `Color( nRed, nGreen, nBlue )` of tools/color.hxx (not
among the sources) converted to `sal_Int32`: the channels packed as 0xRRGGBB. -/
def colorRGB (nRed nGreen nBlue : Int) : Int :=
  nRed * 65536 + nGreen * 256 + nBlue

/-- Modelled from the spec: `Color( ColorTransparency, nColor ).GetRed()`, bits
16 to 23 of the 32-bit colour value. -/
def GetRed (nColor : Int) : Int := (nColor % 4294967296) / 65536 % 256

/-- Modelled from the spec: `Color::GetGreen()`, bits 8 to 15 of the colour value. -/
def GetGreen (nColor : Int) : Int := (nColor % 4294967296) / 256 % 256

/-- Modelled from the spec: `Color::GetBlue()`, bits 0 to 7 of the colour value. -/
def GetBlue (nColor : Int) : Int := (nColor % 4294967296) % 256

/-- One attribute of a `draw:opacity` element as the import loop sees it: its
token, and the value the sax converter reads from its text (`convertPercent`
for percentages, `convertEnum` for the style and `convertAngle` for the angle,
which leave their target alone when they fail; none of them is among the
sources). -/
inductive ImportAttribute where
  | DRAW_NAME (s : String)
  | DRAW_DISPLAY_NAME (s : String)
  | DRAW_STYLE (style : Option GradientStyle)
  | DRAW_CX (nTmpValue : Int)
  | DRAW_CY (nTmpValue : Int)
  | DRAW_START (aStartTransparency : Int)
  | DRAW_END (aEndTransparency : Int)
  | DRAW_GRADIENT_ANGLE (angle : Option Int)
  | DRAW_BORDER (nTmpValue : Int)
  | unknown
  deriving DecidableEq, Repr

/-- The locals of `importXML` that the attribute loop updates. -/
structure ImportState where
  aGradient : Gradient2
  rStrName : String
  aDisplayName : String
  deriving DecidableEq, Repr

/-- The grey level computed for `draw:start` and `draw:end`:
`static_int_cast< sal_uInt8 >( ( (100 - aTransparency) * 255 ) / 100 )`. -/
def transparencyToGrey (aTransparency : Int) : Int :=
  wrapU8 (Int.tdiv (wrap32 (wrap32 (100 - aTransparency) * 255)) 100)

/-- The body of the attribute loop of `XMLTransGradientStyleImport::importXML`. -/
def importAttribute (s : ImportState) : ImportAttribute → ImportState
  | .DRAW_NAME str => { s with rStrName := str }
  | .DRAW_DISPLAY_NAME str => { s with aDisplayName := str }
  | .DRAW_STYLE style =>
    match style with
    | some v => { s with aGradient := { s.aGradient with Style := v } }
    | none => s
  | .DRAW_CX nTmpValue => { s with aGradient := { s.aGradient with XOffset := wrap16 nTmpValue } }
  | .DRAW_CY nTmpValue => { s with aGradient := { s.aGradient with YOffset := wrap16 nTmpValue } }
  | .DRAW_START aStartTransparency =>
    let n := transparencyToGrey aStartTransparency
    { s with aGradient := { s.aGradient with StartColor := colorRGB n n n } }
  | .DRAW_END aEndTransparency =>
    let n := transparencyToGrey aEndTransparency
    { s with aGradient := { s.aGradient with EndColor := colorRGB n n n } }
  | .DRAW_GRADIENT_ANGLE angle =>
    match angle with
    | some a => { s with aGradient := { s.aGradient with Angle := a } }
    | none => s
  | .DRAW_BORDER nTmpValue =>
    { s with aGradient := { s.aGradient with Border := wrap16 nTmpValue } }
  | .unknown => s

/-- What `importXML` hands back: the gradient put into `rValue`, the style name
`rStrName`, and the pair registered with `AddStyleDisplayName`, if any. -/
structure ImportResult where
  rValue : Gradient2
  rStrName : String
  registered : Option (String × String)
  deriving DecidableEq, Repr

/-- Embeds `XMLTransGradientStyleImport::importXML`. -/
def importXML (xAttrList : List ImportAttribute) : ImportResult :=
  let aGradient : Gradient2 :=
    { XOffset := 0, YOffset := 0, StartIntensity := 100, EndIntensity := 100,
      Angle := 0, Border := 0 }
  let s := xAttrList.foldl importAttribute ⟨aGradient, "", ""⟩
  if !s.aDisplayName.isEmpty then
    { rValue := s.aGradient, rStrName := s.aDisplayName,
      registered := some (s.rStrName, s.aDisplayName) }
  else
    { rValue := s.aGradient, rStrName := s.rStrName, registered := none }

/-- The attribute names written by the export. -/
inductive AttributeName where
  | DRAW_NAME | DRAW_DISPLAY_NAME | DRAW_STYLE | DRAW_CX | DRAW_CY
  | DRAW_START | DRAW_END | DRAW_GRADIENT_ANGLE | DRAW_BORDER
  | SVG_OFFSET | SVG_STOP_OPACITY
  deriving DecidableEq, Repr

/-- The value of a written attribute, before the sax converter turns it into
text: a string, a gradient style (`convertEnum`), a percentage
(`convertPercent`), an angle (`convertAngle`) or a number (`OUString::number`). -/
inductive AttributeValue where
  | text (s : String)
  | style (v : GradientStyle)
  | percent (n : Int)
  | angle (n : Int)
  | number (x : Rat)
  deriving DecidableEq, Repr

/-- A written `loext:opacity-stop` element. -/
structure OpacityStopElement where
  attributes : List (AttributeName × AttributeValue)
  deriving DecidableEq, Repr

/-- A written `draw:opacity` element with its child elements. -/
structure OpacityElement where
  attributes : List (AttributeName × AttributeValue)
  stops : List OpacityStopElement
  deriving DecidableEq, Repr

/-- The parts of `SvXMLExport` the export uses: whether the ODF version is an
extended one (`getSaneDefaultVersion() & ODFSVER_EXTENDED`), and
`EncodeStyleName` with its `bEncoded` flag. -/
structure SvXMLExport where
  extended : Bool
  EncodeStyleName : String → String × Bool

/-- `std::clamp<double>( v, lo, hi )`, with rationals for doubles. -/
def clamp (v lo hi : Rat) : Rat :=
  if v < lo then lo else if hi < v then hi else v

/-- The loop over the colour stops in `exportXML`, started with the given
`fPreviousOffset`: one `loext:opacity-stop` per stop. -/
def exportStops : Rat → List ColorStop → List OpacityStopElement
  | _, [] => []
  | fPreviousOffset, aCandidate :: rest =>
    let fOffset := clamp aCandidate.offset 0 1
    let fOffset := if fOffset < fPreviousOffset then fPreviousOffset else fOffset
    let fOpacity := clamp (1 - aCandidate.color.red) 0 1
    ⟨[(.SVG_OFFSET, .number fOffset), (.SVG_STOP_OPACITY, .number fOpacity)]⟩
      :: exportStops fOffset rest

/-- The transparency percentage written for `draw:start` and `draw:end`:
`100 - static_cast<sal_Int32>(((aColor.GetRed() + 1) * 100) / 255)`. -/
def greyToTransparency (nColor : Int) : Int :=
  wrap32 (100 - Int.tdiv ((GetRed nColor + 1) * 100) 255)

/-- Embeds `XMLTransGradientStyleExport::exportXML`: the element written, or
nothing. `rValue` is `none` when the value holds no gradient. -/
def exportXML (rExport : SvXMLExport) (rStrName : String) (rValue : Option Gradient2) :
    Option OpacityElement :=
  if rStrName.isEmpty then none
  else
    match rValue with
    | none => none
    | some aGradient =>
      let enc := rExport.EncodeStyleName rStrName
      let aName : List (AttributeName × AttributeValue) :=
        (.DRAW_NAME, .text enc.1) ::
          (if enc.2 then [(.DRAW_DISPLAY_NAME, .text rStrName)] else [])
      let aStyle : List (AttributeName × AttributeValue) :=
        [(.DRAW_STYLE, .style aGradient.Style)]
      let aCenter : List (AttributeName × AttributeValue) :=
        if aGradient.Style ≠ .LINEAR ∧ aGradient.Style ≠ .AXIAL then
          [(.DRAW_CX, .percent aGradient.XOffset), (.DRAW_CY, .percent aGradient.YOffset)]
        else []
      let aStartValue := greyToTransparency aGradient.StartColor
      let aEndValue := greyToTransparency aGradient.EndColor
      let aTransparency : List (AttributeName × AttributeValue) :=
        [(.DRAW_START, .percent aStartValue), (.DRAW_END, .percent aEndValue)]
      let aAngle : List (AttributeName × AttributeValue) :=
        if aGradient.Style ≠ .RADIAL then [(.DRAW_GRADIENT_ANGLE, .angle aGradient.Angle)]
        else []
      let aBorder : List (AttributeName × AttributeValue) :=
        [(.DRAW_BORDER, .percent aGradient.Border)]
      let attributes := aName ++ aStyle ++ aCenter ++ aTransparency ++ aAngle ++ aBorder
      if !rExport.extended then some ⟨attributes, []⟩
      else if aGradient.ColorStops.length = 0 then some ⟨attributes, []⟩
      else some ⟨attributes, exportStops 0 aGradient.ColorStops⟩

/-- An export to extended ODF that encodes no style name. -/
def sampleExport : SvXMLExport where
  extended := true
  EncodeStyleName := fun s => (s, false)

/-- A transparency gradient with three stops whose offsets are out of range
and out of order. -/
def sampleStopGradient : Gradient2 where
  ColorStops := [⟨-1 / 2, ⟨0, 0, 0⟩⟩, ⟨3 / 4, ⟨1, 1, 1⟩⟩, ⟨1 / 4, ⟨1 / 2, 1 / 2, 1 / 2⟩⟩]

/-! ### Specification vocabulary for the transparency gradient styles -/

/-- The values written under an attribute name, in order. -/
def valuesOf (name : AttributeName) (attributes : List (AttributeName × AttributeValue)) :
    List AttributeValue :=
  (attributes.filter (fun a => a.1 = name)).map (fun a => a.2)

/-- The `svg:offset` values of the written stop elements, in order. -/
def writtenOffsets (stops : List OpacityStopElement) : List (List AttributeValue) :=
  stops.map (fun s => valuesOf .SVG_OFFSET s.attributes)

/-- The offsets as the specification words them: the `k`-th is the maximum of
the stop's offset clamped to `[0, 1]` and the offset written before it
(`previous`, 0 before the first stop). -/
def specOffsets : Rat → List Rat → List Rat
  | _, [] => []
  | previous, offset :: rest =>
    let written := max (max 0 (min offset 1)) previous
    written :: specOffsets written rest

/-- The grey level the specification gives for a transparency percentage `p`:
`((100 - p) * 255) / 100`, truncating. -/
def specGrey (p : Int) : Int := Int.tdiv ((100 - p) * 255) 100

/-- The percentage the specification gives for a grey level `n`:
`100 - ((n + 1) * 100) / 255`, truncating. -/
def specPercent (n : Int) : Int := 100 - Int.tdiv ((n + 1) * 100) 255

end Xmloff

/-! ## Part 4: picture properties and bitmap cropping (`fillproperties.cxx`) -/

namespace Oox

/-- The UNO enum `com.sun.star.drawing.ColorMode`. -/
inductive ColorMode where
  | STANDARD | GREYS | MONO | WATERMARK
  deriving DecidableEq, Repr

/-- The plain property ids (`PROP_...`) that `GraphicProperties::pushToPropMap`
writes. -/
inductive PropId where
  | PROP_GraphicCrop | PROP_FillStyle | PROP_FillBitmapMode | PROP_FillBitmap
  | PROP_Graphic | PROP_Transparency | PROP_GraphicColorMode
  | PROP_AdjustLuminance | PROP_AdjustContrast | PROP_MediaURL | PROP_PrivateStream
  deriving DecidableEq, Repr

/-- The values `GraphicProperties::pushToPropMap` writes. -/
inductive PropAny where
  | crop (c : GraphicCrop)
  | fillStyle (s : FillStyle)
  | bitmapMode (m : BitmapMode)
  | graphic (x : XGraphicRef)
  | int (n : Int)
  | colorMode (m : ColorMode)
  | text (s : String)
  | stream (id : Nat)
  deriving DecidableEq, Repr

/-- Modelled from the spec: `PropertyMap` (propertymap.cxx is not among the
sources), as far as the picture code uses it. `rotateAngle` is what the map
holds under `PROP_RotateAngle` when the call starts (`hasProperty`, and the
`tools::Long` read from `getProperty`); `writes` records, in order, every
`setProperty` call made on the map. -/
structure PropertyMap where
  rotateAngle : Option Int := none
  writes : List (PropId × PropAny) := []
  deriving DecidableEq, Repr

/-- Modelled from the spec: `PropertyMap::setProperty( nPropId, value )`. -/
def PropertyMap.setProperty (self : PropertyMap) (k : PropId) (v : PropAny) : PropertyMap :=
  { self with writes := self.writes ++ [(k, v)] }

/-- The link types `lclCheckAndApplyChangeColorTransform` tells apart. -/
inductive GfxLinkType where
  | NativeJpg | NativePng | NativeTif | NativeBmp | other
  deriving DecidableEq, Repr

/-- The further collaborators of the picture code that are not among the
sources, taken as parameters: the link type of a graphic (`none` when it has no
link), the `colorChange` and `applyBrightnessContrast` methods of the graphic
transformer, the monochrome bitmap filter with its threshold, rotation and
mirroring of a bitmap, and the double-precision computations (the alpha
`(100 - nToTransparence) * 2.55` stored in a `sal_Int8`, and the rounded crop
value `rtl::math::round( width * x / 100000 )`). -/
structure GraphicFilters where
  gfxLinkType : XGraphicRef → Option GfxLinkType
  colorChange : XGraphicRef → XGraphicRef → Int → Int → Int → Int → XGraphicRef
  toAlpha : Int → Int
  monochromeFilter : XGraphicRef → Int → XGraphicRef
  transformBrightnessContrast : XGraphicRef → Int → Int → XGraphicRef
  lclRotateGraphic : XGraphicRef → Int → XGraphicRef
  lclMirrorGraphic : XGraphicRef → Bool → Bool → XGraphicRef
  roundCrop : Int → Int → Int

/-- Modelled from the spec: `API_RGB_TRANSPARENT` of helper.hxx (not among the
sources), the colour value 0xffffffff. -/
def API_RGB_TRANSPARENT : Int := 4294967295

/-- Embeds `lclCheckAndApplyChangeColorTransform`. -/
def lclCheckAndApplyChangeColorTransform (rGraphicHelper : GraphicHelper)
    (f : GraphicFilters) (aBlipProps : BlipFillProperties) (xGraphic : XGraphicRef)
    (nPhClr : Int) : XGraphicRef :=
  if aBlipProps.maColorChangeFrom.used && aBlipProps.maColorChangeTo.used then
    let nFromColor := rGraphicHelper.getColor aBlipProps.maColorChangeFrom nPhClr
    let nToColor := rGraphicHelper.getColor aBlipProps.maColorChangeTo nPhClr
    if nFromColor ≠ nToColor ∨ aBlipProps.maColorChangeTo.hasTransparency = true then
      let nToTransparence := aBlipProps.maColorChangeTo.transparency
      let nToAlpha := f.toAlpha nToTransparence
      let nTolerance : Int :=
        match f.gfxLinkType xGraphic with
        | some .NativeJpg => 15
        | some .NativePng => 1
        | some .NativeTif => 1
        | some .NativeBmp => 0
        | _ => 9
      if rGraphicHelper.isTransformer aBlipProps.mxFillGraphic then
        f.colorChange aBlipProps.mxFillGraphic xGraphic nFromColor nTolerance nToColor nToAlpha
      else xGraphic
    else xGraphic
  else xGraphic

/-- The threshold handed to the monochrome filter:
`static_cast<sal_uInt8>(oBiLevelThreshold.value() * 255 / MAX_PERCENT)`. -/
def biLevelThreshold (nThreshold : Int) : Int :=
  (Int.tdiv (wrap32 (nThreshold * 255)) MAX_PERCENT) % 256

/-- Embeds `lclApplyBlackWhiteEffect`: the monochrome filter is applied when the
threshold has a value, otherwise the graphic is returned as it is. -/
def lclApplyBlackWhiteEffect (f : GraphicFilters) (aBlipProps : BlipFillProperties)
    (xGraphic : XGraphicRef) : XGraphicRef :=
  match aBlipProps.moBiLevelThreshold with
  | some nValue => f.monochromeFilter xGraphic (biLevelThreshold nValue)
  | none => xGraphic

/-- Embeds `applyBrightnessContrast`. -/
def applyBrightnessContrast (rGraphicHelper : GraphicHelper) (f : GraphicFilters)
    (xGraphic : XGraphicRef) (brightness contrast : Int) : XGraphicRef :=
  if rGraphicHelper.isTransformer xGraphic then
    f.transformBrightnessContrast xGraphic brightness contrast
  else xGraphic

/-- Embeds `GraphicProperties` with the members the code names (the struct is
declared in graphicproperties.hxx, which is not among the sources). -/
structure GraphicProperties where
  maBlipProps : BlipFillProperties := {}
  m_sMediaPackageURL : String := ""
  m_xMediaStream : Option Nat := none
  mbIsCustomShape : Bool := false
  deriving DecidableEq, Repr

/-- The initial `nBrightness` of `GraphicProperties::pushToPropMap`. -/
def GraphicProperties.initialBrightness (gp : GraphicProperties) : Int :=
  getLimitedValue (Int.tdiv (gp.maBlipProps.moBrightness.getD 0) PER_PERCENT) (-100) 100

/-- The initial `nContrast` of `GraphicProperties::pushToPropMap`. -/
def GraphicProperties.initialContrast (gp : GraphicProperties) : Int :=
  getLimitedValue (Int.tdiv (gp.maBlipProps.moContrast.getD 0) PER_PERCENT) (-100) 100

/-- The initial `eColorMode` of `GraphicProperties::pushToPropMap`. -/
def GraphicProperties.initialColorMode (gp : GraphicProperties) : ColorMode :=
  match gp.maBlipProps.moColorEffect.getD .TOKEN_INVALID with
  | .biLevel => .MONO
  | .grayscl => .GREYS
  | _ => .STANDARD

/-- The transformed graphic (colour change, then duotone) with which the
colour-mode handling starts. -/
def GraphicProperties.transformedGraphic (gp : GraphicProperties)
    (rGraphicHelper : GraphicHelper) (f : GraphicFilters) : XGraphicRef :=
  lclCheckAndApplyDuotoneTransform rGraphicHelper gp.maBlipProps
    (lclCheckAndApplyChangeColorTransform rGraphicHelper f gp.maBlipProps
      gp.maBlipProps.mxFillGraphic API_RGB_TRANSPARENT)
    API_RGB_TRANSPARENT

/-- The graphic and colour mode after the biLevel handling
(`if( eColorMode == ColorMode_MONO ) ...`). -/
def GraphicProperties.biLevelStage (gp : GraphicProperties) (rGraphicHelper : GraphicHelper)
    (f : GraphicFilters) : XGraphicRef × ColorMode :=
  let xGraphic := gp.transformedGraphic rGraphicHelper f
  if gp.initialColorMode = .MONO then
    if gp.maBlipProps.moBiLevelThreshold ≠ some 50000 then
      (lclApplyBlackWhiteEffect f gp.maBlipProps xGraphic, .STANDARD)
    else (xGraphic, .MONO)
  else (xGraphic, gp.initialColorMode)

/-- The locals `xGraphic`, `eColorMode`, `nBrightness` and `nContrast`. -/
structure GraphicEffects where
  xGraphic : XGraphicRef
  eColorMode : ColorMode
  nBrightness : Int
  nContrast : Int
  deriving DecidableEq, Repr

/-- The locals after the washout and brightness/contrast handling. -/
def GraphicProperties.adjustStage (gp : GraphicProperties) (rGraphicHelper : GraphicHelper)
    (f : GraphicFilters) : GraphicEffects :=
  let s := gp.biLevelStage rGraphicHelper f
  let nBrightness := gp.initialBrightness
  let nContrast := gp.initialContrast
  if s.2 = .STANDARD ∧ nBrightness = 70 ∧ nContrast = -70 then
    ⟨s.1, .WATERMARK, 0, 0⟩
  else if nBrightness ≠ 0 ∧ nContrast ≠ 0 then
    ⟨applyBrightnessContrast rGraphicHelper f s.1 nBrightness nContrast, s.2, 0, 0⟩
  else ⟨s.1, s.2, nBrightness, nContrast⟩

end Oox

namespace Oox

/-- Embeds `CropQuotientsFromSrcRect`; the two sums are `sal_Int32` additions. -/
def CropQuotientsFromSrcRect (aSrcRect : IntegerRectangle2D) : Option Quotients :=
  let X1 := max aSrcRect.X1 0
  let X2 := max aSrcRect.X2 0
  let Y1 := max aSrcRect.Y1 0
  let Y2 := max aSrcRect.Y2 0
  if wrap32 (X1 + X2) ≥ 100000 ∨ wrap32 (Y1 + Y2) ≥ 100000 then none
  else some (getQuotients ⟨X1, Y1, X2, Y2⟩ 100000 100000)

/-- `std::round` on a double, with rationals for doubles: to the nearest
integer, halfway cases away from zero. -/
def stdRound (x : Rat) : Int :=
  if 0 ≤ x then Int.floor (x + 1 / 2) else -Int.floor (-x + 1 / 2)

/-- The rectangle handed to `BitmapEx::Crop`. -/
structure CropRectangle where
  Left : Int
  Top : Int
  Right : Int
  Bottom : Int
  deriving DecidableEq, Repr

/-- The rectangle `lclCropGraphic` passes to `Crop` for a bitmap of the given
pixel size and the given quotients:
`{ l, t, bmpSize.Width() - r - 1, bmpSize.Height() - b - 1 }`. -/
def lclCropRectangle (bmpSize : Size) (quotients : Quotients) : CropRectangle :=
  let l := stdRound (bmpSize.Width * quotients.qx1)
  let t := stdRound (bmpSize.Height * quotients.qy1)
  let r := stdRound (bmpSize.Width * quotients.qx2)
  let b := stdRound (bmpSize.Height * quotients.qy2)
  ⟨l, t, bmpSize.Width - r - 1, bmpSize.Height - b - 1⟩

/-- The "cropping" block of `GraphicProperties::pushToPropMap`: the map and
`xGraphic` afterwards. -/
def GraphicProperties.cropStage (gp : GraphicProperties) (rGraphicHelper : GraphicHelper)
    (f : GraphicFilters) (rPropMap : PropertyMap) (xGraphic : XGraphicRef) :
    PropertyMap × XGraphicRef :=
  match gp.maBlipProps.moClipRect with
  | some oClipRect =>
    let aOriginalSize := rGraphicHelper.getOriginalSize xGraphic
    if aOriginalSize.Width ≠ 0 ∧ aOriginalSize.Height ≠ 0 then
      let aGraphCrop : GraphicCrop :=
        { Left := if oClipRect.X1 ≠ 0 then f.roundCrop aOriginalSize.Width oClipRect.X1 else 0
          Top := if oClipRect.Y1 ≠ 0 then f.roundCrop aOriginalSize.Height oClipRect.Y1 else 0
          Right := if oClipRect.X2 ≠ 0 then f.roundCrop aOriginalSize.Width oClipRect.X2 else 0
          Bottom :=
            if oClipRect.Y2 ≠ 0 then f.roundCrop aOriginalSize.Height oClipRect.Y2 else 0 }
      let m1 := rPropMap.setProperty .PROP_GraphicCrop (.crop aGraphCrop)
      let bHasCropValues : Bool := decide (aGraphCrop.Left ≠ 0 ∨ aGraphCrop.Right ≠ 0 ∨
        aGraphCrop.Top ≠ 0 ∨ aGraphCrop.Bottom ≠ 0)
      let bNeedCrop : Bool := decide (aGraphCrop.Left ≥ 0 ∧ aGraphCrop.Right ≥ 0 ∧
        aGraphCrop.Top ≥ 0 ∧ aGraphCrop.Bottom ≥ 0)
      if gp.mbIsCustomShape && bHasCropValues && bNeedCrop then
        (m1, rGraphicHelper.lclCropGraphic xGraphic (CropQuotientsFromSrcRect oClipRect))
      else (m1, xGraphic)
    else (rPropMap, xGraphic)
  | none => (rPropMap, xGraphic)

/-- The block of `GraphicProperties::pushToPropMap` that writes the graphic: as
a rotated, mirrored and possibly grey-scaled fill bitmap for a custom shape,
as `Graphic` otherwise. -/
def GraphicProperties.graphicStage (gp : GraphicProperties) (rGraphicHelper : GraphicHelper)
    (f : GraphicFilters) (rPropMap : PropertyMap) (xGraphic : XGraphicRef)
    (eColorMode : ColorMode) (bFlipH bFlipV : Bool) : PropertyMap :=
  if gp.mbIsCustomShape then
    let m1 := rPropMap.setProperty .PROP_FillStyle (.fillStyle .BITMAP)
    let m2 := m1.setProperty .PROP_FillBitmapMode (.bitmapMode .STRETCH)
    let x1 := match m2.rotateAngle with
      | some nAngle => f.lclRotateGraphic xGraphic (Int.tdiv nAngle 10)
      | none => xGraphic
    let x2 := if bFlipH || bFlipV then f.lclMirrorGraphic x1 bFlipH bFlipV else x1
    let x3 := if eColorMode = .GREYS then rGraphicHelper.lclGreysScaleGraphic x2 else x2
    m2.setProperty .PROP_FillBitmap (.graphic x3)
  else rPropMap.setProperty .PROP_Graphic (.graphic xGraphic)

/-- The part of `GraphicProperties::pushToPropMap` inside
`if (maBlipProps.mxFillGraphic.is())`: the map afterwards. -/
def GraphicProperties.pushGraphic (gp : GraphicProperties) (rGraphicHelper : GraphicHelper)
    (f : GraphicFilters) (rPropMap : PropertyMap) (bFlipH bFlipV : Bool) : PropertyMap :=
  let e := gp.adjustStage rGraphicHelper f
  let c := gp.cropStage rGraphicHelper f rPropMap e.xGraphic
  let m := gp.graphicStage rGraphicHelper f c.1 c.2 e.eColorMode bFlipH bFlipV
  match gp.maBlipProps.moAlphaModFix with
  | some nAlpha =>
    m.setProperty .PROP_Transparency (.int (wrap16 (wrap32 (100 - Int.tdiv nAlpha PER_PERCENT))))
  | none => m

/-- The locals `eColorMode`, `nBrightness` and `nContrast` when the final
writes are made. -/
def GraphicProperties.finalEffects (gp : GraphicProperties) (rGraphicHelper : GraphicHelper)
    (f : GraphicFilters) : ColorMode × Int × Int :=
  if gp.maBlipProps.mxFillGraphic.isSome then
    let e := gp.adjustStage rGraphicHelper f
    (e.eColorMode, e.nBrightness, e.nContrast)
  else (gp.initialColorMode, gp.initialBrightness, gp.initialContrast)

/-- The writes made after the graphic block: colour mode, brightness and
contrast, media content. -/
def GraphicProperties.finalWrites (gp : GraphicProperties) (eColorMode : ColorMode)
    (nBrightness nContrast : Int) : List (PropId × PropAny) :=
  [(.PROP_GraphicColorMode, .colorMode eColorMode)] ++
  (if nBrightness ≠ 0 then [(.PROP_AdjustLuminance, .int nBrightness)] else []) ++
  (if nContrast ≠ 0 then [(.PROP_AdjustContrast, .int nContrast)] else []) ++
  (if !gp.m_sMediaPackageURL.isEmpty then
    (.PROP_MediaURL, .text gp.m_sMediaPackageURL) ::
      (match gp.m_xMediaStream with
        | some id => [(.PROP_PrivateStream, .stream id)]
        | none => [])
  else [])

/-- Embeds `GraphicProperties::pushToPropMap`: the property map after the call. -/
def GraphicProperties.pushToPropMap (gp : GraphicProperties) (rPropMap : PropertyMap)
    (rGraphicHelper : GraphicHelper) (f : GraphicFilters) (bFlipH bFlipV : Bool) :
    PropertyMap :=
  let m := if gp.maBlipProps.mxFillGraphic.isSome then
      gp.pushGraphic rGraphicHelper f rPropMap bFlipH bFlipV
    else rPropMap
  let e := gp.finalEffects rGraphicHelper f
  let m1 := m.setProperty .PROP_GraphicColorMode (.colorMode e.1)
  let m2 := if e.2.1 ≠ 0 then m1.setProperty .PROP_AdjustLuminance (.int e.2.1) else m1
  let m3 := if e.2.2 ≠ 0 then m2.setProperty .PROP_AdjustContrast (.int e.2.2) else m2
  if !gp.m_sMediaPackageURL.isEmpty then
    let m4 := m3.setProperty .PROP_MediaURL (.text gp.m_sMediaPackageURL)
    match gp.m_xMediaStream with
    | some id => m4.setProperty .PROP_PrivateStream (.stream id)
    | none => m4
  else m3

/-- Graphic filters that mark what they do in the identity of the graphic, for
evaluating the code on concrete inputs: the monochrome filter adds 1000, the
brightness/contrast transformer adds 2000; nothing else changes the graphic. -/
def sampleFilters : GraphicFilters where
  gfxLinkType := fun _ => none
  colorChange := fun _ x _ _ _ _ => x
  toAlpha := fun n => n
  monochromeFilter := fun x _ => x.map (· + 1000)
  transformBrightnessContrast := fun x _ _ => x.map (· + 2000)
  lclRotateGraphic := fun x _ => x
  lclMirrorGraphic := fun x _ _ => x
  roundCrop := fun _ _ => 0

/-- A picture with the biLevel colour effect whose threshold is not set. -/
def sampleBiLevelPicture : GraphicProperties where
  maBlipProps := { mxFillGraphic := some 7, moColorEffect := some .biLevel }

/-- A picture with brightness 70% and contrast -70% (MSO washout). -/
def sampleWashoutPicture : GraphicProperties where
  maBlipProps :=
    { mxFillGraphic := some 7
      moBrightness := some 70000
      moContrast := some (-70000) }

/-- A picture with brightness 40% and no contrast change. -/
def sampleBrightPicture : GraphicProperties where
  maBlipProps := { mxFillGraphic := some 7, moBrightness := some 40000 }

/-- A path gradient fill of path `circle` whose fill-to rectangle is centred. -/
def sampleCircleFill : FillProperties where
  moFillType := some .gradFill
  maGradientProps :=
    { maGradientStops := [(0, { used := true, data := 1 }), (1, { used := true, data := 2 })]
      moGradientPath := some .circle
      moFillToRect := some ⟨50000, 50000, 50000, 50000⟩ }

/-- A linear gradient fill with two stops, the second one half transparent. -/
def sampleTransparentFill : FillProperties where
  moFillType := some .gradFill
  maGradientProps :=
    { maGradientStops := [(0, { used := true, data := 1 }),
        (1, { used := true, data := 2, hasTransparency := true, transparency := 50 })] }

/-- A path gradient fill of a path other than `circle` with two stops, the second one half
transparent. -/
def sampleTransparentPathFill : FillProperties where
  moFillType := some .gradFill
  maGradientProps :=
    { maGradientStops := [(0, { used := true, data := 1 }),
        (1, { used := true, data := 2, hasTransparency := true, transparency := 50 })]
      moGradientPath := some (.other 0) }

/-- The sample graphic helper with a `reverseColorStops` that reverses the order
of the stops and mirrors their offsets. -/
def mirrorHelper : GraphicHelper :=
  { sampleHelper with
    reverseColorStops := fun l => l.reverse.map (fun s => ⟨1 - s.offset, s.color⟩) }

/-! ### Specification vocabulary for pictures and cropping -/

/-- The centre offset of a path gradient as the specification words it:
`clamp(((100000 + a - b) / 2) / 1000, 0, 100)` with truncating divisions. -/
def specPathOffset (a b : Int) : Int :=
  max 0 (min (Int.tdiv (Int.tdiv (100000 + a - b) 2) 1000) 100)

/-- What statements about path gradients assume of
`basegfx::utils::reverseColorStops` (not among the sources): the order of the
stops is reversed and every offset `o` becomes `1 - o`. -/
def mirroredReverse (l : List ColorStop) : List ColorStop :=
  l.reverse.map (fun s => ⟨1 - s.offset, s.color⟩)

/-- The stop list in the order in which it is written: as built for a linear
gradient, reversed and mirrored for a path gradient. -/
def writtenOrder (g : GradientFillProperties) (l : List ColorStop) : List ColorStop :=
  if g.moGradientPath.isSome then mirroredReverse l else l

/-- The colour stop the specification gives for a DrawingML stop. -/
def specColorStop (rGraphicHelper : GraphicHelper) (nPhClr : Int) (s : Rat × Color) :
    ColorStop :=
  ⟨s.1, rGraphicHelper.getBColor (rGraphicHelper.getColor s.2 nPhClr)⟩

/-- The transparency stop the specification gives for a DrawingML stop: red,
green and blue all equal to the stop's transparency divided by 100. -/
def specTransparencyStop (s : Rat × Color) : ColorStop :=
  ⟨s.1, ⟨(s.2.transparency : Rat) / 100, (s.2.transparency : Rat) / 100,
    (s.2.transparency : Rat) / 100⟩⟩

/-- Writes to the property id `k` among the writes `ws`. -/
def writesTo (k : PropId) (ws : List (PropId × PropAny)) : List PropAny :=
  (ws.filter (fun w => w.1 = k)).map (fun w => w.2)

/-- Map `m'` arises from `m` by further writes, none of them to the colour
mode, the luminance or the contrast. -/
def ExtendsWithoutAdjust (m m' : PropertyMap) : Prop :=
  m'.rotateAngle = m.rotateAngle ∧
    ∃ ws : List (PropId × PropAny),
      m'.writes = m.writes ++ ws ∧
        ∀ w ∈ ws, w.1 ≠ PropId.PROP_GraphicColorMode ∧ w.1 ≠ PropId.PROP_AdjustLuminance ∧
          w.1 ≠ PropId.PROP_AdjustContrast

/-- The rectangle lies inside a bitmap of the given size and is non-empty, as
the specification words it: `0 ≤ l ≤ W - r - 1 ≤ W - 1` and
`0 ≤ t ≤ H - b - 1 ≤ H - 1`. -/
def InsideNonEmpty (bmpSize : Size) (rect : CropRectangle) : Prop :=
  0 ≤ rect.Left ∧ rect.Left ≤ rect.Right ∧ rect.Right ≤ bmpSize.Width - 1 ∧
    0 ≤ rect.Top ∧ rect.Top ≤ rect.Bottom ∧ rect.Bottom ≤ bmpSize.Height - 1

/-- The rectangle's edges are those of a crop that removes whole pixel columns
and rows without growing the bitmap, but possibly all of them:
`0 ≤ l ≤ W - r ≤ W` and `0 ≤ t ≤ H - b ≤ H` in terms of the right edge
`W - r - 1` and the bottom edge `H - b - 1`. -/
def InsideMaybeEmpty (bmpSize : Size) (rect : CropRectangle) : Prop :=
  0 ≤ rect.Left ∧ rect.Left ≤ rect.Right + 1 ∧ rect.Right ≤ bmpSize.Width - 1 ∧
    0 ≤ rect.Top ∧ rect.Top ≤ rect.Bottom + 1 ∧ rect.Bottom ≤ bmpSize.Height - 1

/-- Quotients of a crop: none negative, each opposite pair summing to less
than one. -/
def CropQuotients (q : Quotients) : Prop :=
  0 ≤ q.qx1 ∧ 0 ≤ q.qy1 ∧ 0 ≤ q.qx2 ∧ 0 ≤ q.qy2 ∧ q.qx1 + q.qx2 < 1 ∧ q.qy1 + q.qy2 < 1

end Oox

/-! ## Part 4: colour transformations, colour-change alpha, gradient table -/

namespace Oox

/-! ### `model::ComplexColor::applyTransformations` -/

/-- The two methods of `::Color` (tools/color.hxx, not among the sources) that
`ComplexColor::applyTransformations` calls, taken as parameters. A colour is
its 32-bit value; the second and third arguments are the values of the
argument expressions of the call, whose conversion to the parameter type
belongs to the call. -/
structure ColorMethods where
  ApplyTintOrShade : Int → Int → Int
  ApplyLumModOff : Int → Int → Int → Int

/-- Embeds `ComplexColor::setTransformations`. -/
def ComplexColor.setTransformations (self : ComplexColor)
    (rTransformations : List Transformation) : ComplexColor :=
  { self with maTransformations := rTransformations }

/-- The loop of `ComplexColor::applyTransformations`:
`for (auto const& rTransform : maTransformations) switch (rTransform.meType) ...`,
with the local `aColor` as loop state. -/
def ComplexColor.applyLoop (m : ColorMethods) : List Transformation → Int → Int
  | [], aColor => aColor
  | rTransform :: rest, aColor =>
    ComplexColor.applyLoop m rest
      (match rTransform.meType with
       | .Tint => m.ApplyTintOrShade aColor rTransform.mnValue
       | .Shade => m.ApplyTintOrShade aColor (-rTransform.mnValue)
       | .LumMod => m.ApplyLumModOff aColor rTransform.mnValue 0
       | .LumOff => m.ApplyLumModOff aColor 10000 rTransform.mnValue
       | _ => aColor)

/-- Embeds `ComplexColor::applyTransformations`, a `const` method: the colour
returned and the object after the call. -/
def ComplexColor.applyTransformations (self : ComplexColor) (m : ColorMethods)
    (rColor : Int) : Int × ComplexColor :=
  (ComplexColor.applyLoop m self.maTransformations rColor, self)

/-- What the specification says one transformation does to a colour. -/
def specTransform (m : ColorMethods) (c : Int) (t : Transformation) : Int :=
  if t.meType = .Tint then m.ApplyTintOrShade c t.mnValue
  else if t.meType = .Shade then m.ApplyTintOrShade c (-t.mnValue)
  else if t.meType = .LumMod then m.ApplyLumModOff c t.mnValue 0
  else if t.meType = .LumOff then m.ApplyLumModOff c 10000 t.mnValue
  else c

/-- Colour methods for evaluation on concrete inputs: tint or shade adds the
value, luminance modulation multiplies by the first and adds the second
argument. -/
def sampleColorMethods : ColorMethods where
  ApplyTintOrShade := fun c n => c + n
  ApplyLumModOff := fun c nMod nOff => c * nMod + nOff

/-! ### The alpha value of `lclCheckAndApplyChangeColorTransform` -/

/-- The `double` nearest to the literal `2.55` is
`DOUBLE_2_55_MANTISSA * 2^-51`. -/
def DOUBLE_2_55_MANTISSA : Nat := 5742089524897382

/-- The `double` product `n * 2.55` for a natural number `n < 2^16`, in units of
`2^-51`: the exact product rounded to 53 significant bits, to nearest with
ties to even. -/
def mulDouble255 (n : Nat) : Nat :=
  let P := n * DOUBLE_2_55_MANTISSA
  let s := ((List.range 17).find? (fun s => decide (P < 2 ^ (53 + s)))).getD 17
  if s = 0 then P
  else
    let q := P / 2 ^ s
    let rest := P % 2 ^ s
    let half := 2 ^ (s - 1)
    (if half < rest ∨ (rest = half ∧ q % 2 = 1) then q + 1 else q) * 2 ^ s

/-- The value `(100 - nToTransparence) * 2.55` truncated to an integer, before
it is stored in the `sal_Int8` variable `nToAlpha`; `nToTransparence` is a
`sal_Int16`. -/
def computedToAlpha (nToTransparence : Int) : Int :=
  let n := 100 - nToTransparence
  let r : Int := ((mulDouble255 n.natAbs / 2 ^ 51 : Nat) : Int)
  if n < 0 then -r else r

/-- The value is one that a `sal_Int8` can hold. -/
def fitsInt8 (v : Int) : Prop := -128 ≤ v ∧ v ≤ 127

instance (v : Int) : Decidable (fitsInt8 v) := by
  unfold fitsInt8
  exact inferInstance

/-! ### A gradient fill without stops -/

/-- A gradient fill for which no stop was imported. -/
def sampleStoplessFill : FillProperties where
  moFillType := some .gradFill

end Oox

namespace XPropertyTable

/-! ### `SvxUnoXGradientTable` -/

/-- The UNO struct `com.sun.star.awt.Gradient`. -/
structure Gradient where
  Style : Oox.GradientStyle := .LINEAR
  StartColor : Int := 0
  EndColor : Int := 0
  Angle : Int := 0
  Border : Int := 0
  XOffset : Int := 0
  YOffset : Int := 0
  StartIntensity : Int := 0
  EndIntensity : Int := 0
  StepCount : Int := 0
  deriving DecidableEq, Repr

/-- A UNO `Any` as far as the gradient table looks at it: an `awt::Gradient`, an
`awt::Gradient2` (a gradient with a `ColorStops` sequence), or a value of some
other type. -/
inductive GradientAny where
  | gradient (g : Gradient)
  | gradient2 (g : Gradient) (ColorStops : List Oox.ColorStop)
  | other (tag : String)
  deriving DecidableEq, Repr

/-- The extraction `rAny >>= aGradient` into an `awt::Gradient`; `none` when it
fails. -/
def GradientAny.toGradient : GradientAny → Option Gradient
  | .gradient g => some g
  | .gradient2 g _ => some g
  | .other _ => none

/-- Modelled from the spec: `basegfx::utils::fillColorStopsFromAny` (not among
the sources) fills the list from the `ColorStops` of an `awt::Gradient2` and
leaves it empty for any other value. -/
def fillColorStopsFromAny : GradientAny → List Oox.ColorStop
  | .gradient2 _ ColorStops => ColorStops
  | _ => []

/-- Modelled from the spec: `XGradient` (not among the sources), as the values
its constructor and setters store. -/
structure XGradient where
  aColorStops : List Oox.ColorStop
  eStyle : Oox.GradientStyle := .LINEAR
  nAngle : Int := 0
  nBorder : Int := 0
  nOfsX : Int := 50
  nOfsY : Int := 50
  nIntensStart : Int := 100
  nIntensEnd : Int := 100
  nStepCount : Int := 0
  deriving DecidableEq, Repr

/-- A value stored in a `sal_uInt16`. -/
def wrapU16 (x : Int) : Int := x % 65536

/-- The collaborators of the gradient table that are not among the sources,
taken as parameters: the conversions between `::Color` and `basegfx::BColor`,
`basegfx::utils::createColorStopsFromStartEndColor`, the list that `XGradient`
keeps when its constructor or `SetColorStops` is handed a list, and the value
read by `front()` or `back()` of an empty stop vector. -/
structure GradientTools where
  getBColor : Int → Oox.BColor
  fromBColor : Oox.BColor → Int
  createColorStopsFromStartEndColor : Oox.BColor → Oox.BColor → List Oox.ColorStop
  keptColorStops : List Oox.ColorStop → List Oox.ColorStop
  undefinedStop : Oox.ColorStop

/-- The data of the entry built by `SvxUnoXGradientTable::createEntry`; `none`
where the function returns a null pointer. -/
def gradientFromAny (tools : GradientTools) (rAny : GradientAny) : Option XGradient :=
  match rAny.toGradient with
  | none => none
  | some aGradient =>
    let aXGradient : XGradient :=
      { aColorStops := tools.keptColorStops
          (tools.createColorStopsFromStartEndColor (tools.getBColor aGradient.StartColor)
            (tools.getBColor aGradient.EndColor)) }
    let aXGradient : XGradient :=
      { aXGradient with
        eStyle := aGradient.Style
        nAngle := aGradient.Angle
        nBorder := wrapU16 aGradient.Border
        nOfsX := wrapU16 aGradient.XOffset
        nOfsY := wrapU16 aGradient.YOffset
        nIntensStart := wrapU16 aGradient.StartIntensity
        nIntensEnd := wrapU16 aGradient.EndIntensity
        nStepCount := wrapU16 aGradient.StepCount }
    let aColorStops := fillColorStopsFromAny rAny
    some (if !aColorStops.isEmpty then
        { aXGradient with aColorStops := tools.keptColorStops aColorStops }
      else aXGradient)

/-- Embeds `SvxUnoXGradientTable::getAny`. -/
def gradientGetAny (tools : GradientTools) (pEntry : XPropertyEntry XGradient) : GradientAny :=
  let aXGradient := pEntry.payload
  let rColorStops := aXGradient.aColorStops
  .gradient2
    { Style := aXGradient.eStyle
      Angle := Oox.wrap16 aXGradient.nAngle
      Border := Oox.wrap16 aXGradient.nBorder
      XOffset := Oox.wrap16 aXGradient.nOfsX
      YOffset := Oox.wrap16 aXGradient.nOfsY
      StartIntensity := Oox.wrap16 aXGradient.nIntensStart
      EndIntensity := Oox.wrap16 aXGradient.nIntensEnd
      StepCount := Oox.wrap16 aXGradient.nStepCount
      StartColor := tools.fromBColor (rColorStops.head?.getD tools.undefinedStop).color
      EndColor := tools.fromBColor (rColorStops.getLast?.getD tools.undefinedStop).color }
    rColorStops

/-- Embeds `SvxUnoXGradientTable`: `getAny` and `createEntry` as above. -/
def SvxUnoXGradientTable (tools : GradientTools) (internalName : String → String) :
    SvxUnoXPropertyTable XGradient GradientAny where
  internalName := internalName
  getAny := gradientGetAny tools
  fromAny := gradientFromAny tools

/-- Gradient tools for evaluation on concrete inputs: a colour value becomes a
grey of that value, start and end colour become stops at offsets 0 and 1, and
a gradient keeps the stops it is handed. -/
def sampleGradientTools : GradientTools where
  getBColor := fun c => ⟨c, c, c⟩
  fromBColor := fun c => c.red.floor
  createColorStopsFromStartEndColor := fun s e => [⟨0, s⟩, ⟨1, e⟩]
  keptColorStops := fun l => l
  undefinedStop := ⟨0, ⟨0, 0, 0⟩⟩

/-- A plain `awt::Gradient` from colour 10 to colour 20. -/
def sampleGradientAny : GradientAny :=
  .gradient { StartColor := 10, EndColor := 20 }

/-- The first and last element of the stop list can be read. -/
def StopReadsDefined (g : XGradient) : Prop := g.aColorStops ≠ []

end XPropertyTable

/-! ## Theorems, part 1: the property table -/

namespace XPropertyTable

theorem Get_eq_some {P : Type} (l : XPropertyList P) (k : Nat) (e : XPropertyEntry P) :
    Get l k = some e ↔ l[k]? = some (some e) := by
  unfold Get
  cases h : l[k]? with
  | none => simp
  | some p => simp

/-- What the look-up loop returns: the first index at or after `i`, within the
next `remaining` slots, whose entry is non-null and carries the name. -/
theorem findLoop_spec {P : Type} (l : XPropertyList P) (name : String) :
    ∀ (remaining i : Nat),
      match findLoop l name remaining i with
      | some (k, e) =>
          i ≤ k ∧ k < i + remaining ∧ Get l k = some e ∧ e.name = name ∧
            ∀ (j : Nat) (e' : XPropertyEntry P), i ≤ j → j < k → Get l j = some e' →
              e'.name ≠ name
      | none =>
          ∀ (j : Nat) (e' : XPropertyEntry P), i ≤ j → j < i + remaining →
            Get l j = some e' → e'.name ≠ name := by
  intro remaining
  induction remaining with
  | zero =>
    intro i
    simp only [findLoop]
    intro j e' h1 h2
    omega
  | succ n ih =>
    intro i
    have step := ih (i + 1)
    unfold findLoop
    cases hg : Get l i with
    | none =>
      simp only
      cases hf : findLoop l name n (i + 1) with
      | none =>
        rw [hf] at step
        simp only at step ⊢
        intro j e' h1 h2 h3
        by_cases hji : j = i
        · subst hji; rw [hg] at h3; cases h3
        · exact step j e' (by omega) (by omega) h3
      | some r =>
        obtain ⟨k, e⟩ := r
        rw [hf] at step
        simp only at step ⊢
        obtain ⟨s1, s2, s3, s4, s5⟩ := step
        refine ⟨by omega, by omega, s3, s4, ?_⟩
        intro j e' h1 h2 h3
        by_cases hji : j = i
        · subst hji; rw [hg] at h3; cases h3
        · exact s5 j e' (by omega) h2 h3
    | some pEntry =>
      simp only
      by_cases hn : name = pEntry.name
      · rw [if_pos hn]
        simp only
        refine ⟨le_refl _, by omega, hg, hn.symm, ?_⟩
        intro j e' h1 h2
        omega
      · rw [if_neg hn]
        cases hf : findLoop l name n (i + 1) with
        | none =>
          rw [hf] at step
          simp only at step ⊢
          intro j e' h1 h2 h3
          by_cases hji : j = i
          · subst hji; rw [hg] at h3; cases h3
            exact fun h => hn h.symm
          · exact step j e' (by omega) (by omega) h3
        | some r =>
          obtain ⟨k, e⟩ := r
          rw [hf] at step
          simp only at step ⊢
          obtain ⟨s1, s2, s3, s4, s5⟩ := step
          refine ⟨by omega, by omega, s3, s4, ?_⟩
          intro j e' h1 h2 h3
          by_cases hji : j = i
          · subst hji; rw [hg] at h3; cases h3
            exact fun h => hn h.symm
          · exact s5 j e' (by omega) h2 h3

/-- A hit of the full loop is the first match. -/
theorem findLoop_some {P : Type} (l : XPropertyList P) (name : String) (k : Nat)
    (e : XPropertyEntry P) (h : findLoop l name (Count l) 0 = some (k, e)) :
    IsFirstMatch l name k e := by
  have := findLoop_spec l name (Count l) 0
  rw [h] at this
  simp only at this
  obtain ⟨_, _, s3, s4, s5⟩ := this
  refine ⟨(Get_eq_some l k e).1 s3, s4, ?_⟩
  intro j e' hj hl
  exact s5 j e' (Nat.zero_le _) hj ((Get_eq_some l j e').2 hl)

/-- A miss of the full loop means that no entry matches. -/
theorem findLoop_none {P : Type} (l : XPropertyList P) (name : String)
    (h : findLoop l name (Count l) 0 = none) : ¬ HasMatch l name := by
  have := findLoop_spec l name (Count l) 0
  rw [h] at this
  simp only at this
  rintro ⟨k, e, hk, hn⟩
  have hlt : k < l.length := by
    rcases Nat.lt_or_ge k l.length with h1 | h1
    · exact h1
    · rw [List.getElem?_eq_none h1] at hk; cases hk
  exact this k e (Nat.zero_le _) (by simpa [Count] using hlt) ((Get_eq_some l k e).2 hk) hn

theorem IsFirstMatch.unique {P : Type} {l : XPropertyList P} {name : String} {k k' : Nat}
    {e e' : XPropertyEntry P} (h : IsFirstMatch l name k e) (h' : IsFirstMatch l name k' e') :
    k = k' ∧ e = e' := by
  obtain ⟨a1, a2, a3⟩ := h
  obtain ⟨b1, b2, b3⟩ := h'
  have hk : k = k' := by
    rcases Nat.lt_trichotomy k k' with h1 | h1 | h1
    · exact absurd a2 (b3 k e h1 a1)
    · exact h1
    · exact absurd b2 (a3 k' e' h1 b1)
  subst hk
  rw [a1] at b1
  simp only [Option.some.injEq] at b1
  exact ⟨rfl, b1⟩

theorem IsFirstMatch.hasMatch {P : Type} {l : XPropertyList P} {name : String} {k : Nat}
    {e : XPropertyEntry P} (h : IsFirstMatch l name k e) : HasMatch l name :=
  ⟨k, e, h.1, h.2.1⟩

/-- The full loop hits exactly at the first match. -/
theorem findLoop_eq_some_iff {P : Type} (l : XPropertyList P) (name : String) (k : Nat)
    (e : XPropertyEntry P) :
    findLoop l name (Count l) 0 = some (k, e) ↔ IsFirstMatch l name k e := by
  constructor
  · exact findLoop_some l name k e
  · intro h
    cases hf : findLoop l name (Count l) 0 with
    | none => exact absurd h.hasMatch (findLoop_none l name hf)
    | some r =>
      obtain ⟨k', e'⟩ := r
      obtain ⟨h1, h2⟩ := (findLoop_some l name k' e' hf).unique h
      rw [h1, h2]

/-- The full loop misses exactly when nothing matches. -/
theorem findLoop_eq_none_iff {P : Type} (l : XPropertyList P) (name : String) :
    findLoop l name (Count l) 0 = none ↔ ¬ HasMatch l name := by
  constructor
  · exact findLoop_none l name
  · intro h
    cases hf : findLoop l name (Count l) 0 with
    | none => rfl
    | some r =>
      obtain ⟨k', e'⟩ := r
      exact absurd (findLoop_some l name k' e' hf).hasMatch h

theorem hasMatch_firstMatch {P : Type} (l : XPropertyList P) (name : String)
    (h : HasMatch l name) : ∃ (k : Nat) (e : XPropertyEntry P), IsFirstMatch l name k e := by
  cases hf : findLoop l name (Count l) 0 with
  | none => exact absurd h (findLoop_none l name hf)
  | some r =>
    obtain ⟨k', e'⟩ := r
    exact ⟨k', e', findLoop_some l name k' e' hf⟩

theorem hasByName_eq_true_iff {P A : Type} (T : SvxUnoXPropertyTable P A)
    (l : XPropertyList P) (n : String) :
    hasByName T l n = true ↔ HasMatch l (T.internalName n) := by
  unfold hasByName
  cases hf : findLoop l (T.internalName n) (Count l) 0 with
  | none =>
    simp only [hf, Bool.false_eq_true, false_iff]
    exact findLoop_none l _ hf
  | some r =>
    obtain ⟨k', e'⟩ := r
    simp only [hf, true_iff]
    exact (findLoop_some l _ k' e' hf).hasMatch

theorem hasByName_eq_false_iff {P A : Type} (T : SvxUnoXPropertyTable P A)
    (l : XPropertyList P) (n : String) :
    hasByName T l n = false ↔ ¬ HasMatch l (T.internalName n) := by
  rw [← hasByName_eq_true_iff T l n]
  simp

end XPropertyTable

namespace XPropertyTable

theorem mem_entryNames_iff {P : Type} (l : XPropertyList P) (name : String) :
    name ∈ entryNames l ↔ HasMatch l name := by
  unfold entryNames HasMatch
  simp only [List.mem_map, List.reduceOption_mem_iff]
  constructor
  · rintro ⟨e, he, hn⟩
    obtain ⟨k, hk⟩ := List.getElem?_of_mem he
    exact ⟨k, e, hk, hn⟩
  · rintro ⟨k, e, hk, hn⟩
    exact ⟨e, List.mem_iff_getElem?.2 ⟨k, hk⟩, hn⟩

theorem entryNames_Insert {P : Type} (l : XPropertyList P) (e : XPropertyEntry P) :
    entryNames (Insert l e) = entryNames l ++ [e.name] := by
  simp [entryNames, Insert, List.reduceOption_append]

theorem entryNames_Remove_sublist {P : Type} (l : XPropertyList P) (k : Nat) :
    (entryNames (Remove l k)).Sublist (entryNames l) := by
  unfold entryNames Remove List.reduceOption
  exact ((List.eraseIdx_sublist l k).filterMap id).map _

theorem entryNames_Replace {P : Type} (l : XPropertyList P) (k : Nat)
    (e e' : XPropertyEntry P) (hk : l[k]? = some (some e)) (hn : e'.name = e.name) :
    entryNames (Replace l e' k) = entryNames l := by
  unfold Replace
  induction l generalizing k with
  | nil => simp at hk
  | cons x xs ih =>
    cases k with
    | zero =>
      simp only [List.getElem?_cons_zero, Option.some.injEq] at hk
      subst hk
      simp [entryNames, hn]
    | succ m =>
      simp only [List.getElem?_cons_succ] at hk
      have h := ih m hk
      cases x with
      | none => simpa [entryNames] using h
      | some y => simpa [entryNames] using h

theorem createEntry_name {P A : Type} (T : SvxUnoXPropertyTable P A) (rName : String)
    (rAny : A) (e : XPropertyEntry P) (h : createEntry T rName rAny = some e) :
    e.name = rName := by
  unfold createEntry at h
  cases hf : T.fromAny rAny with
  | none => rw [hf] at h; cases h
  | some d =>
    rw [hf] at h
    simp only [Option.some.injEq] at h
    rw [← h]

theorem NameKeyed_applyCall {P A : Type} (T : SvxUnoXPropertyTable P A)
    (l : XPropertyList P) (c : Call A) (h : NameKeyed l) : NameKeyed (applyCall T l c) := by
  cases c with
  | insert aName aElement =>
    simp only [applyCall, insertByName]
    cases hb : hasByName T l aName with
    | true => simpa using h
    | false =>
      simp only [Bool.false_eq_true, if_false]
      cases hc : createEntry T (T.internalName aName) aElement with
      | none => simpa using h
      | some e =>
        simp only
        unfold NameKeyed
        rw [entryNames_Insert, List.nodup_append]
        refine ⟨h, List.nodup_singleton _, ?_⟩
        have hno := (hasByName_eq_false_iff T l aName).1 hb
        rw [← mem_entryNames_iff] at hno
        rw [createEntry_name T _ _ e hc]
        simpa using hno
  | replace aName aElement =>
    simp only [applyCall, replaceByName]
    cases hf : findLoop l (T.internalName aName) (Count l) 0 with
    | none => simpa using h
    | some r =>
      obtain ⟨k, e⟩ := r
      simp only
      cases hc : createEntry T (T.internalName aName) aElement with
      | none => simpa using h
      | some e' =>
        simp only
        have hm := findLoop_some l _ k e hf
        unfold NameKeyed
        rw [entryNames_Replace l k e e' hm.1
          ((createEntry_name T _ _ e' hc).trans hm.2.1.symm)]
        exact h
  | remove aName =>
    simp only [applyCall, removeByName]
    cases hf : findLoop l (T.internalName aName) (Count l) 0 with
    | none => simpa using h
    | some r =>
      obtain ⟨k, e⟩ := r
      simp only
      exact List.Nodup.sublist (entryNames_Remove_sublist l k) h

theorem getByName_of_firstMatch {P A : Type} (T : SvxUnoXPropertyTable P A)
    (l : XPropertyList P) (n : String) (k : Nat) (e : XPropertyEntry P)
    (h : IsFirstMatch l (T.internalName n) k e) : getByName T l n = .ok (T.getAny e) := by
  unfold getByName
  simp only [(findLoop_eq_some_iff l _ k e).2 h]

/-- C1: `getByName(n)` returns `getAny(e)` for the lowest-index non-null entry
`e` whose name is the internal name of `n`, such an entry exists whenever any
entry matches, and `NoSuchElementException` is thrown exactly when no entry
matches, which is exactly when `hasByName(n)` is false. -/
theorem getByName_contract {P A : Type} (T : SvxUnoXPropertyTable P A)
    (l : XPropertyList P) (n : String) :
    (∀ (k : Nat) (e : XPropertyEntry P), IsFirstMatch l (T.internalName n) k e →
        getByName T l n = .ok (T.getAny e)) ∧
    (HasMatch l (T.internalName n) →
        ∃ (k : Nat) (e : XPropertyEntry P), IsFirstMatch l (T.internalName n) k e) ∧
    (getByName T l n = .error .NoSuchElementException ↔ ¬ HasMatch l (T.internalName n)) ∧
    (getByName T l n = .error .NoSuchElementException ↔ hasByName T l n = false) := by
  have key : getByName T l n = .error .NoSuchElementException ↔
      ¬ HasMatch l (T.internalName n) := by
    unfold getByName
    cases hf : findLoop l (T.internalName n) (Count l) 0 with
    | none =>
      simp only [hf, true_iff]
      exact findLoop_none l _ hf
    | some r =>
      obtain ⟨k, e⟩ := r
      simp only [hf, reduceCtorEq, false_iff, not_not]
      exact (findLoop_some l _ k e hf).hasMatch
  refine ⟨?_, hasMatch_firstMatch l _, key, ?_⟩
  · exact getByName_of_firstMatch T l n
  · rw [key, hasByName_eq_false_iff]

/-- Witness for C1 on a colour table with a null slot and a duplicate name. -/
theorem getByName_contract_witness :
    getByName SvxUnoXColorTable
      [none, some ⟨"Red", 1⟩, some ⟨"Blue", 2⟩, some ⟨"Red", 3⟩] "Red" = .ok (.long 1) :=
  (getByName_contract SvxUnoXColorTable
      [none, some ⟨"Red", 1⟩, some ⟨"Blue", 2⟩, some ⟨"Red", 3⟩] "Red").1 1 ⟨"Red", 1⟩
    ⟨rfl, rfl, by
      intro j e' hj h
      have hj0 : j = 0 := by omega
      subst hj0
      simp at h⟩

/-- C2: `insertByName(n, v)` throws `ElementExistException` when `hasByName(n)`
holds, whatever `v` is; otherwise it throws `IllegalArgumentException` when
`createEntry` yields no entry for `v`; in both cases the list is unchanged.
Otherwise the entry built from `v` under the internal name of `n` is added
behind the unchanged previous entries, after which `hasByName(n)` holds and
`getByName(n)` returns `getAny` of the new entry. -/
theorem insertByName_contract {P A : Type} (T : SvxUnoXPropertyTable P A)
    (l : XPropertyList P) (n : String) (v : A) :
    (hasByName T l n = true →
        insertByName T l n v = (.error .ElementExistException, l)) ∧
    (hasByName T l n = false → createEntry T (T.internalName n) v = none →
        insertByName T l n v = (.error .IllegalArgumentException, l)) ∧
    (∀ e : XPropertyEntry P, hasByName T l n = false →
        createEntry T (T.internalName n) v = some e →
        insertByName T l n v = (.ok (), l ++ [some e]) ∧
        e.name = T.internalName n ∧
        (l ++ [some e]).length = l.length + 1 ∧
        hasByName T (l ++ [some e]) n = true ∧
        getByName T (l ++ [some e]) n = .ok (T.getAny e)) := by
  refine ⟨?_, ?_, ?_⟩
  · intro h
    simp [insertByName, h]
  · intro h hc
    simp [insertByName, h, hc]
  · intro e h hc
    have hname := createEntry_name T _ _ e hc
    have hno := (hasByName_eq_false_iff T l n).1 h
    have hfirst : IsFirstMatch (l ++ [some e]) (T.internalName n) l.length e := by
      refine ⟨by simp, hname, ?_⟩
      intro j e' hj hl hn
      rw [List.getElem?_append_left hj] at hl
      exact hno ⟨j, e', hl, hn⟩
    refine ⟨by simp [insertByName, h, hc, Insert], hname, by simp, ?_, ?_⟩
    · exact (hasByName_eq_true_iff T _ n).2 hfirst.hasMatch
    · exact getByName_of_firstMatch T _ n _ e hfirst

/-- Witness for C2: a successful insertion into a colour table. -/
theorem insertByName_contract_witness :
    insertByName SvxUnoXColorTable [some ⟨"Red", 1⟩] "Blue" (.long 2)
        = (.ok (), [some ⟨"Red", 1⟩, some ⟨"Blue", 2⟩]) ∧
      hasByName SvxUnoXColorTable [some ⟨"Red", 1⟩, some ⟨"Blue", 2⟩] "Blue" = true ∧
      getByName SvxUnoXColorTable [some ⟨"Red", 1⟩, some ⟨"Blue", 2⟩] "Blue"
        = .ok (.long 2) :=
  have h := (insertByName_contract SvxUnoXColorTable [some ⟨"Red", 1⟩] "Blue" (.long 2)).2.2
    (⟨"Blue", 2⟩ : XPropertyEntry Int) (by decide) rfl
  ⟨h.1, h.2.2.2.1, h.2.2.2.2⟩

/-- C3: `replaceByName(n, v)` throws `NoSuchElementException` when no non-null
entry has the internal name of `n`, whatever `v` is, and
`IllegalArgumentException` when there is one but `createEntry` yields no entry
for `v`; in both cases the list is unchanged. On success the slot of the first
match, and only it, holds the entry built from `v`, which carries the same
internal name; the number of slots and all other slots are unchanged. -/
theorem replaceByName_contract {P A : Type} (T : SvxUnoXPropertyTable P A)
    (l : XPropertyList P) (n : String) (v : A) :
    (¬ HasMatch l (T.internalName n) →
        replaceByName T l n v = (.error .NoSuchElementException, l)) ∧
    (HasMatch l (T.internalName n) → createEntry T (T.internalName n) v = none →
        replaceByName T l n v = (.error .IllegalArgumentException, l)) ∧
    (∀ (k : Nat) (e e' : XPropertyEntry P), IsFirstMatch l (T.internalName n) k e →
        createEntry T (T.internalName n) v = some e' →
        replaceByName T l n v = (.ok (), l.set k (some e')) ∧
        e'.name = e.name ∧
        (l.set k (some e')).length = l.length ∧
        (l.set k (some e'))[k]? = some (some e') ∧
        ∀ j : Nat, j ≠ k → (l.set k (some e'))[j]? = l[j]?) := by
  refine ⟨?_, ?_, ?_⟩
  · intro h
    simp [replaceByName, (findLoop_eq_none_iff l _).2 h]
  · intro h hc
    obtain ⟨k, e, hm⟩ := hasMatch_firstMatch l _ h
    simp [replaceByName, (findLoop_eq_some_iff l _ k e).2 hm, hc]
  · intro k e e' hm hc
    have hlt : k < l.length := by
      rcases Nat.lt_or_ge k l.length with h1 | h1
      · exact h1
      · have := hm.1; rw [List.getElem?_eq_none h1] at this; cases this
    refine ⟨by simp [replaceByName, (findLoop_eq_some_iff l _ k e).2 hm, hc, Replace],
      (createEntry_name T _ _ e' hc).trans hm.2.1.symm, by simp, ?_, ?_⟩
    · simp [List.getElem?_set, hlt]
    · intro j hj
      simp [List.getElem?_set, Ne.symm hj]

/-- Witness for C3: replacing the first of two equally named colours. -/
theorem replaceByName_contract_witness :
    replaceByName SvxUnoXColorTable
        [none, some ⟨"Red", 1⟩, some ⟨"Red", 3⟩] "Red" (.long 7)
      = (.ok (), [none, some ⟨"Red", 7⟩, some ⟨"Red", 3⟩]) :=
  ((replaceByName_contract SvxUnoXColorTable
      [none, some ⟨"Red", 1⟩, some ⟨"Red", 3⟩] "Red" (.long 7)).2.2 1
      (⟨"Red", 1⟩ : XPropertyEntry Int) (⟨"Red", 7⟩ : XPropertyEntry Int)
    ⟨rfl, rfl, by
      intro j e' hj h
      have hj0 : j = 0 := by omega
      subst hj0
      simp at h⟩ rfl).1

/-- C4: `removeByName(n)` throws `NoSuchElementException`, leaving the list
unchanged, exactly when no non-null entry has the internal name of `n`;
otherwise it erases the slot of the first match: the count drops by one and the
slots before and after it follow each other in their old order. -/
theorem removeByName_contract {P A : Type} (T : SvxUnoXPropertyTable P A)
    (l : XPropertyList P) (n : String) :
    ((removeByName T l n).1 = .error .NoSuchElementException ↔
        ¬ HasMatch l (T.internalName n)) ∧
    (¬ HasMatch l (T.internalName n) →
        removeByName T l n = (.error .NoSuchElementException, l)) ∧
    (∀ (k : Nat) (e : XPropertyEntry P), IsFirstMatch l (T.internalName n) k e →
        removeByName T l n = (.ok (), l.take k ++ l.drop (k + 1)) ∧
        (l.take k ++ l.drop (k + 1)).length + 1 = l.length) := by
  have hnone : ¬ HasMatch l (T.internalName n) →
      removeByName T l n = (.error .NoSuchElementException, l) := by
    intro h
    simp [removeByName, (findLoop_eq_none_iff l _).2 h]
  have hsome : ∀ (k : Nat) (e : XPropertyEntry P), IsFirstMatch l (T.internalName n) k e →
      removeByName T l n = (.ok (), l.take k ++ l.drop (k + 1)) := by
    intro k e hm
    simp [removeByName, (findLoop_eq_some_iff l _ k e).2 hm, Remove,
      List.eraseIdx_eq_take_drop_succ]
  refine ⟨?_, hnone, ?_⟩
  · constructor
    · intro h hm
      obtain ⟨k, e, hf⟩ := hasMatch_firstMatch l _ hm
      rw [hsome k e hf] at h
      cases h
    · intro h
      rw [hnone h]
  · intro k e hm
    have hlt : k < l.length := by
      rcases Nat.lt_or_ge k l.length with h1 | h1
      · exact h1
      · have := hm.1; rw [List.getElem?_eq_none h1] at this; cases this
    refine ⟨hsome k e hm, ?_⟩
    simp only [List.length_append, List.length_take, List.length_drop]
    omega

/-- Witness for C4: removing the first of two equally named colours. -/
theorem removeByName_contract_witness :
    removeByName SvxUnoXColorTable
        [some ⟨"Blue", 2⟩, some ⟨"Red", 1⟩, some ⟨"Red", 3⟩] "Red"
      = (.ok (), [some ⟨"Blue", 2⟩, some ⟨"Red", 3⟩]) :=
  ((removeByName_contract SvxUnoXColorTable
      [some ⟨"Blue", 2⟩, some ⟨"Red", 1⟩, some ⟨"Red", 3⟩] "Red").2.2 1
      (⟨"Red", 1⟩ : XPropertyEntry Int)
    ⟨rfl, rfl, by
      intro j e' hj h
      have hj0 : j = 0 := by omega
      subst hj0
      simp only [List.getElem?_cons_zero, Option.some.injEq] at h
      subst h
      decide⟩).1

/-- C5: a list in which no two entries have the same name keeps this property
through every sequence of `insertByName`, `replaceByName` and `removeByName`
calls, whether each call returns or throws. -/
theorem NameKeyed_applyCalls {P A : Type} (T : SvxUnoXPropertyTable P A)
    (l : XPropertyList P) (calls : List (Call A)) (h : NameKeyed l) :
    NameKeyed (applyCalls T l calls) := by
  unfold applyCalls
  induction calls generalizing l with
  | nil => exact h
  | cons c cs ih => exact ih _ (NameKeyed_applyCall T l c h)

/-- Witness for C5: a failed insertion, a replacement, a removal and a
successful insertion on a colour table. -/
theorem NameKeyed_applyCalls_witness :
    NameKeyed (applyCalls SvxUnoXColorTable [some ⟨"Red", 1⟩, none, some ⟨"Blue", 2⟩]
      [.insert "Red" (.long 9), .replace "Blue" (.long 5), .remove "Red",
       .insert "Green" (.long 4)]) :=
  NameKeyed_applyCalls SvxUnoXColorTable [some ⟨"Red", 1⟩, none, some ⟨"Blue", 2⟩]
    [.insert "Red" (.long 9), .replace "Blue" (.long 5), .remove "Red",
     .insert "Green" (.long 4)] (by unfold NameKeyed; decide)

end XPropertyTable

/-! ## Theorems, part 2: fill properties -/

namespace Oox

theorem assignIfUsed_none {α : Type} (d : Option α) : assignIfUsed d none = d := rfl

theorem assignIfUsed_some {α : Type} (d : Option α) (v : α) :
    assignIfUsed d (some v) = some v := rfl

theorem assignIfUsed_eq_of_isSome {α : Type} (d s : Option α) (h : s.isSome = true) :
    assignIfUsed d s = s := by
  cases s with
  | none => cases h
  | some v => rfl

theorem Color.assignIfUsed_unused (c s : Color) (h : s.used = false) :
    c.assignIfUsed s = c := by
  simp [Color.assignIfUsed, h]

theorem Color.assignIfUsed_used (c s : Color) (h : s.used = true) :
    c.assignIfUsed s = s := by
  simp [Color.assignIfUsed, h]

/-- The part of "source wins where set" that the code does: every field other
than the blip clip rectangle and the embedded original graphic of the artistic
effect takes the value of the source when it is set there. -/
theorem assignUsed_source_wins (t s : FillProperties) :
    (s.moFillType.isSome = true → (t.assignUsed s).moFillType = s.moFillType) ∧
    (s.maFillColor.used = true → (t.assignUsed s).maFillColor = s.maFillColor) ∧
    (s.moUseBgFill.isSome = true → (t.assignUsed s).moUseBgFill = s.moUseBgFill) ∧
    (s.maGradientProps.maGradientStops ≠ [] →
      (t.assignUsed s).maGradientProps.maGradientStops = s.maGradientProps.maGradientStops) ∧
    (s.maGradientProps.moFillToRect.isSome = true →
      (t.assignUsed s).maGradientProps.moFillToRect = s.maGradientProps.moFillToRect) ∧
    (s.maGradientProps.moTileRect.isSome = true →
      (t.assignUsed s).maGradientProps.moTileRect = s.maGradientProps.moTileRect) ∧
    (s.maGradientProps.moGradientPath.isSome = true →
      (t.assignUsed s).maGradientProps.moGradientPath = s.maGradientProps.moGradientPath) ∧
    (s.maGradientProps.moShadeAngle.isSome = true →
      (t.assignUsed s).maGradientProps.moShadeAngle = s.maGradientProps.moShadeAngle) ∧
    (s.maGradientProps.moShadeFlip.isSome = true →
      (t.assignUsed s).maGradientProps.moShadeFlip = s.maGradientProps.moShadeFlip) ∧
    (s.maGradientProps.moShadeScaled.isSome = true →
      (t.assignUsed s).maGradientProps.moShadeScaled = s.maGradientProps.moShadeScaled) ∧
    (s.maGradientProps.moRotateWithShape.isSome = true →
      (t.assignUsed s).maGradientProps.moRotateWithShape
        = s.maGradientProps.moRotateWithShape) ∧
    (s.maPatternProps.maPattFgColor.used = true →
      (t.assignUsed s).maPatternProps.maPattFgColor = s.maPatternProps.maPattFgColor) ∧
    (s.maPatternProps.maPattBgColor.used = true →
      (t.assignUsed s).maPatternProps.maPattBgColor = s.maPatternProps.maPattBgColor) ∧
    (s.maPatternProps.moPattPreset.isSome = true →
      (t.assignUsed s).maPatternProps.moPattPreset = s.maPatternProps.moPattPreset) ∧
    (s.maBlipProps.mxFillGraphic.isSome = true →
      (t.assignUsed s).maBlipProps.mxFillGraphic = s.maBlipProps.mxFillGraphic) ∧
    (s.maBlipProps.moBitmapMode.isSome = true →
      (t.assignUsed s).maBlipProps.moBitmapMode = s.maBlipProps.moBitmapMode) ∧
    (s.maBlipProps.moFillRect.isSome = true →
      (t.assignUsed s).maBlipProps.moFillRect = s.maBlipProps.moFillRect) ∧
    (s.maBlipProps.moTileOffsetX.isSome = true →
      (t.assignUsed s).maBlipProps.moTileOffsetX = s.maBlipProps.moTileOffsetX) ∧
    (s.maBlipProps.moTileOffsetY.isSome = true →
      (t.assignUsed s).maBlipProps.moTileOffsetY = s.maBlipProps.moTileOffsetY) ∧
    (s.maBlipProps.moTileScaleX.isSome = true →
      (t.assignUsed s).maBlipProps.moTileScaleX = s.maBlipProps.moTileScaleX) ∧
    (s.maBlipProps.moTileScaleY.isSome = true →
      (t.assignUsed s).maBlipProps.moTileScaleY = s.maBlipProps.moTileScaleY) ∧
    (s.maBlipProps.moTileAlign.isSome = true →
      (t.assignUsed s).maBlipProps.moTileAlign = s.maBlipProps.moTileAlign) ∧
    (s.maBlipProps.moTileFlip.isSome = true →
      (t.assignUsed s).maBlipProps.moTileFlip = s.maBlipProps.moTileFlip) ∧
    (s.maBlipProps.moRotateWithShape.isSome = true →
      (t.assignUsed s).maBlipProps.moRotateWithShape = s.maBlipProps.moRotateWithShape) ∧
    (s.maBlipProps.moColorEffect.isSome = true →
      (t.assignUsed s).maBlipProps.moColorEffect = s.maBlipProps.moColorEffect) ∧
    (s.maBlipProps.moBrightness.isSome = true →
      (t.assignUsed s).maBlipProps.moBrightness = s.maBlipProps.moBrightness) ∧
    (s.maBlipProps.moContrast.isSome = true →
      (t.assignUsed s).maBlipProps.moContrast = s.maBlipProps.moContrast) ∧
    (s.maBlipProps.moBiLevelThreshold.isSome = true →
      (t.assignUsed s).maBlipProps.moBiLevelThreshold = s.maBlipProps.moBiLevelThreshold) ∧
    (s.maBlipProps.maColorChangeFrom.used = true →
      (t.assignUsed s).maBlipProps.maColorChangeFrom = s.maBlipProps.maColorChangeFrom) ∧
    (s.maBlipProps.maColorChangeTo.used = true →
      (t.assignUsed s).maBlipProps.maColorChangeTo = s.maBlipProps.maColorChangeTo) ∧
    (s.maBlipProps.maDuotoneColors0.used = true →
      (t.assignUsed s).maBlipProps.maDuotoneColors0 = s.maBlipProps.maDuotoneColors0) ∧
    (s.maBlipProps.maDuotoneColors1.used = true →
      (t.assignUsed s).maBlipProps.maDuotoneColors1 = s.maBlipProps.maDuotoneColors1) ∧
    (s.maBlipProps.maEffect.isEmpty = false →
      (t.assignUsed s).maBlipProps.maEffect.msName = s.maBlipProps.maEffect.msName ∧
      (t.assignUsed s).maBlipProps.maEffect.maAttribs = s.maBlipProps.maEffect.maAttribs) ∧
    (s.maBlipProps.moAlphaModFix.isSome = true →
      (t.assignUsed s).maBlipProps.moAlphaModFix = s.maBlipProps.moAlphaModFix) := by
  refine ⟨?_, ?_, ?_, ?_, ?_, ?_, ?_, ?_, ?_, ?_, ?_, ?_, ?_, ?_, ?_, ?_, ?_, ?_, ?_, ?_,
    ?_, ?_, ?_, ?_, ?_, ?_, ?_, ?_, ?_, ?_, ?_, ?_, ?_, ?_⟩ <;> intro h <;>
  simp [FillProperties.assignUsed, GradientFillProperties.assignUsed,
    PatternFillProperties.assignUsed, BlipFillProperties.assignUsed,
    ArtisticEffectProperties.assignUsed, assignIfUsed_eq_of_isSome,
    Color.assignIfUsed_used, h]

/-- The clip rectangle and the embedded original graphic of the target are
never touched by `assignUsed`. -/
theorem assignUsed_keeps_moClipRect (t s : FillProperties) :
    (t.assignUsed s).maBlipProps.moClipRect = t.maBlipProps.moClipRect ∧
    (t.assignUsed s).maBlipProps.maEffect.mrOleObjectInfo
      = t.maBlipProps.maEffect.mrOleObjectInfo := by
  constructor
  · rfl
  · simp only [FillProperties.assignUsed, BlipFillProperties.assignUsed,
      ArtisticEffectProperties.assignUsed]
    split <;> rfl

/-- C6 (evaluation at the failing input): a source whose blip clip rectangle
`moClipRect` is set does not pass it on; the target's clip rectangle is still
unset after `assignUsed`. -/
theorem assignUsed_drops_moClipRect :
    (({ } : FillProperties).assignUsed
        { maBlipProps := { moClipRect := some ⟨10000, 0, 10000, 0⟩ } }).maBlipProps.moClipRect
      = none := by
  decide

/-- C7: every field of the target whose counterpart in the source is unset
(empty optional, unused colour, empty stop list, null graphic, empty
artistic-effect name) has the same value after `assignUsed` as before, and
`assignUsed` from a default-constructed source changes nothing. -/
theorem assignUsed_skips_unset (t s : FillProperties) :
    (s.moFillType = none → (t.assignUsed s).moFillType = t.moFillType) ∧
    (s.maFillColor.used = false → (t.assignUsed s).maFillColor = t.maFillColor) ∧
    (s.moUseBgFill = none → (t.assignUsed s).moUseBgFill = t.moUseBgFill) ∧
    (s.maGradientProps.maGradientStops = [] →
      (t.assignUsed s).maGradientProps.maGradientStops = t.maGradientProps.maGradientStops) ∧
    (s.maGradientProps.moFillToRect = none →
      (t.assignUsed s).maGradientProps.moFillToRect = t.maGradientProps.moFillToRect) ∧
    (s.maGradientProps.moTileRect = none →
      (t.assignUsed s).maGradientProps.moTileRect = t.maGradientProps.moTileRect) ∧
    (s.maGradientProps.moGradientPath = none →
      (t.assignUsed s).maGradientProps.moGradientPath = t.maGradientProps.moGradientPath) ∧
    (s.maGradientProps.moShadeAngle = none →
      (t.assignUsed s).maGradientProps.moShadeAngle = t.maGradientProps.moShadeAngle) ∧
    (s.maGradientProps.moShadeFlip = none →
      (t.assignUsed s).maGradientProps.moShadeFlip = t.maGradientProps.moShadeFlip) ∧
    (s.maGradientProps.moShadeScaled = none →
      (t.assignUsed s).maGradientProps.moShadeScaled = t.maGradientProps.moShadeScaled) ∧
    (s.maGradientProps.moRotateWithShape = none →
      (t.assignUsed s).maGradientProps.moRotateWithShape
        = t.maGradientProps.moRotateWithShape) ∧
    (s.maPatternProps.maPattFgColor.used = false →
      (t.assignUsed s).maPatternProps.maPattFgColor = t.maPatternProps.maPattFgColor) ∧
    (s.maPatternProps.maPattBgColor.used = false →
      (t.assignUsed s).maPatternProps.maPattBgColor = t.maPatternProps.maPattBgColor) ∧
    (s.maPatternProps.moPattPreset = none →
      (t.assignUsed s).maPatternProps.moPattPreset = t.maPatternProps.moPattPreset) ∧
    (s.maBlipProps.mxFillGraphic = none →
      (t.assignUsed s).maBlipProps.mxFillGraphic = t.maBlipProps.mxFillGraphic) ∧
    (s.maBlipProps.moBitmapMode = none →
      (t.assignUsed s).maBlipProps.moBitmapMode = t.maBlipProps.moBitmapMode) ∧
    (s.maBlipProps.moFillRect = none →
      (t.assignUsed s).maBlipProps.moFillRect = t.maBlipProps.moFillRect) ∧
    (s.maBlipProps.moClipRect = none →
      (t.assignUsed s).maBlipProps.moClipRect = t.maBlipProps.moClipRect) ∧
    (s.maBlipProps.moTileOffsetX = none →
      (t.assignUsed s).maBlipProps.moTileOffsetX = t.maBlipProps.moTileOffsetX) ∧
    (s.maBlipProps.moTileOffsetY = none →
      (t.assignUsed s).maBlipProps.moTileOffsetY = t.maBlipProps.moTileOffsetY) ∧
    (s.maBlipProps.moTileScaleX = none →
      (t.assignUsed s).maBlipProps.moTileScaleX = t.maBlipProps.moTileScaleX) ∧
    (s.maBlipProps.moTileScaleY = none →
      (t.assignUsed s).maBlipProps.moTileScaleY = t.maBlipProps.moTileScaleY) ∧
    (s.maBlipProps.moTileAlign = none →
      (t.assignUsed s).maBlipProps.moTileAlign = t.maBlipProps.moTileAlign) ∧
    (s.maBlipProps.moTileFlip = none →
      (t.assignUsed s).maBlipProps.moTileFlip = t.maBlipProps.moTileFlip) ∧
    (s.maBlipProps.moRotateWithShape = none →
      (t.assignUsed s).maBlipProps.moRotateWithShape = t.maBlipProps.moRotateWithShape) ∧
    (s.maBlipProps.moColorEffect = none →
      (t.assignUsed s).maBlipProps.moColorEffect = t.maBlipProps.moColorEffect) ∧
    (s.maBlipProps.moBrightness = none →
      (t.assignUsed s).maBlipProps.moBrightness = t.maBlipProps.moBrightness) ∧
    (s.maBlipProps.moContrast = none →
      (t.assignUsed s).maBlipProps.moContrast = t.maBlipProps.moContrast) ∧
    (s.maBlipProps.moBiLevelThreshold = none →
      (t.assignUsed s).maBlipProps.moBiLevelThreshold = t.maBlipProps.moBiLevelThreshold) ∧
    (s.maBlipProps.maColorChangeFrom.used = false →
      (t.assignUsed s).maBlipProps.maColorChangeFrom = t.maBlipProps.maColorChangeFrom) ∧
    (s.maBlipProps.maColorChangeTo.used = false →
      (t.assignUsed s).maBlipProps.maColorChangeTo = t.maBlipProps.maColorChangeTo) ∧
    (s.maBlipProps.maDuotoneColors0.used = false →
      (t.assignUsed s).maBlipProps.maDuotoneColors0 = t.maBlipProps.maDuotoneColors0) ∧
    (s.maBlipProps.maDuotoneColors1.used = false →
      (t.assignUsed s).maBlipProps.maDuotoneColors1 = t.maBlipProps.maDuotoneColors1) ∧
    (s.maBlipProps.maEffect.isEmpty = true →
      (t.assignUsed s).maBlipProps.maEffect = t.maBlipProps.maEffect) ∧
    (s.maBlipProps.moAlphaModFix = none →
      (t.assignUsed s).maBlipProps.moAlphaModFix = t.maBlipProps.moAlphaModFix) ∧
    t.assignUsed { } = t := by
  refine ⟨?_, ?_, ?_, ?_, ?_, ?_, ?_, ?_, ?_, ?_, ?_, ?_, ?_, ?_, ?_, ?_, ?_, ?_, ?_, ?_,
    ?_, ?_, ?_, ?_, ?_, ?_, ?_, ?_, ?_, ?_, ?_, ?_, ?_, ?_, ?_, ?_⟩
  case refine_36 =>
    have hE : ("" : String).isEmpty = true := by decide
    obtain ⟨ft, fc, bg, g, p, bl⟩ := t
    cases g
    cases p
    cases bl
    simp [FillProperties.assignUsed, GradientFillProperties.assignUsed,
      PatternFillProperties.assignUsed, BlipFillProperties.assignUsed,
      ArtisticEffectProperties.assignUsed, ArtisticEffectProperties.isEmpty,
      assignIfUsed_none, Color.assignIfUsed, hE]
  all_goals
    intro h
    simp [FillProperties.assignUsed, GradientFillProperties.assignUsed,
      PatternFillProperties.assignUsed, BlipFillProperties.assignUsed,
      ArtisticEffectProperties.assignUsed,
      assignIfUsed_none, Color.assignIfUsed_unused, h]

/-- Witness for C7: a source that sets only the fill colour leaves the fill
type of the target alone. -/
theorem assignUsed_skips_unset_witness :
    (({ moFillType := some .gradFill } : FillProperties).assignUsed
        { maFillColor := { used := true, data := 255 } }).moFillType
      = some .gradFill :=
  (assignUsed_skips_unset { moFillType := some .gradFill }
    { maFillColor := { used := true, data := 255 } }).1 rfl

end Oox

namespace Oox

set_option linter.unusedTactic false
set_option linter.unreachableTactic false

theorem ExtendsWithoutFillStyle.refl (m : ShapePropertyMap) : ExtendsWithoutFillStyle m m :=
  ⟨rfl, rfl, [], by simp, by simp⟩

theorem ExtendsWithoutFillStyle.setProperty {m m' : ShapePropertyMap} {p : ShapeProperty}
    (hp : p ≠ .FillStyle) (v : PropValue) (h : ExtendsWithoutFillStyle m m') :
    ExtendsWithoutFillStyle m (m'.setProperty p v).1 := by
  obtain ⟨h1, h2, ws, h3, h4⟩ := h
  refine ⟨h1, h2, ws ++ [(.shape p, v)], ?_, ?_⟩
  · simp [ShapePropertyMap.setProperty, h3]
  · intro w hw
    rcases List.mem_append.1 hw with hw | hw
    · exact h4 w hw
    · simp only [List.mem_singleton] at hw
      subst hw
      simpa using hp

theorem ExtendsWithoutFillStyle.setPropertyId {m m' : ShapePropertyMap} {k : PropKey}
    (hk : k ≠ .shape .FillStyle) (v : PropValue) (h : ExtendsWithoutFillStyle m m') :
    ExtendsWithoutFillStyle m (m'.setPropertyId k v) := by
  obtain ⟨h1, h2, ws, h3, h4⟩ := h
  refine ⟨h1, h2, ws ++ [(k, v)], ?_, ?_⟩
  · simp [ShapePropertyMap.setPropertyId, h3]
  · intro w hw
    rcases List.mem_append.1 hw with hw | hw
    · exact h4 w hw
    · simp only [List.mem_singleton] at hw
      subst hw
      exact hk

theorem ExtendsWithoutFillStyle.trans {m m' m'' : ShapePropertyMap}
    (h : ExtendsWithoutFillStyle m m') (h' : ExtendsWithoutFillStyle m' m'') :
    ExtendsWithoutFillStyle m m'' := by
  obtain ⟨a1, a2, ws, a3, a4⟩ := h
  obtain ⟨b1, b2, ws', b3, b4⟩ := h'
  refine ⟨b1.trans a1, b2.trans a2, ws ++ ws', by simp [b3, a3], ?_⟩
  intro w hw
  rcases List.mem_append.1 hw with hw | hw
  · exact a4 w hw
  · exact b4 w hw

theorem ExtendsWithoutFillStyle.ite {m a b : ShapePropertyMap} {c : Prop} [Decidable c]
    (ha : ExtendsWithoutFillStyle m a) (hb : ExtendsWithoutFillStyle m b) :
    ExtendsWithoutFillStyle m (if c then a else b) := by
  split <;> assumption

theorem ExtendsWithoutFillStyle.ite_fst {β : Type} {m : ShapePropertyMap}
    {a b : ShapePropertyMap × β} {c : Prop} [Decidable c]
    (ha : ExtendsWithoutFillStyle m a.1) (hb : ExtendsWithoutFillStyle m b.1) :
    ExtendsWithoutFillStyle m (if c then a else b).1 := by
  split <;> assumption

theorem pushNoFill_extends (fp : FillProperties) (m : ShapePropertyMap) :
    ExtendsWithoutFillStyle m (pushNoFill fp m).1 := by
  unfold pushNoFill
  repeat' first
    | exact ExtendsWithoutFillStyle.refl _
    | assumption
    | (refine ExtendsWithoutFillStyle.ite_fst ?_ ?_)
    | (refine ExtendsWithoutFillStyle.ite ?_ ?_)
    | (refine ExtendsWithoutFillStyle.setProperty (by decide) _ ?_)
    | (refine ExtendsWithoutFillStyle.setPropertyId (by decide) _ ?_)
    | (dsimp only)
    | split

theorem pushSolidFill_extends (fp : FillProperties) (h : GraphicHelper) (m : ShapePropertyMap)
    (nPhClr nPhClrTheme : Int) :
    ExtendsWithoutFillStyle m (pushSolidFill fp h m nPhClr nPhClrTheme).1 := by
  unfold pushSolidFill
  repeat' first
    | exact ExtendsWithoutFillStyle.refl _
    | assumption
    | (refine ExtendsWithoutFillStyle.ite_fst ?_ ?_)
    | (refine ExtendsWithoutFillStyle.ite ?_ ?_)
    | (refine ExtendsWithoutFillStyle.setProperty (by decide) _ ?_)
    | (refine ExtendsWithoutFillStyle.setPropertyId (by decide) _ ?_)
    | (dsimp only)
    | split

theorem pushGradFill_extends (fp : FillProperties) (h : GraphicHelper) (m : ShapePropertyMap)
    (nShapeRotation nPhClr : Int) (bFlipH bFlipV : Bool) :
    ExtendsWithoutFillStyle m
      (pushGradFill fp h m nShapeRotation nPhClr bFlipH bFlipV).1 := by
  unfold pushGradFill
  repeat' first
    | exact ExtendsWithoutFillStyle.refl _
    | assumption
    | (refine ExtendsWithoutFillStyle.ite_fst ?_ ?_)
    | (refine ExtendsWithoutFillStyle.ite ?_ ?_)
    | (refine ExtendsWithoutFillStyle.setProperty (by decide) _ ?_)
    | (refine ExtendsWithoutFillStyle.setPropertyId (by decide) _ ?_)
    | (dsimp only)
    | split

theorem pushPattBackground_extends (fp : FillProperties) (h : GraphicHelper)
    (m : ShapePropertyMap) (nPhClr : Int) :
    ExtendsWithoutFillStyle m (pushPattBackground fp h m nPhClr).1 := by
  unfold pushPattBackground
  repeat' first
    | exact ExtendsWithoutFillStyle.refl _
    | assumption
    | (refine ExtendsWithoutFillStyle.ite_fst ?_ ?_)
    | (refine ExtendsWithoutFillStyle.ite ?_ ?_)
    | (refine ExtendsWithoutFillStyle.setProperty (by decide) _ ?_)
    | (refine ExtendsWithoutFillStyle.setPropertyId (by decide) _ ?_)
    | (dsimp only)
    | split

theorem pushPattFill_extends (fp : FillProperties) (h : GraphicHelper) (m : ShapePropertyMap)
    (nPhClr : Int) : ExtendsWithoutFillStyle m (pushPattFill fp h m nPhClr).1 := by
  unfold pushPattFill
  have hbg := pushPattBackground_extends fp h m nPhClr
  repeat' first
    | exact ExtendsWithoutFillStyle.refl _
    | assumption
    | (refine ExtendsWithoutFillStyle.ite_fst ?_ ?_)
    | (refine ExtendsWithoutFillStyle.ite ?_ ?_)
    | (refine ExtendsWithoutFillStyle.setProperty (by decide) _ ?_)
    | (refine ExtendsWithoutFillStyle.setPropertyId (by decide) _ ?_)
    | (dsimp only)
    | split

theorem pushBlipGraphic_extends (fp : FillProperties) (h : GraphicHelper)
    (m : ShapePropertyMap) (nPhClr : Int) :
    ExtendsWithoutFillStyle m (pushBlipGraphic fp h m nPhClr).1 := by
  unfold pushBlipGraphic
  repeat' first
    | exact ExtendsWithoutFillStyle.refl _
    | assumption
    | (refine ExtendsWithoutFillStyle.ite_fst ?_ ?_)
    | (refine ExtendsWithoutFillStyle.ite ?_ ?_)
    | (refine ExtendsWithoutFillStyle.setProperty (by decide) _ ?_)
    | (refine ExtendsWithoutFillStyle.setPropertyId (by decide) _ ?_)
    | (dsimp only)
    | split

theorem pushBlipRepeat_extends (fp : FillProperties) (h : GraphicHelper)
    (m : ShapePropertyMap) : ExtendsWithoutFillStyle m (pushBlipRepeat fp h m) := by
  unfold pushBlipRepeat
  repeat' first
    | exact ExtendsWithoutFillStyle.refl _
    | assumption
    | (refine ExtendsWithoutFillStyle.ite_fst ?_ ?_)
    | (refine ExtendsWithoutFillStyle.ite ?_ ?_)
    | (refine ExtendsWithoutFillStyle.setProperty (by decide) _ ?_)
    | (refine ExtendsWithoutFillStyle.setPropertyId (by decide) _ ?_)
    | (dsimp only)
    | split

theorem pushBlipStretch_extends (h : GraphicHelper) (m : ShapePropertyMap)
    (aFillRect : IntegerRectangle2D) (xGraphic : XGraphicRef) (rSize : Size)
    (bIsCustomShape : Bool) :
    ExtendsWithoutFillStyle m
      (pushBlipStretch h m aFillRect xGraphic rSize bIsCustomShape).1 := by
  unfold pushBlipStretch
  repeat' first
    | exact ExtendsWithoutFillStyle.refl _
    | assumption
    | (refine ExtendsWithoutFillStyle.ite_fst ?_ ?_)
    | (refine ExtendsWithoutFillStyle.ite ?_ ?_)
    | (refine ExtendsWithoutFillStyle.setProperty (by decide) _ ?_)
    | (refine ExtendsWithoutFillStyle.setPropertyId (by decide) _ ?_)
    | (dsimp only)
    | split

theorem pushBlipMode_extends (fp : FillProperties) (h : GraphicHelper) (m : ShapePropertyMap)
    (xGraphic : XGraphicRef) (rSize : Size) (bIsCustomShape : Bool) :
    ExtendsWithoutFillStyle m (pushBlipMode fp h m xGraphic rSize bIsCustomShape) := by
  unfold pushBlipMode
  have hrep := pushBlipRepeat_extends fp h m
  have hstr := fun r => pushBlipStretch_extends h m r xGraphic rSize bIsCustomShape
  dsimp only
  refine ExtendsWithoutFillStyle.ite ?_ ?_
  · exact ExtendsWithoutFillStyle.setProperty (by decide) _ hrep
  · split
    · exact ExtendsWithoutFillStyle.setProperty (by decide) _ (hstr _)
    · exact ExtendsWithoutFillStyle.setProperty (by decide) _ (ExtendsWithoutFillStyle.refl m)

theorem pushBlipFill_extends (fp : FillProperties) (h : GraphicHelper) (m : ShapePropertyMap)
    (nPhClr : Int) (rSize : Size) (bIsCustomShape : Bool) :
    ExtendsWithoutFillStyle m (pushBlipFill fp h m nPhClr rSize bIsCustomShape).1 := by
  unfold pushBlipFill
  have hg := pushBlipGraphic_extends fp h m nPhClr
  have hm1 : ExtendsWithoutFillStyle m
      (if (pushBlipGraphic fp h m nPhClr).2.1 = .BITMAP then
        pushBlipMode fp h (pushBlipGraphic fp h m nPhClr).1
          (pushBlipGraphic fp h m nPhClr).2.2 rSize bIsCustomShape
      else (pushBlipGraphic fp h m nPhClr).1) :=
    ExtendsWithoutFillStyle.ite (hg.trans (pushBlipMode_extends fp h _ _ _ _)) hg
  refine ExtendsWithoutFillStyle.ite_fst ?_ (ExtendsWithoutFillStyle.refl m)
  dsimp only
  split
  · exact ExtendsWithoutFillStyle.setProperty (by decide) _ hm1
  · exact hm1

end Oox

namespace Oox

/-- The map and fill style with which `pushToPropMap` leaves its `switch`. -/
theorem pushToPropMap_eq_final (fp : FillProperties) (m : ShapePropertyMap)
    (h : GraphicHelper) (rot ph : Int) (size : Size) (theme : Int) (fh fv cs : Bool)
    (tok : Token) (ht : fp.moFillType = some tok) :
    ∃ (m1 : ShapePropertyMap) (v : FillStyle),
      fp.pushToPropMap m h rot ph size theme fh fv cs
          = (m1.setProperty .FillStyle (.fillStyle v)).1 ∧
      ExtendsWithoutFillStyle m m1 ∧
      (tok = .noFill ∨ tok = .grpFill ∨ (tok = .solidFill ∧ fp.maFillColor.used = false) →
        v = .NONE) ∧
      (tok = .solidFill ∧ fp.maFillColor.used = true → v = .SOLID) := by
  unfold FillProperties.pushToPropMap
  rw [ht]
  cases tok
  case noFill =>
    exact ⟨_, _, rfl, pushNoFill_extends fp m, fun _ => rfl, by simp⟩
  case solidFill =>
    refine ⟨_, _, rfl, pushSolidFill_extends fp h m ph theme, ?_, ?_⟩
    · intro hc
      rcases hc with hc | hc | ⟨_, hc⟩
      · cases hc
      · cases hc
      · simp [pushSolidFill, hc]
    · rintro ⟨_, hc⟩
      simp [pushSolidFill, hc]
  case gradFill =>
    exact ⟨_, _, rfl, pushGradFill_extends fp h m rot ph fh fv, by simp, by simp⟩
  case blipFill =>
    exact ⟨_, _, rfl, pushBlipFill_extends fp h m ph size cs, by simp, by simp⟩
  case pattFill =>
    exact ⟨_, _, rfl, pushPattFill_extends fp h m ph, by simp, by simp⟩
  case grpFill =>
    exact ⟨_, _, rfl, ExtendsWithoutFillStyle.refl m, fun _ => rfl, by simp⟩
  all_goals
    exact ⟨_, _, rfl, ExtendsWithoutFillStyle.refl m, by simp, by simp⟩

/-- C8: with no fill type `pushToPropMap` leaves the property map unchanged;
with a fill type the writes it adds end with the one and only write of
`FillStyle`, whose value is `NONE` for noFill, grpFill and solidFill with an
unused colour, and `SOLID` for solidFill with a used colour. -/
theorem pushToPropMap_FillStyle (fp : FillProperties) (m : ShapePropertyMap)
    (h : GraphicHelper) (rot ph : Int) (size : Size) (theme : Int) (fh fv cs : Bool) :
    (fp.moFillType = none → fp.pushToPropMap m h rot ph size theme fh fv cs = m) ∧
    (∀ tok : Token, fp.moFillType = some tok →
      ∃ (ws : List (PropKey × PropValue)) (v : FillStyle),
        (fp.pushToPropMap m h rot ph size theme fh fv cs).writes
            = m.writes ++ ws ++ [(.shape .FillStyle, .fillStyle v)] ∧
        (∀ w ∈ ws, w.1 ≠ PropKey.shape .FillStyle) ∧
        (tok = .noFill ∨ tok = .grpFill ∨ (tok = .solidFill ∧ fp.maFillColor.used = false) →
          v = .NONE) ∧
        (tok = .solidFill ∧ fp.maFillColor.used = true → v = .SOLID)) := by
  constructor
  · intro hn
    unfold FillProperties.pushToPropMap
    rw [hn]
  · intro tok ht
    obtain ⟨m1, v, h1, ⟨_, _, ws, h2, h3⟩, h4, h5⟩ :=
      pushToPropMap_eq_final fp m h rot ph size theme fh fv cs tok ht
    refine ⟨ws, v, ?_, h3, h4, h5⟩
    rw [h1]
    simp [ShapePropertyMap.setProperty, h2]

/-- Witness for C8: a solid fill with a used colour. -/
theorem pushToPropMap_FillStyle_witness :
    ∃ (ws : List (PropKey × PropValue)) (v : FillStyle),
      (({ moFillType := some .solidFill, maFillColor := { used := true, data := 255 } } :
          FillProperties).pushToPropMap emptyMap sampleHelper 0 0 ⟨10, 10⟩ 0 false false
            false).writes
          = emptyMap.writes ++ ws ++ [(.shape .FillStyle, .fillStyle v)] ∧
      (∀ w ∈ ws, w.1 ≠ PropKey.shape .FillStyle) ∧
      (Token.solidFill = .noFill ∨ Token.solidFill = .grpFill ∨
        (Token.solidFill = .solidFill ∧
          ({ used := true, data := 255 } : Color).used = false) → v = .NONE) ∧
      (Token.solidFill = .solidFill ∧ ({ used := true, data := 255 } : Color).used = true →
        v = .SOLID) :=
  (pushToPropMap_FillStyle
    { moFillType := some .solidFill, maFillColor := { used := true, data := 255 } }
    emptyMap sampleHelper 0 0 ⟨10, 10⟩ 0 false false false).2 .solidFill rfl

theorem wrap32_of_range (x : Int) (h1 : -2147483648 ≤ x) (h2 : x < 2147483648) :
    wrap32 x = x := by
  unfold wrap32 wrapInt
  norm_num
  omega

theorem wrap16_of_range (x : Int) (h1 : -32768 ≤ x) (h2 : x < 32768) : wrap16 x = x := by
  unfold wrap16 wrapInt
  norm_num
  omega

/-- Truncating division by 6000 of an angle sum between minus one and plus two
full turns. -/
theorem tdiv_6000_bounds (x : Int) (h1 : -21600000 < x) (h2 : x < 43200000) :
    -3600 < Int.tdiv x 6000 ∧ Int.tdiv x 6000 < 7200 := by
  rcases Int.le_total 0 x with hx | hx
  · rw [Int.tdiv_eq_ediv hx (by norm_num)]
    omega
  · have hneg : Int.tdiv x 6000 = -((-x) / 6000) := by
      have h := Int.neg_tdiv (-x) 6000
      rw [neg_neg] at h
      rw [h, Int.tdiv_eq_ediv (by omega) (by norm_num)]
    rw [hneg]
    omega

/-- The flip-adjusted shade angle plus the rotation stays between minus one and
plus two full turns when both inputs are within one full turn. -/
theorem flipped_sum_bounds (a r : Int) (fh fv : Bool) (ha : 0 ≤ a ∧ a < 21600000)
    (hr : 0 ≤ r ∧ r < 21600000) :
    -21600000 < (if fv then -(if fh then 10800000 - a else a)
        else (if fh then 10800000 - a else a)) + r ∧
      (if fv then -(if fh then 10800000 - a else a)
        else (if fh then 10800000 - a else a)) + r < 43200000 := by
  cases fh <;> cases fv <;> simp <;> omega

theorem specGradientAngle_range (a r : Int) (fh fv : Bool) (ha : 0 ≤ a ∧ a < 21600000)
    (hr : 0 ≤ r ∧ r < 21600000) :
    0 ≤ specGradientAngle a r fh fv ∧ specGradientAngle a r fh fv < 3600 := by
  unfold specGradientAngle
  have hb := flipped_sum_bounds a r fh fv ha hr
  have hq := tdiv_6000_bounds _ hb.1 hb.2
  dsimp only
  rw [Int.tmod_eq_emod (by omega) (by norm_num)]
  omega

/-- Truncating division by 6000 of any 32-bit value. -/
theorem tdiv_6000_int32 (x : Int) (h1 : -2147483648 ≤ x) (h2 : x < 2147483648) :
    -357914 ≤ Int.tdiv x 6000 ∧ Int.tdiv x 6000 ≤ 357914 := by
  rcases Int.le_total 0 x with hx | hx
  · rw [Int.tdiv_eq_ediv hx (by norm_num)]
    omega
  · have hneg : Int.tdiv x 6000 = -((-x) / 6000) := by
      have h := Int.neg_tdiv (-x) 6000
      rw [neg_neg] at h
      rw [h, Int.tdiv_eq_ediv (by omega) (by norm_num)]
    rw [hneg]
    omega

/-- The truncating remainder by 3600 is smaller than 3600 in size. -/
theorem tmod_3600_bounds (x : Int) : -3600 < Int.tmod x 3600 ∧ Int.tmod x 3600 < 3600 := by
  rcases Int.le_total 0 x with hx | hx
  · rw [Int.tmod_eq_emod hx (by norm_num)]
    omega
  · have hq : Int.tdiv x 3600 = -((-x) / 3600) := by
      have h := Int.neg_tdiv (-x) 3600
      rw [neg_neg] at h
      rw [h, Int.tdiv_eq_ediv (by omega) (by norm_num)]
    rw [Int.tmod_def, hq]
    omega

/-- The conversion of a DrawingML angle that fits in 32 bits: nothing wraps
around. -/
theorem angle_conversion (s : Int) (h1 : -2147483648 ≤ s) (h2 : s < 2147483648) :
    wrap16 (Int.tmod (wrap32 (8100 - Int.tdiv (wrap32 s) (Int.tdiv PER_DEGREE 10))) 3600)
      = Int.tmod (8100 - Int.tdiv s 6000) 3600 := by
  have hq := tdiv_6000_int32 s h1 h2
  have hdeg : Int.tdiv PER_DEGREE 10 = 6000 := by
    unfold PER_DEGREE
    rw [Int.tdiv_eq_ediv (by norm_num) (by norm_num)]
    norm_num
  have hm := tmod_3600_bounds (8100 - Int.tdiv s 6000)
  rw [wrap32_of_range s h1 h2, hdeg,
    wrap32_of_range (8100 - Int.tdiv s 6000) (by omega) (by omega)]
  exact wrap16_of_range _ (by omega) (by omega)

/-- For a shade angle of at most 10^9 in size the flip adjustments do not wrap
around. -/
theorem flip_adjust (a : Int) (fh fv : Bool) (ha : -1000000000 ≤ a ∧ a ≤ 1000000000) :
    (if fv = true then wrap32 (-(if fh = true then wrap32 (180 * 60000 - a) else a))
      else (if fh = true then wrap32 (180 * 60000 - a) else a))
      = (if fv = true then -(if fh = true then 10800000 - a else a)
        else (if fh = true then 10800000 - a else a)) := by
  have e0 : (180 * 60000 - a : Int) = 10800000 - a := by norm_num
  have e1 : wrap32 (10800000 - a) = 10800000 - a :=
    wrap32_of_range _ (by omega) (by omega)
  have e2 : wrap32 (-(10800000 - a)) = -(10800000 - a) :=
    wrap32_of_range _ (by omega) (by omega)
  have e3 : wrap32 (-a) = -a := wrap32_of_range _ (by omega) (by omega)
  rw [e0, e1]
  cases fh <;> cases fv <;> simp only [if_true, if_false, Bool.false_eq_true, e2, e3]

/-- The angle code computes the specified formula whenever shade angle and
rotation are at most 10^9 in size (no 32-bit operation overflows). -/
theorem linearGradientAngle_eq_spec (a r : Int) (fh fv : Bool)
    (ha : -1000000000 ≤ a ∧ a ≤ 1000000000) (hr : -1000000000 ≤ r ∧ r ≤ 1000000000) :
    linearGradientAngle (some a) r fh fv = specGradientAngle a r fh fv := by
  have hb : -2147483648 ≤ (if fv then -(if fh then 10800000 - a else a)
        else (if fh then 10800000 - a else a)) + r ∧
      (if fv then -(if fh then 10800000 - a else a)
        else (if fh then 10800000 - a else a)) + r < 2147483648 := by
    cases fh <;> cases fv <;> simp <;> omega
  unfold specGradientAngle linearGradientAngle
  dsimp only
  rw [Option.getD_some, flip_adjust a fh fv ha]
  exact angle_conversion _ hb.1 hb.2

end Oox

namespace Oox

theorem gradShapeRotation_eq (g : GradientFillProperties) (rot : Int) :
    gradShapeRotation g rot = if g.moRotateWithShape = some false then 0 else rot := by
  unfold gradShapeRotation
  cases hrw : g.moRotateWithShape with
  | none => simp
  | some b => cases b <;> simp

theorem linearGradientAngle_getD (o : Option Int) (r : Int) (fh fv : Bool) :
    linearGradientAngle o r fh fv = linearGradientAngle (some (o.getD 0)) r fh fv := by
  cases o <;> rfl

/-- The angle of the gradient pushed for a linear gradient with stops. -/
theorem gradFillGradient_Angle (h : GraphicHelper) (g : GradientFillProperties)
    (rot ph : Int) (fh fv : Bool) (hpath : g.moGradientPath = none)
    (hstops : g.maGradientStops ≠ []) :
    (gradFillGradient h g rot ph fh fv).Angle
      = linearGradientAngle g.moShadeAngle (gradShapeRotation g rot) fh fv := by
  have hne : g.maGradientStops.isEmpty = false := by
    cases hs : g.maGradientStops with
    | nil => exact absurd hs hstops
    | cons x xs => rfl
  simp [gradFillGradient, gradGeometry, hpath, hne]

/-- The writes of case `XML_gradFill` on a map that supports `FillGradient`
start with the gradient. -/
theorem pushGradFill_writes (fp : FillProperties) (h : GraphicHelper) (m : ShapePropertyMap)
    (rot ph : Int) (fh fv : Bool) (hsup : m.supports .FillGradient = true) :
    ∃ rest : List (PropKey × PropValue),
      (pushGradFill fp h m rot ph fh fv).1.writes
        = m.writes ++ (.shape .FillGradient,
            .gradient (gradFillGradient h fp.maGradientProps rot ph fh fv)) :: rest := by
  unfold pushGradFill
  simp only [ShapePropertyMap.supportsProperty, hsup, if_true]
  split
  · exact ⟨_, by simp [ShapePropertyMap.setProperty]; rfl⟩
  · exact ⟨[], by simp [ShapePropertyMap.setProperty]⟩

/-- C9: for a gradient fill with no gradient path and at least one stop, pushed
to a map that supports `FillGradient`, the `Angle` of the gradient written is
`(8100 - (a + r) / 6000) rem 3600` with truncating division, where `a` is the
flip-adjusted shade angle (0 if unset) and `r` the shape rotation (0 when
rotate-with-shape is false), as long as no 32-bit operation overflows (shade
angle and rotation at most 10^9 in size). When shade angle and shape rotation
are each in `[0, 21600000)` the angle lies in `[0, 3600)` for every flip
combination, and it is 900 for shade angle 0, rotation 0 and no flip. -/
theorem pushToPropMap_linear_gradient_angle (fp : FillProperties) (m : ShapePropertyMap)
    (h : GraphicHelper) (rot ph : Int) (size : Size) (theme : Int) (fh fv cs : Bool)
    (htype : fp.moFillType = some .gradFill)
    (hsup : m.supports .FillGradient = true)
    (hpath : fp.maGradientProps.moGradientPath = none)
    (hstops : fp.maGradientProps.maGradientStops ≠ []) :
    ∃ (G : Gradient2) (rest : List (PropKey × PropValue)),
      (fp.pushToPropMap m h rot ph size theme fh fv cs).writes
          = m.writes ++ (.shape .FillGradient, .gradient G) :: rest ∧
      (-1000000000 ≤ fp.maGradientProps.moShadeAngle.getD 0 ∧
          fp.maGradientProps.moShadeAngle.getD 0 ≤ 1000000000 →
        -1000000000 ≤ rot ∧ rot ≤ 1000000000 →
        G.Angle = specGradientAngle (fp.maGradientProps.moShadeAngle.getD 0)
          (if fp.maGradientProps.moRotateWithShape = some false then 0 else rot) fh fv) ∧
      (0 ≤ fp.maGradientProps.moShadeAngle.getD 0 ∧
          fp.maGradientProps.moShadeAngle.getD 0 < 21600000 →
        0 ≤ rot ∧ rot < 21600000 →
        0 ≤ G.Angle ∧ G.Angle < 3600) ∧
      (fp.maGradientProps.moShadeAngle.getD 0 = 0 →
        (if fp.maGradientProps.moRotateWithShape = some false then 0 else rot) = 0 →
        fh = false → fv = false → G.Angle = 900) := by
  obtain ⟨rest, hw⟩ := pushGradFill_writes fp h m rot ph fh fv hsup
  have hangle : (gradFillGradient h fp.maGradientProps rot ph fh fv).Angle
      = linearGradientAngle (some (fp.maGradientProps.moShadeAngle.getD 0))
        (if fp.maGradientProps.moRotateWithShape = some false then 0 else rot) fh fv := by
    rw [gradFillGradient_Angle h _ rot ph fh fv hpath hstops, gradShapeRotation_eq,
      linearGradientAngle_getD]
  refine ⟨gradFillGradient h fp.maGradientProps rot ph fh fv,
    rest ++ [(.shape .FillStyle, .fillStyle
      (pushGradFill fp h m rot ph fh fv).2)], ?_, ?_, ?_, ?_⟩
  · unfold FillProperties.pushToPropMap
    rw [htype]
    simp [ShapePropertyMap.setProperty, hw]
  · intro ha hr
    have hr' : -1000000000 ≤
          (if fp.maGradientProps.moRotateWithShape = some false then 0 else rot) ∧
        (if fp.maGradientProps.moRotateWithShape = some false then 0 else rot)
          ≤ 1000000000 := by
      split
      · exact ⟨by norm_num, by norm_num⟩
      · exact hr
    rw [hangle, linearGradientAngle_eq_spec _ _ fh fv ha hr']
  · intro ha hr
    have hr' : 0 ≤ (if fp.maGradientProps.moRotateWithShape = some false then 0 else rot) ∧
        (if fp.maGradientProps.moRotateWithShape = some false then 0 else rot)
          < 21600000 := by
      split
      · exact ⟨le_refl _, by norm_num⟩
      · exact hr
    rw [hangle, linearGradientAngle_eq_spec _ _ fh fv ⟨by omega, by omega⟩
      ⟨by omega, by omega⟩]
    exact specGradientAngle_range _ _ fh fv ha hr'
  · intro h0 hr0 hfh hfv
    rw [hangle, h0, hr0, hfh, hfv,
      linearGradientAngle_eq_spec 0 0 false false ⟨by norm_num, by norm_num⟩
        ⟨by norm_num, by norm_num⟩]
    decide

/-- Witness for C9: a two-stop linear gradient with shade angle 90 degrees on
a shape rotated by 45 degrees, flipped horizontally; the angle written is 3150. -/
theorem pushToPropMap_linear_gradient_angle_witness :
    ∃ (G : Gradient2) (rest : List (PropKey × PropValue)),
      (sampleLinearFill.pushToPropMap
          emptyMap sampleHelper 2700000 0 ⟨10, 10⟩ 0 true false false).writes
          = emptyMap.writes ++ (.shape .FillGradient, .gradient G) :: rest ∧
      G.Angle = 3150 ∧ 0 ≤ G.Angle ∧ G.Angle < 3600 :=
  have w := pushToPropMap_linear_gradient_angle sampleLinearFill
    emptyMap sampleHelper 2700000 0 ⟨10, 10⟩ 0 true false false
    rfl rfl rfl (by simp [sampleLinearFill])
  w.elim fun G hG => hG.elim fun rest hr =>
    ⟨G, rest, hr.1, (hr.2.1 (by decide) (by decide)).trans (by decide),
      hr.2.2.1 (by decide) (by decide)⟩

/-- With rotate-with-shape set to false the gradient does not depend on the
shape rotation. -/
theorem gradFillGradient_rotation (h : GraphicHelper) (g : GradientFillProperties)
    (rot1 rot2 ph : Int) (fh fv : Bool) (hrot : g.moRotateWithShape = some false) :
    gradFillGradient h g rot1 ph fh fv = gradFillGradient h g rot2 ph fh fv := by
  simp [gradFillGradient, gradGeometry, gradShapeRotation, hrot]

/-- C10: when the gradient's rotate-with-shape is false, `pushToPropMap` leaves
the same property map, with the same writes and values, for any two values of
`nShapeRotation`, all other arguments being equal. -/
theorem pushToPropMap_rotation_irrelevant (fp : FillProperties) (m : ShapePropertyMap)
    (h : GraphicHelper) (rot1 rot2 ph : Int) (size : Size) (theme : Int) (fh fv cs : Bool)
    (hrot : fp.maGradientProps.moRotateWithShape = some false) :
    fp.pushToPropMap m h rot1 ph size theme fh fv cs
      = fp.pushToPropMap m h rot2 ph size theme fh fv cs := by
  unfold FillProperties.pushToPropMap pushGradFill
  rw [gradFillGradient_rotation h fp.maGradientProps rot1 rot2 ph fh fv hrot]

/-- Witness for C10: a linear gradient that does not rotate with the shape,
pushed for an unrotated shape and for one rotated by 90 degrees. -/
theorem pushToPropMap_rotation_irrelevant_witness :
    sampleFixedFill.pushToPropMap emptyMap sampleHelper 0 0 ⟨10, 10⟩ 0 false false false
      = sampleFixedFill.pushToPropMap emptyMap sampleHelper 5400000 0 ⟨10, 10⟩ 0 false
          false false :=
  pushToPropMap_rotation_irrelevant sampleFixedFill emptyMap sampleHelper 0 5400000 0
    ⟨10, 10⟩ 0 false false false rfl

end Oox

/-! ## Theorems, part 3: ODF transparency gradient styles -/

namespace Xmloff

open Oox

theorem specGrey_range (p : Int) (hp : 0 ≤ p ∧ p ≤ 100) :
    0 ≤ specGrey p ∧ specGrey p ≤ 255 := by
  unfold specGrey
  rw [Int.tdiv_eq_ediv (by omega) (by norm_num)]
  omega

theorem transparencyToGrey_eq (p : Int) (hp : 0 ≤ p ∧ p ≤ 100) :
    transparencyToGrey p = specGrey p := by
  have hr := specGrey_range p hp
  unfold transparencyToGrey
  rw [wrap32_of_range (100 - p) (by omega) (by omega),
    wrap32_of_range ((100 - p) * 255) (by omega) (by omega)]
  unfold specGrey at hr ⊢
  unfold wrapU8
  omega

theorem channels_colorRGB (n : Int) (hn : 0 ≤ n ∧ n ≤ 255) :
    GetRed (colorRGB n n n) = n ∧ GetGreen (colorRGB n n n) = n ∧
      GetBlue (colorRGB n n n) = n := by
  have h0 : (n * 65536 + n * 256 + n) % 4294967296 = n * 65536 + n * 256 + n :=
    Int.emod_eq_of_lt (by omega) (by omega)
  have e1 : (n * 65536 + n * 256 + n) / 65536 = n := by
    have h : n * 65536 + n * 256 + n = (n * 256 + n) + n * 65536 := by ring
    rw [h, Int.add_mul_ediv_right _ _ (by norm_num)]
    omega
  have e2 : (n * 65536 + n * 256 + n) / 256 = n * 256 + n := by
    have h : n * 65536 + n * 256 + n = n + (n * 256 + n) * 256 := by ring
    rw [h, Int.add_mul_ediv_right _ _ (by norm_num)]
    omega
  have e3 : (n * 65536 + n * 256 + n) % 256 = n := by
    have h : n * 65536 + n * 256 + n = n + (n * 256 + n) * 256 := by ring
    rw [h, Int.add_mul_emod_self]
    omega
  unfold GetRed GetGreen GetBlue colorRGB
  rw [h0, e1, e2, e3]
  refine ⟨?_, ?_, rfl⟩
  · omega
  · have h : n * 256 + n = n + n * 256 := by ring
    rw [h, Int.add_mul_emod_self]
    omega

theorem greyToTransparency_colorRGB (n : Int) (hn : 0 ≤ n ∧ n ≤ 255) :
    greyToTransparency (colorRGB n n n) = specPercent n := by
  unfold greyToTransparency specPercent
  rw [(channels_colorRGB n hn).1]
  have h : 0 ≤ Int.tdiv ((n + 1) * 100) 255 ∧ Int.tdiv ((n + 1) * 100) 255 ≤ 100 := by
    rw [Int.tdiv_eq_ediv (by omega) (by norm_num)]
    omega
  exact wrap32_of_range _ (by omega) (by omega)

/-- The export percentage of the import grey level is the percentage itself. -/
theorem specPercent_specGrey (p : Int) (hp : 0 ≤ p ∧ p ≤ 100) :
    specPercent (specGrey p) = p := by
  have hr := specGrey_range p hp
  unfold specPercent
  rw [Int.tdiv_eq_ediv (by omega) (by norm_num)]
  unfold specGrey at hr ⊢
  rw [Int.tdiv_eq_ediv (by omega) (by norm_num)] at hr ⊢
  omega

theorem importAttribute_StartColor (s : ImportState) (a : ImportAttribute)
    (ha : ∀ q : Int, a ≠ .DRAW_START q) :
    (importAttribute s a).aGradient.StartColor = s.aGradient.StartColor := by
  cases a with
  | DRAW_START q => exact absurd rfl (ha q)
  | DRAW_STYLE v => cases v <;> rfl
  | DRAW_GRADIENT_ANGLE v => cases v <;> rfl
  | _ => rfl

theorem importAttribute_EndColor (s : ImportState) (a : ImportAttribute)
    (ha : ∀ q : Int, a ≠ .DRAW_END q) :
    (importAttribute s a).aGradient.EndColor = s.aGradient.EndColor := by
  cases a with
  | DRAW_END q => exact absurd rfl (ha q)
  | DRAW_STYLE v => cases v <;> rfl
  | DRAW_GRADIENT_ANGLE v => cases v <;> rfl
  | _ => rfl

theorem foldl_StartColor (post : List ImportAttribute) (s : ImportState)
    (hpost : ∀ a ∈ post, ∀ q : Int, a ≠ .DRAW_START q) :
    (post.foldl importAttribute s).aGradient.StartColor = s.aGradient.StartColor := by
  induction post generalizing s with
  | nil => rfl
  | cons a rest ih =>
    rw [List.foldl_cons, ih _ (fun b hb => hpost b (List.mem_cons_of_mem _ hb)),
      importAttribute_StartColor s a (hpost a (List.mem_cons_self _ _))]

theorem foldl_EndColor (post : List ImportAttribute) (s : ImportState)
    (hpost : ∀ a ∈ post, ∀ q : Int, a ≠ .DRAW_END q) :
    (post.foldl importAttribute s).aGradient.EndColor = s.aGradient.EndColor := by
  induction post generalizing s with
  | nil => rfl
  | cons a rest ih =>
    rw [List.foldl_cons, ih _ (fun b hb => hpost b (List.mem_cons_of_mem _ hb)),
      importAttribute_EndColor s a (hpost a (List.mem_cons_self _ _))]

theorem importXML_rValue (xAttrList : List ImportAttribute) :
    (importXML xAttrList).rValue
      = (xAttrList.foldl importAttribute
          ⟨{ XOffset := 0, YOffset := 0, StartIntensity := 100, EndIntensity := 100,
             Angle := 0, Border := 0 }, "", ""⟩).aGradient := by
  unfold importXML
  dsimp only
  split <;> rfl

/-- The start colour imported from the last `draw:start` attribute. -/
theorem importXML_StartColor (pre post : List ImportAttribute) (p : Int)
    (hpost : ∀ a ∈ post, ∀ q : Int, a ≠ .DRAW_START q) :
    (importXML (pre ++ .DRAW_START p :: post)).rValue.StartColor
      = colorRGB (transparencyToGrey p) (transparencyToGrey p) (transparencyToGrey p) := by
  rw [importXML_rValue, List.foldl_append, List.foldl_cons, foldl_StartColor post _ hpost]
  rfl

/-- The end colour imported from the last `draw:end` attribute. -/
theorem importXML_EndColor (pre post : List ImportAttribute) (p : Int)
    (hpost : ∀ a ∈ post, ∀ q : Int, a ≠ .DRAW_END q) :
    (importXML (pre ++ .DRAW_END p :: post)).rValue.EndColor
      = colorRGB (transparencyToGrey p) (transparencyToGrey p) (transparencyToGrey p) := by
  rw [importXML_rValue, List.foldl_append, List.foldl_cons, foldl_EndColor post _ hpost]
  rfl

/-- The element written for a named gradient carries exactly one `draw:start`
and one `draw:end`, computed from the red channel of start and end colour. -/
theorem exportXML_start_end (rExport : SvXMLExport) (rStrName : String) (g : Gradient2)
    (hname : rStrName.isEmpty = false) :
    ∃ e : OpacityElement, exportXML rExport rStrName (some g) = some e ∧
      valuesOf .DRAW_START e.attributes = [.percent (greyToTransparency g.StartColor)] ∧
      valuesOf .DRAW_END e.attributes = [.percent (greyToTransparency g.EndColor)] := by
  have hattr : ∀ (a b c : List (AttributeName × AttributeValue)) (x y : AttributeValue),
      (∀ w ∈ a, w.1 ≠ .DRAW_START ∧ w.1 ≠ .DRAW_END) →
      (∀ w ∈ c, w.1 ≠ .DRAW_START ∧ w.1 ≠ .DRAW_END) →
      valuesOf .DRAW_START (a ++ [(.DRAW_START, x), (.DRAW_END, y)] ++ c) = [x] ∧
      valuesOf .DRAW_END (a ++ [(.DRAW_START, x), (.DRAW_END, y)] ++ c) = [y] := by
    intro a b c x y ha hc
    have fa1 : a.filter (fun w => decide (w.1 = AttributeName.DRAW_START)) = [] :=
      List.filter_eq_nil_iff.2 (fun w hw => by simpa using (ha w hw).1)
    have fa2 : a.filter (fun w => decide (w.1 = AttributeName.DRAW_END)) = [] :=
      List.filter_eq_nil_iff.2 (fun w hw => by simpa using (ha w hw).2)
    have fc1 : c.filter (fun w => decide (w.1 = AttributeName.DRAW_START)) = [] :=
      List.filter_eq_nil_iff.2 (fun w hw => by simpa using (hc w hw).1)
    have fc2 : c.filter (fun w => decide (w.1 = AttributeName.DRAW_END)) = [] :=
      List.filter_eq_nil_iff.2 (fun w hw => by simpa using (hc w hw).2)
    constructor
    · simp [valuesOf, List.filter_append, fa1, fc1, List.filter_cons]
    · simp [valuesOf, List.filter_append, fa2, fc2, List.filter_cons]
  unfold exportXML
  simp only [hname, Bool.false_eq_true, if_false]
  have hpre : ∀ w ∈ ((AttributeName.DRAW_NAME,
        AttributeValue.text (rExport.EncodeStyleName rStrName).1) ::
          (if (rExport.EncodeStyleName rStrName).2 = true then
            [(AttributeName.DRAW_DISPLAY_NAME, AttributeValue.text rStrName)] else [])) ++
        [(AttributeName.DRAW_STYLE, AttributeValue.style g.Style)] ++
        (if g.Style ≠ .LINEAR ∧ g.Style ≠ .AXIAL then
          [(AttributeName.DRAW_CX, AttributeValue.percent g.XOffset),
            (AttributeName.DRAW_CY, AttributeValue.percent g.YOffset)] else []),
      w.1 ≠ .DRAW_START ∧ w.1 ≠ .DRAW_END := by
    intro w hw
    simp only [List.mem_append, List.mem_cons, List.mem_singleton] at hw
    rcases hw with ((hw | hw) | hw) | hw
    · subst hw; exact ⟨by simp, by simp⟩
    · split at hw
      · simp only [List.mem_singleton, List.not_mem_nil, or_false] at hw
        subst hw; exact ⟨by simp, by simp⟩
      · simp at hw
    · rcases hw with hw | hw
      · subst hw; exact ⟨by simp, by simp⟩
      · simp at hw
    · split at hw
      · simp only [List.mem_cons, List.mem_singleton, List.not_mem_nil, or_false] at hw
        rcases hw with hw | hw <;> (subst hw; exact ⟨by simp, by simp⟩)
      · simp at hw
  have hpost : ∀ w ∈ (if g.Style ≠ .RADIAL then
          [(AttributeName.DRAW_GRADIENT_ANGLE, AttributeValue.angle g.Angle)] else []) ++
        [(AttributeName.DRAW_BORDER, AttributeValue.percent g.Border)],
      w.1 ≠ .DRAW_START ∧ w.1 ≠ .DRAW_END := by
    intro w hw
    simp only [List.mem_append, List.mem_singleton] at hw
    rcases hw with hw | hw
    · split at hw
      · simp only [List.mem_singleton] at hw
        subst hw; exact ⟨by simp, by simp⟩
      · simp at hw
    · subst hw; exact ⟨by simp, by simp⟩
  have key := hattr _ [] _ (.percent (greyToTransparency g.StartColor))
    (.percent (greyToTransparency g.EndColor)) hpre hpost
  simp only [List.append_assoc] at key ⊢
  split
  · exact ⟨_, rfl, key⟩
  · split
    · exact ⟨_, rfl, key⟩
    · exact ⟨_, rfl, key⟩

end Xmloff

namespace Xmloff

open Oox

/-- C11: for every percentage `p` with `0 ≤ p ≤ 100`, `importXML` turns
`draw:start = p%` into a start colour whose red, green and blue are all
`n = ((100 - p) * 255) / 100`, and `exportXML` of the imported gradient writes
`draw:start = 100 - ((n + 1) * 100) / 255`, which is `p`; the same holds for
`draw:end` and the end colour. -/
theorem import_export_transparency_roundtrip (p : Int) (hp : 0 ≤ p ∧ p ≤ 100)
    (pre post : List ImportAttribute) (rExport : SvXMLExport) (rStrName : String)
    (hname : rStrName.isEmpty = false) :
    ((∀ a ∈ post, ∀ q : Int, a ≠ .DRAW_START q) →
      GetRed (importXML (pre ++ .DRAW_START p :: post)).rValue.StartColor = specGrey p ∧
      GetGreen (importXML (pre ++ .DRAW_START p :: post)).rValue.StartColor = specGrey p ∧
      GetBlue (importXML (pre ++ .DRAW_START p :: post)).rValue.StartColor = specGrey p ∧
      ∃ e : OpacityElement,
        exportXML rExport rStrName (some (importXML (pre ++ .DRAW_START p :: post)).rValue)
          = some e ∧
        valuesOf .DRAW_START e.attributes = [.percent (specPercent (specGrey p))] ∧
        specPercent (specGrey p) = p) ∧
    ((∀ a ∈ post, ∀ q : Int, a ≠ .DRAW_END q) →
      GetRed (importXML (pre ++ .DRAW_END p :: post)).rValue.EndColor = specGrey p ∧
      GetGreen (importXML (pre ++ .DRAW_END p :: post)).rValue.EndColor = specGrey p ∧
      GetBlue (importXML (pre ++ .DRAW_END p :: post)).rValue.EndColor = specGrey p ∧
      ∃ e : OpacityElement,
        exportXML rExport rStrName (some (importXML (pre ++ .DRAW_END p :: post)).rValue)
          = some e ∧
        valuesOf .DRAW_END e.attributes = [.percent (specPercent (specGrey p))] ∧
        specPercent (specGrey p) = p) := by
  have hr := specGrey_range p hp
  have hch := channels_colorRGB (specGrey p) hr
  constructor
  · intro hpost
    have hc := importXML_StartColor pre post p hpost
    rw [transparencyToGrey_eq p hp] at hc
    obtain ⟨e, he, hs, _⟩ := exportXML_start_end rExport rStrName
      (importXML (pre ++ .DRAW_START p :: post)).rValue hname
    rw [hc]
    rw [hc, greyToTransparency_colorRGB _ hr] at hs
    exact ⟨hch.1, hch.2.1, hch.2.2, e, he, hs, specPercent_specGrey p hp⟩
  · intro hpost
    have hc := importXML_EndColor pre post p hpost
    rw [transparencyToGrey_eq p hp] at hc
    obtain ⟨e, he, _, hs⟩ := exportXML_start_end rExport rStrName
      (importXML (pre ++ .DRAW_END p :: post)).rValue hname
    rw [hc]
    rw [hc, greyToTransparency_colorRGB _ hr] at hs
    exact ⟨hch.1, hch.2.1, hch.2.2, e, he, hs, specPercent_specGrey p hp⟩

/-- Witness for C11: `draw:start = 37%` between other attributes is imported
as grey level 160 and exported as 37% again. -/
theorem import_export_transparency_roundtrip_witness :
    GetRed (importXML ([.DRAW_NAME "T1", .DRAW_START 90] ++
        .DRAW_START 37 :: [.DRAW_END 5, .DRAW_BORDER 10])).rValue.StartColor = 160 ∧
      ∃ e : OpacityElement,
        exportXML sampleExport "T1" (some (importXML ([.DRAW_NAME "T1", .DRAW_START 90] ++
          .DRAW_START 37 :: [.DRAW_END 5, .DRAW_BORDER 10])).rValue) = some e ∧
        valuesOf .DRAW_START e.attributes = [.percent 37] :=
  have w := (import_export_transparency_roundtrip 37 (by decide)
    [.DRAW_NAME "T1", .DRAW_START 90] [.DRAW_END 5, .DRAW_BORDER 10] sampleExport "T1"
    (by decide)).1 (by simp)
  ⟨w.1, w.2.2.2.elim fun e he => ⟨e, he.1, he.2.1⟩⟩

theorem clamp_eq_max_min (v : Rat) : clamp v 0 1 = max 0 (min v 1) := by
  unfold clamp
  split_ifs with h1 h2
  · rw [min_eq_left (by linarith), max_eq_left (le_of_lt h1)]
  · rw [min_eq_right (le_of_lt h2), max_eq_right (by norm_num)]
  · rw [min_eq_left (not_lt.1 h2), max_eq_right (not_lt.1 h1)]

/-- The stop loop writes one element per stop, whose offsets are the specified
ones. -/
theorem exportStops_offsets (stops : List ColorStop) (previous : Rat) :
    (exportStops previous stops).length = stops.length ∧
    writtenOffsets (exportStops previous stops)
      = (specOffsets previous (stops.map (fun s => s.offset))).map
          (fun x => [AttributeValue.number x]) := by
  induction stops generalizing previous with
  | nil => exact ⟨rfl, rfl⟩
  | cons c rest ih =>
    have hw : (if clamp c.offset 0 1 < previous then previous else clamp c.offset 0 1)
        = max (max 0 (min c.offset 1)) previous := by
      rw [clamp_eq_max_min]
      split_ifs with h
      · rw [max_eq_right (le_of_lt h)]
      · rw [max_eq_left (not_lt.1 h)]
    constructor
    · simp [exportStops, (ih _).1]
    · simp only [exportStops, writtenOffsets, List.map_cons, specOffsets, hw]
      have h2 := (ih (max (max 0 (min c.offset 1)) previous)).2
      unfold writtenOffsets at h2
      rw [h2]
      simp [valuesOf]

/-- The specified offsets stay within `[0, 1]` and never decrease. -/
theorem specOffsets_bounds (offsets : List Rat) (previous : Rat)
    (hp : 0 ≤ previous ∧ previous ≤ 1) :
    (∀ x ∈ specOffsets previous offsets, 0 ≤ x ∧ x ≤ 1) ∧
    List.Chain (· ≤ ·) previous (specOffsets previous offsets) := by
  induction offsets generalizing previous with
  | nil => exact ⟨by simp [specOffsets], List.Chain.nil⟩
  | cons o rest ih =>
    have h1 : 0 ≤ max (max 0 (min o 1)) previous := le_max_of_le_right hp.1
    have h2 : max (max 0 (min o 1)) previous ≤ 1 :=
      max_le (max_le (by norm_num) (min_le_right _ _)) hp.2
    obtain ⟨ih1, ih2⟩ := ih _ ⟨h1, h2⟩
    constructor
    · intro x hx
      simp only [specOffsets, List.mem_cons] at hx
      rcases hx with hx | hx
      · rw [hx]; exact ⟨h1, h2⟩
      · exact ih1 x hx
    · simp only [specOffsets]
      exact List.Chain.cons (le_max_right _ _) ih2

/-- Offsets that are within `[0, 1]` and do not decrease are written as they
are. -/
theorem specOffsets_of_sorted (offsets : List Rat) (previous : Rat)
    (hchain : List.Chain (· ≤ ·) previous offsets)
    (hrange : ∀ x ∈ offsets, 0 ≤ x ∧ x ≤ 1) :
    specOffsets previous offsets = offsets := by
  induction offsets generalizing previous with
  | nil => rfl
  | cons o rest ih =>
    have ho := hrange o (List.mem_cons_self _ _)
    have hpo : previous ≤ o := (List.chain_cons.1 hchain).1
    have hw : max (max 0 (min o 1)) previous = o := by
      rw [min_eq_left ho.2, max_eq_right ho.1, max_eq_left hpo]
    simp only [specOffsets, hw]
    rw [ih o (List.chain_cons.1 hchain).2 (fun x hx => hrange x (List.mem_cons_of_mem _ hx))]

/-- C12: when `exportXML` writes `loext:opacity-stop` children (extended ODF,
non-empty colour stops) it writes one per colour stop, in sequence order; the
`k`-th `svg:offset` is the maximum of the stop's offset clamped to `[0, 1]` and
the offset written before it, so every written offset lies in `[0, 1]`, none
is smaller than the one before, and offsets that are already within `[0, 1]`
and non-decreasing are written unchanged. -/
theorem exportXML_opacity_stops (rExport : SvXMLExport) (rStrName : String) (g : Gradient2)
    (hname : rStrName.isEmpty = false) (hext : rExport.extended = true)
    (hstops : g.ColorStops ≠ []) :
    ∃ e : OpacityElement, exportXML rExport rStrName (some g) = some e ∧
      e.stops.length = g.ColorStops.length ∧
      writtenOffsets e.stops
        = (specOffsets 0 (g.ColorStops.map (fun s => s.offset))).map
            (fun x => [AttributeValue.number x]) ∧
      (∀ x ∈ specOffsets 0 (g.ColorStops.map (fun s => s.offset)), 0 ≤ x ∧ x ≤ 1) ∧
      List.Chain' (· ≤ ·) (specOffsets 0 (g.ColorStops.map (fun s => s.offset))) ∧
      (List.Chain' (· ≤ ·) (g.ColorStops.map (fun s => s.offset)) →
        (∀ x ∈ g.ColorStops.map (fun s => s.offset), 0 ≤ x ∧ x ≤ 1) →
        specOffsets 0 (g.ColorStops.map (fun s => s.offset))
          = g.ColorStops.map (fun s => s.offset)) := by
  have hlen : ¬ g.ColorStops.length = 0 := by
    intro h
    exact hstops (List.length_eq_zero.1 h)
  obtain ⟨h1, h2⟩ := exportStops_offsets g.ColorStops 0
  obtain ⟨h3, h4⟩ := specOffsets_bounds (g.ColorStops.map (fun s => s.offset)) 0
    ⟨le_refl _, by norm_num⟩
  have he : ∃ attributes : List (AttributeName × AttributeValue),
      exportXML rExport rStrName (some g)
        = some ⟨attributes, exportStops 0 g.ColorStops⟩ := by
    unfold exportXML
    simp only [hname, hext, hlen, Bool.false_eq_true, if_false, Bool.not_true]
    exact ⟨_, rfl⟩
  obtain ⟨attributes, he⟩ := he
  have h4' : List.Chain' (· ≤ ·)
      (0 :: specOffsets 0 (g.ColorStops.map (fun s => s.offset))) := h4
  refine ⟨⟨attributes, exportStops 0 g.ColorStops⟩, he, h1, h2, h3, h4'.tail, ?_⟩
  intro hc hr
  apply specOffsets_of_sorted _ _ _ hr
  cases hl : g.ColorStops.map (fun s => s.offset) with
  | nil => exact List.Chain.nil
  | cons o rest =>
    rw [hl] at hc hr
    exact List.Chain.cons (hr o (List.mem_cons_self _ _)).1 hc

/-- Witness for C12: three stops with offsets -1/2, 3/4 and 1/4 are written
with offsets 0, 3/4 and 3/4. -/
theorem exportXML_opacity_stops_witness :
    ∃ e : OpacityElement,
      exportXML sampleExport "T1" (some sampleStopGradient) = some e ∧
      e.stops.length = 3 ∧
      writtenOffsets e.stops = [[.number 0], [.number (3 / 4)], [.number (3 / 4)]] :=
  (exportXML_opacity_stops sampleExport "T1" sampleStopGradient (by decide) rfl
    (by simp [sampleStopGradient])).elim fun e he =>
      ⟨e, he.1, he.2.1, he.2.2.1.trans (by
        simp [sampleStopGradient, specOffsets]
        norm_num)⟩

end Xmloff

/-! ## Theorems, part 4: picture properties and bitmap cropping -/

namespace Oox

set_option linter.unusedTactic false
set_option linter.unreachableTactic false

theorem ExtendsWithoutAdjust.refl_adjust (m : PropertyMap) : ExtendsWithoutAdjust m m :=
  ⟨rfl, [], by simp, by simp⟩

theorem ExtendsWithoutAdjust.setProperty_adjust {m m' : PropertyMap} {k : PropId}
    (hk : k ≠ .PROP_GraphicColorMode ∧ k ≠ .PROP_AdjustLuminance ∧ k ≠ .PROP_AdjustContrast)
    (v : PropAny) (h : ExtendsWithoutAdjust m m') :
    ExtendsWithoutAdjust m (m'.setProperty k v) := by
  obtain ⟨h1, ws, h3, h4⟩ := h
  refine ⟨h1, ws ++ [(k, v)], ?_, ?_⟩
  · simp [PropertyMap.setProperty, h3]
  · intro w hw
    rcases List.mem_append.1 hw with hw | hw
    · exact h4 w hw
    · simp only [List.mem_singleton] at hw
      subst hw
      exact hk

theorem ExtendsWithoutAdjust.ite_fst_adjust {β : Type} {m : PropertyMap}
    {a b : PropertyMap × β} {c : Prop} [Decidable c]
    (ha : ExtendsWithoutAdjust m a.1) (hb : ExtendsWithoutAdjust m b.1) :
    ExtendsWithoutAdjust m (if c then a else b).1 := by
  split <;> assumption

theorem ExtendsWithoutAdjust.trans_adjust {m m' m'' : PropertyMap}
    (h : ExtendsWithoutAdjust m m') (h' : ExtendsWithoutAdjust m' m'') :
    ExtendsWithoutAdjust m m'' := by
  obtain ⟨a1, ws, a3, a4⟩ := h
  obtain ⟨b1, ws', b3, b4⟩ := h'
  refine ⟨b1.trans a1, ws ++ ws', by simp [b3, a3], ?_⟩
  intro w hw
  rcases List.mem_append.1 hw with hw | hw
  · exact a4 w hw
  · exact b4 w hw

theorem cropStage_extends (gp : GraphicProperties) (h : GraphicHelper) (f : GraphicFilters)
    (m : PropertyMap) (x : XGraphicRef) :
    ExtendsWithoutAdjust m (gp.cropStage h f m x).1 := by
  unfold GraphicProperties.cropStage
  split
  · dsimp only
    refine ExtendsWithoutAdjust.ite_fst_adjust (ExtendsWithoutAdjust.ite_fst_adjust ?_ ?_) ?_
    · exact ExtendsWithoutAdjust.setProperty_adjust (by decide) _ (ExtendsWithoutAdjust.refl_adjust m)
    · exact ExtendsWithoutAdjust.setProperty_adjust (by decide) _ (ExtendsWithoutAdjust.refl_adjust m)
    · exact ExtendsWithoutAdjust.refl_adjust m
  · exact ExtendsWithoutAdjust.refl_adjust m

theorem graphicStage_extends (gp : GraphicProperties) (h : GraphicHelper)
    (f : GraphicFilters) (m : PropertyMap) (x : XGraphicRef) (mode : ColorMode)
    (fh fv : Bool) : ExtendsWithoutAdjust m (gp.graphicStage h f m x mode fh fv) := by
  unfold GraphicProperties.graphicStage
  split
  · exact ExtendsWithoutAdjust.setProperty_adjust (by decide) _
      (ExtendsWithoutAdjust.setProperty_adjust (by decide) _
        (ExtendsWithoutAdjust.setProperty_adjust (by decide) _ (ExtendsWithoutAdjust.refl_adjust m)))
  · exact ExtendsWithoutAdjust.setProperty_adjust (by decide) _ (ExtendsWithoutAdjust.refl_adjust m)

theorem pushGraphic_extends (gp : GraphicProperties) (h : GraphicHelper) (f : GraphicFilters)
    (m : PropertyMap) (fh fv : Bool) :
    ExtendsWithoutAdjust m (gp.pushGraphic h f m fh fv) := by
  unfold GraphicProperties.pushGraphic
  have h1 := (cropStage_extends gp h f m (gp.adjustStage h f).xGraphic).trans_adjust
    (graphicStage_extends gp h f _ (gp.cropStage h f m (gp.adjustStage h f).xGraphic).2
      (gp.adjustStage h f).eColorMode fh fv)
  dsimp only
  split
  · exact ExtendsWithoutAdjust.setProperty_adjust (by decide) _ h1
  · exact h1

theorem writesTo_append (k : PropId) (a b : List (PropId × PropAny)) :
    writesTo k (a ++ b) = writesTo k a ++ writesTo k b := by
  simp [writesTo, List.filter_append]

theorem writesTo_eq_nil (k : PropId) (ws : List (PropId × PropAny))
    (h : ∀ w ∈ ws, w.1 ≠ k) : writesTo k ws = [] := by
  unfold writesTo
  rw [List.filter_eq_nil_iff.2 (fun w hw => by simpa using h w hw)]
  rfl

/-- The writes of the final block by property: one colour mode, the luminance
if the brightness is not 0, the contrast if it is not 0. -/
theorem writesTo_finalWrites (gp : GraphicProperties) (mode : ColorMode) (b c : Int) :
    writesTo .PROP_GraphicColorMode (gp.finalWrites mode b c) = [.colorMode mode] ∧
    writesTo .PROP_AdjustLuminance (gp.finalWrites mode b c)
      = (if b ≠ 0 then [.int b] else []) ∧
    writesTo .PROP_AdjustContrast (gp.finalWrites mode b c)
      = (if c ≠ 0 then [.int c] else []) := by
  have hmedia : ∀ w ∈ (if (!gp.m_sMediaPackageURL.isEmpty) = true then
        (PropId.PROP_MediaURL, PropAny.text gp.m_sMediaPackageURL) ::
          (match gp.m_xMediaStream with
            | some id => [(PropId.PROP_PrivateStream, PropAny.stream id)]
            | none => [])
      else []),
      w.1 ≠ PropId.PROP_GraphicColorMode ∧ w.1 ≠ PropId.PROP_AdjustLuminance ∧
        w.1 ≠ PropId.PROP_AdjustContrast := by
    intro w hw
    split at hw
    · simp only [List.mem_cons] at hw
      rcases hw with hw | hw
      · subst hw; exact ⟨by simp, by simp, by simp⟩
      · split at hw
        · simp only [List.mem_singleton] at hw
          subst hw; exact ⟨by simp, by simp, by simp⟩
        · simp at hw
    · simp at hw
  unfold GraphicProperties.finalWrites
  simp only [writesTo_append]
  rw [writesTo_eq_nil .PROP_GraphicColorMode _ (fun w hw => (hmedia w hw).1),
    writesTo_eq_nil .PROP_AdjustLuminance _ (fun w hw => (hmedia w hw).2.1),
    writesTo_eq_nil .PROP_AdjustContrast _ (fun w hw => (hmedia w hw).2.2)]
  refine ⟨?_, ?_, ?_⟩
  · by_cases hb : b = 0 <;> by_cases hc : c = 0 <;> simp [writesTo, hb, hc]
  · by_cases hb : b = 0 <;> by_cases hc : c = 0 <;> simp [writesTo, hb, hc]
  · by_cases hb : b = 0 <;> by_cases hc : c = 0 <;> simp [writesTo, hb, hc]

/-- The writes of `GraphicProperties::pushToPropMap`: those of the graphic
block, none of which names colour mode, luminance or contrast, followed by the
final writes. -/
theorem GraphicProperties.pushToPropMap_writes (gp : GraphicProperties) (m : PropertyMap)
    (h : GraphicHelper) (f : GraphicFilters) (fh fv : Bool) :
    ∃ ws : List (PropId × PropAny),
      (gp.pushToPropMap m h f fh fv).writes
        = m.writes ++ (ws ++ gp.finalWrites (gp.finalEffects h f).1 (gp.finalEffects h f).2.1
            (gp.finalEffects h f).2.2) ∧
      (∀ w ∈ ws, w.1 ≠ PropId.PROP_GraphicColorMode ∧ w.1 ≠ PropId.PROP_AdjustLuminance ∧
          w.1 ≠ PropId.PROP_AdjustContrast) ∧
      (gp.maBlipProps.mxFillGraphic.isSome = false → ws = []) := by
  have hM : ExtendsWithoutAdjust m (if gp.maBlipProps.mxFillGraphic.isSome = true then
      gp.pushGraphic h f m fh fv else m) := by
    split
    · exact pushGraphic_extends gp h f m fh fv
    · exact ExtendsWithoutAdjust.refl_adjust m
  have hM0 : gp.maBlipProps.mxFillGraphic.isSome = false →
      (if gp.maBlipProps.mxFillGraphic.isSome = true then
        gp.pushGraphic h f m fh fv else m) = m := by
    intro hn
    simp [hn]
  unfold GraphicProperties.pushToPropMap GraphicProperties.finalWrites
  dsimp only
  generalize (if gp.maBlipProps.mxFillGraphic.isSome = true then
      gp.pushGraphic h f m fh fv else m) = M at hM hM0 ⊢
  generalize gp.finalEffects h f = e
  obtain ⟨_, ws, hws, havoid⟩ := hM
  refine ⟨ws, ?_, havoid, ?_⟩
  · by_cases hb : e.2.1 = 0 <;> by_cases hc : e.2.2 = 0 <;>
      cases hu : gp.m_sMediaPackageURL.isEmpty <;> cases hs : gp.m_xMediaStream <;>
      simp [PropertyMap.setProperty, hws, hb, hc, hu, hs]
  · intro hn
    have := hM0 hn
    rw [this] at hws
    simpa using hws

end Oox

namespace Oox

theorem getLimitedValue_clamp (v lo hi : Int) (hlo : -32768 ≤ lo) (hhi : hi < 32768)
    (hle : lo ≤ hi) :
    getLimitedValue v lo hi = max lo (min v hi) ∧ lo ≤ getLimitedValue v lo hi ∧
      getLimitedValue v lo hi ≤ hi := by
  have h1 : lo ≤ max lo (min v hi) := le_max_left _ _
  have h2 : max lo (min v hi) ≤ hi := max_le hle (min_le_right _ _)
  have e : getLimitedValue v lo hi = max lo (min v hi) := by
    unfold getLimitedValue
    exact wrap16_of_range _ (by omega) (by omega)
  rw [e]
  exact ⟨rfl, h1, h2⟩

/-- The three cases of the biLevel handling: threshold 50000 keeps `MONO`;
another threshold applies the monochrome filter with that threshold and
resets the mode to `STANDARD`; no threshold resets the mode to `STANDARD` and
leaves the graphic as it is. -/
theorem GraphicProperties.biLevelStage_cases (gp : GraphicProperties) (h : GraphicHelper)
    (f : GraphicFilters) (hmono : gp.maBlipProps.moColorEffect = some .biLevel) :
    (gp.maBlipProps.moBiLevelThreshold = some 50000 →
      gp.biLevelStage h f = (gp.transformedGraphic h f, .MONO)) ∧
    (∀ nValue : Int, gp.maBlipProps.moBiLevelThreshold = some nValue → nValue ≠ 50000 →
      gp.biLevelStage h f
        = (f.monochromeFilter (gp.transformedGraphic h f) (biLevelThreshold nValue),
            .STANDARD)) ∧
    (gp.maBlipProps.moBiLevelThreshold = none →
      gp.biLevelStage h f = (gp.transformedGraphic h f, .STANDARD)) := by
  have hm : gp.initialColorMode = .MONO := by
    simp [GraphicProperties.initialColorMode, hmono]
  refine ⟨?_, ?_, ?_⟩
  · intro ht
    simp [GraphicProperties.biLevelStage, hm, ht]
  · intro nValue ht hne
    simp [GraphicProperties.biLevelStage, hm, ht, hne, lclApplyBlackWhiteEffect]
  · intro ht
    simp [GraphicProperties.biLevelStage, hm, ht, lclApplyBlackWhiteEffect]

/-- What `GraphicProperties::pushToPropMap` writes to colour mode, luminance
and contrast: the final colour mode once, and each final value that is not 0. -/
theorem GraphicProperties.pushToPropMap_final (gp : GraphicProperties) (m : PropertyMap)
    (h : GraphicHelper) (f : GraphicFilters) (fh fv : Bool) :
    ∃ ws : List (PropId × PropAny),
      (gp.pushToPropMap m h f fh fv).writes = m.writes ++ ws ∧
      writesTo .PROP_GraphicColorMode ws = [.colorMode (gp.finalEffects h f).1] ∧
      writesTo .PROP_AdjustLuminance ws
        = (if (gp.finalEffects h f).2.1 ≠ 0 then [.int (gp.finalEffects h f).2.1] else []) ∧
      writesTo .PROP_AdjustContrast ws
        = (if (gp.finalEffects h f).2.2 ≠ 0 then [.int (gp.finalEffects h f).2.2] else []) := by
  obtain ⟨ws, hws, havoid, _⟩ := GraphicProperties.pushToPropMap_writes gp m h f fh fv
  have hfin := writesTo_finalWrites gp (gp.finalEffects h f).1 (gp.finalEffects h f).2.1
    (gp.finalEffects h f).2.2
  refine ⟨_, hws, ?_, ?_, ?_⟩
  · rw [writesTo_append, writesTo_eq_nil _ ws (fun w hw => (havoid w hw).1), hfin.1]
    rfl
  · rw [writesTo_append, writesTo_eq_nil _ ws (fun w hw => (havoid w hw).2.1), hfin.2.1]
    rfl
  · rw [writesTo_append, writesTo_eq_nil _ ws (fun w hw => (havoid w hw).2.2), hfin.2.2]
    rfl

theorem GraphicProperties.finalEffects_of_graphic (gp : GraphicProperties)
    (h : GraphicHelper) (f : GraphicFilters)
    (hgraphic : gp.maBlipProps.mxFillGraphic.isSome = true) :
    gp.finalEffects h f = ((gp.adjustStage h f).eColorMode,
      (gp.adjustStage h f).nBrightness, (gp.adjustStage h f).nContrast) := by
  simp [GraphicProperties.finalEffects, hgraphic]

/-- C13 (evaluation at the failing input): a picture with a fill graphic and
the biLevel colour effect but no threshold is written with colour mode
`STANDARD` and with its graphic unfiltered (the monochrome filter of the sample
filters would have turned graphic 7 into graphic 1007). -/
theorem biLevel_without_threshold_loses_effect :
    (sampleBiLevelPicture.pushToPropMap { } sampleHelper sampleFilters false false).writes
      = [(.PROP_Graphic, .graphic (some 7)),
         (.PROP_GraphicColorMode, .colorMode .STANDARD)] := by
  decide

/-- C14: with a fill graphic present, brightness and contrast are
`moBrightness / 1000` and `moContrast / 1000` clamped to `[-100, 100]`; the
call never writes both `AdjustLuminance` and `AdjustContrast`; when both values
are non-zero neither is written, and the graphic went through
`applyBrightnessContrast` or the mode became `WATERMARK`; when exactly one is
non-zero only that property is written, with the clamped value; a value of 0
is not written. -/
theorem GraphicProperties.pushToPropMap_brightness_contrast (gp : GraphicProperties)
    (m : PropertyMap) (h : GraphicHelper) (f : GraphicFilters) (fh fv : Bool)
    (hgraphic : gp.maBlipProps.mxFillGraphic.isSome = true) :
    gp.initialBrightness
        = max (-100) (min (Int.tdiv (gp.maBlipProps.moBrightness.getD 0) 1000) 100) ∧
    gp.initialContrast
        = max (-100) (min (Int.tdiv (gp.maBlipProps.moContrast.getD 0) 1000) 100) ∧
    ∃ ws : List (PropId × PropAny),
      (gp.pushToPropMap m h f fh fv).writes = m.writes ++ ws ∧
      ¬ (writesTo .PROP_AdjustLuminance ws ≠ [] ∧ writesTo .PROP_AdjustContrast ws ≠ []) ∧
      (gp.initialBrightness ≠ 0 → gp.initialContrast ≠ 0 →
        writesTo .PROP_AdjustLuminance ws = [] ∧ writesTo .PROP_AdjustContrast ws = [] ∧
        ((gp.adjustStage h f).eColorMode = .WATERMARK ∨
          (gp.adjustStage h f).xGraphic
            = applyBrightnessContrast h f (gp.biLevelStage h f).1 gp.initialBrightness
                gp.initialContrast)) ∧
      (gp.initialBrightness ≠ 0 → gp.initialContrast = 0 →
        writesTo .PROP_AdjustLuminance ws = [.int gp.initialBrightness] ∧
        writesTo .PROP_AdjustContrast ws = []) ∧
      (gp.initialBrightness = 0 → gp.initialContrast ≠ 0 →
        writesTo .PROP_AdjustLuminance ws = [] ∧
        writesTo .PROP_AdjustContrast ws = [.int gp.initialContrast]) ∧
      (gp.initialBrightness = 0 → writesTo .PROP_AdjustLuminance ws = []) ∧
      (gp.initialContrast = 0 → writesTo .PROP_AdjustContrast ws = []) := by
  refine ⟨(getLimitedValue_clamp _ _ _ (by norm_num) (by norm_num) (by norm_num)).1,
    (getLimitedValue_clamp _ _ _ (by norm_num) (by norm_num) (by norm_num)).1, ?_⟩
  obtain ⟨ws, hws, _, hL, hC⟩ := GraphicProperties.pushToPropMap_final gp m h f fh fv
  rw [GraphicProperties.finalEffects_of_graphic gp h f hgraphic] at hL hC
  dsimp only at hL hC
  refine ⟨ws, hws, ?_, ?_, ?_, ?_, ?_, ?_⟩ <;> (try rw [hL]) <;> (try rw [hC]) <;>
    unfold GraphicProperties.adjustStage <;> dsimp only
  · split_ifs <;> simp_all
  · intro hb hc
    split_ifs <;> simp_all
  · intro hb hc
    split_ifs <;> simp_all
  · intro hb hc
    split_ifs <;> simp_all
  · intro hb
    split_ifs <;> simp_all
  · intro hc
    split_ifs <;> simp_all

/-- Witness for C14: brightness 40% without a contrast change is written as
luminance 40 only. -/
theorem GraphicProperties.pushToPropMap_brightness_contrast_witness :
    ∃ ws : List (PropId × PropAny),
      (sampleBrightPicture.pushToPropMap { } sampleHelper sampleFilters false false).writes
        = ({ } : PropertyMap).writes ++ ws ∧
      writesTo .PROP_AdjustLuminance ws = [.int 40] ∧
      writesTo .PROP_AdjustContrast ws = [] :=
  have w := (GraphicProperties.pushToPropMap_brightness_contrast sampleBrightPicture { }
    sampleHelper sampleFilters false false rfl).2.2
  w.elim fun ws hw => ⟨ws, hw.1, hw.2.2.2.1 (by decide) (by decide)⟩

/-- C15: with a fill graphic present, colour mode `STANDARD` after the biLevel
handling, clamped brightness 70 and clamped contrast -70, the colour mode
written is `WATERMARK`, the graphic does not go through
`applyBrightnessContrast`, and neither luminance nor contrast is written; and
whenever the mode written is `WATERMARK`, brightness and contrast are 70 and
-70. -/
theorem GraphicProperties.pushToPropMap_washout (gp : GraphicProperties) (m : PropertyMap)
    (h : GraphicHelper) (f : GraphicFilters) (fh fv : Bool) :
    (gp.maBlipProps.mxFillGraphic.isSome = true → (gp.biLevelStage h f).2 = .STANDARD →
      gp.initialBrightness = 70 → gp.initialContrast = -70 →
      ∃ ws : List (PropId × PropAny),
        (gp.pushToPropMap m h f fh fv).writes = m.writes ++ ws ∧
        writesTo .PROP_GraphicColorMode ws = [.colorMode .WATERMARK] ∧
        (gp.adjustStage h f).xGraphic = (gp.biLevelStage h f).1 ∧
        writesTo .PROP_AdjustLuminance ws = [] ∧
        writesTo .PROP_AdjustContrast ws = []) ∧
    (∃ (ws : List (PropId × PropAny)) (mode : ColorMode),
      (gp.pushToPropMap m h f fh fv).writes = m.writes ++ ws ∧
      writesTo .PROP_GraphicColorMode ws = [.colorMode mode] ∧
      (mode = .WATERMARK →
        gp.initialBrightness = 70 ∧ gp.initialContrast = -70 ∧
        gp.maBlipProps.mxFillGraphic.isSome = true ∧
        (gp.biLevelStage h f).2 = .STANDARD)) := by
  obtain ⟨ws, hws, hM, hL, hC⟩ := GraphicProperties.pushToPropMap_final gp m h f fh fv
  constructor
  · intro hgraphic hmode hb hc
    rw [GraphicProperties.finalEffects_of_graphic gp h f hgraphic] at hM hL hC
    have ha : gp.adjustStage h f = ⟨(gp.biLevelStage h f).1, .WATERMARK, 0, 0⟩ := by
      simp [GraphicProperties.adjustStage, hmode, hb, hc]
    rw [ha] at hM hL hC
    exact ⟨ws, hws, hM, by rw [ha], by simpa using hL, by simpa using hC⟩
  · refine ⟨ws, _, hws, hM, ?_⟩
    intro hw
    cases hg : gp.maBlipProps.mxFillGraphic.isSome with
    | false =>
      have hi : gp.initialColorMode = .WATERMARK := by
        simpa [GraphicProperties.finalEffects, hg] using hw
      unfold GraphicProperties.initialColorMode at hi
      split at hi <;> cases hi
    | true =>
      rw [GraphicProperties.finalEffects_of_graphic gp h f hg] at hw
      dsimp only at hw
      have hbl : (gp.biLevelStage h f).2 ≠ .WATERMARK := by
        unfold GraphicProperties.biLevelStage
        dsimp only
        split_ifs with h1 h2
        · simp
        · simp
        · unfold GraphicProperties.initialColorMode
          split <;> simp
      unfold GraphicProperties.adjustStage at hw
      dsimp only at hw
      split_ifs at hw with h1 h2
      · exact ⟨h1.2.1, h1.2.2, rfl, h1.1⟩
      · exact absurd hw hbl
      · exact absurd hw hbl

/-- Witness for C15: a picture with brightness 70% and contrast -70% is written
with colour mode `WATERMARK` and its graphic untouched. -/
theorem GraphicProperties.pushToPropMap_washout_witness :
    ∃ ws : List (PropId × PropAny),
      (sampleWashoutPicture.pushToPropMap { } sampleHelper sampleFilters false false).writes
        = ({ } : PropertyMap).writes ++ ws ∧
      writesTo .PROP_GraphicColorMode ws = [.colorMode .WATERMARK] ∧
      (sampleWashoutPicture.adjustStage sampleHelper sampleFilters).xGraphic = some 7 ∧
      writesTo .PROP_AdjustLuminance ws = [] ∧
      writesTo .PROP_AdjustContrast ws = [] :=
  (GraphicProperties.pushToPropMap_washout sampleWashoutPicture { } sampleHelper
    sampleFilters false false).1 rfl (by decide) (by decide) (by decide)

end Oox

namespace Oox

/-- Without 32-bit overflow of the clamped sums, `CropQuotientsFromSrcRect` is a
case distinction on the exact sums. -/
theorem CropQuotientsFromSrcRect_eq (r : IntegerRectangle2D)
    (hx : max r.X1 0 + max r.X2 0 < 2147483648)
    (hy : max r.Y1 0 + max r.Y2 0 < 2147483648) :
    CropQuotientsFromSrcRect r
      = if max r.X1 0 + max r.X2 0 ≥ 100000 ∨ max r.Y1 0 + max r.Y2 0 ≥ 100000 then none
        else some (getQuotients ⟨max r.X1 0, max r.Y1 0, max r.X2 0, max r.Y2 0⟩
          100000 100000) := by
  have h1 : (0 : Int) ≤ max r.X1 0 := le_max_right _ _
  have h2 : (0 : Int) ≤ max r.X2 0 := le_max_right _ _
  have h3 : (0 : Int) ≤ max r.Y1 0 := le_max_right _ _
  have h4 : (0 : Int) ≤ max r.Y2 0 := le_max_right _ _
  have wx : wrap32 (max r.X1 0 + max r.X2 0) = max r.X1 0 + max r.X2 0 :=
    wrap32_of_range _ (by omega) hx
  have wy : wrap32 (max r.Y1 0 + max r.Y2 0) = max r.Y1 0 + max r.Y2 0 :=
    wrap32_of_range _ (by omega) hy
  unfold CropQuotientsFromSrcRect
  dsimp only
  rw [wx, wy]

/-- Two non-negative components with a sum below 100000, divided by 100000. -/
theorem src_quotient_facts (a b : Int) (ha : 0 ≤ a) (hb : 0 ≤ b) (hs : a + b < 100000) :
    (0 ≤ (a : Rat) / 100000 ∧ (a : Rat) / 100000 < 1) ∧
    (0 ≤ (b : Rat) / 100000 ∧ (b : Rat) / 100000 < 1) ∧
    (a : Rat) / 100000 + (b : Rat) / 100000 < 1 := by
  have ca : (0 : Rat) ≤ (a : Rat) := by exact_mod_cast ha
  have cb : (0 : Rat) ≤ (b : Rat) := by exact_mod_cast hb
  have cs : (a : Rat) + (b : Rat) < 100000 := by exact_mod_cast hs
  refine ⟨⟨?_, ?_⟩, ⟨?_, ?_⟩, ?_⟩ <;> linarith

/-- C16: for a rectangle whose clamped sums do not overflow 32 bits, with each
component replaced by `max(component, 0)`, `CropQuotientsFromSrcRect` returns
nothing exactly when `X1 + X2 ≥ 100000` or `Y1 + Y2 ≥ 100000`; otherwise it
returns the components divided by 100000, each of which lies in `[0, 1)`, the
horizontal pair and the vertical pair each summing to less than 1. -/
theorem CropQuotientsFromSrcRect_spec (r : IntegerRectangle2D)
    (hx : max r.X1 0 + max r.X2 0 < 2147483648)
    (hy : max r.Y1 0 + max r.Y2 0 < 2147483648) :
    (CropQuotientsFromSrcRect r = none ↔
      (max r.X1 0 + max r.X2 0 ≥ 100000 ∨ max r.Y1 0 + max r.Y2 0 ≥ 100000)) ∧
    (¬ (max r.X1 0 + max r.X2 0 ≥ 100000 ∨ max r.Y1 0 + max r.Y2 0 ≥ 100000) →
      ∃ q : Quotients, CropQuotientsFromSrcRect r = some q ∧
        q.qx1 = ((max r.X1 0 : Int) : Rat) / 100000 ∧
        q.qy1 = ((max r.Y1 0 : Int) : Rat) / 100000 ∧
        q.qx2 = ((max r.X2 0 : Int) : Rat) / 100000 ∧
        q.qy2 = ((max r.Y2 0 : Int) : Rat) / 100000 ∧
        (0 ≤ q.qx1 ∧ q.qx1 < 1) ∧ (0 ≤ q.qy1 ∧ q.qy1 < 1) ∧
        (0 ≤ q.qx2 ∧ q.qx2 < 1) ∧ (0 ≤ q.qy2 ∧ q.qy2 < 1) ∧
        q.qx1 + q.qx2 < 1 ∧ q.qy1 + q.qy2 < 1) := by
  rw [CropQuotientsFromSrcRect_eq r hx hy]
  constructor
  · split_ifs with hc
    · simp [hc]
    · simp [hc]
  · intro hc
    rw [if_neg hc]
    have fx := src_quotient_facts (max r.X1 0) (max r.X2 0) (le_max_right _ _)
      (le_max_right _ _) (by omega)
    have fy := src_quotient_facts (max r.Y1 0) (max r.Y2 0) (le_max_right _ _)
      (le_max_right _ _) (by omega)
    exact ⟨_, rfl, rfl, rfl, rfl, rfl, fx.1, fy.1, fx.2.1, fy.2.1, fx.2.2, fy.2.2⟩

/-- Witness for C16: cropping 60% from the left and 50% from the right crops
everything. -/
theorem CropQuotientsFromSrcRect_spec_witness :
    CropQuotientsFromSrcRect ⟨60000, 0, 50000, -5⟩ = none :=
  (CropQuotientsFromSrcRect_spec ⟨60000, 0, 50000, -5⟩ (by decide) (by decide)).1.2
    (Or.inl (by decide))

/-- The quotients returned for a source rectangle without overflow are crop
quotients. -/
theorem CropQuotients_of_SrcRect (r : IntegerRectangle2D) (q : Quotients)
    (hx : max r.X1 0 + max r.X2 0 < 2147483648)
    (hy : max r.Y1 0 + max r.Y2 0 < 2147483648)
    (hq : CropQuotientsFromSrcRect r = some q) : CropQuotients q := by
  rw [CropQuotientsFromSrcRect_eq r hx hy] at hq
  by_cases hc : max r.X1 0 + max r.X2 0 ≥ 100000 ∨ max r.Y1 0 + max r.Y2 0 ≥ 100000
  · rw [if_pos hc] at hq
    cases hq
  · rw [if_neg hc] at hq
    cases hq
    have fx := src_quotient_facts (max r.X1 0) (max r.X2 0) (le_max_right _ _)
      (le_max_right _ _) (by omega)
    have fy := src_quotient_facts (max r.Y1 0) (max r.Y2 0) (le_max_right _ _)
      (le_max_right _ _) (by omega)
    exact ⟨fx.1.1, fy.1.1, fx.2.1.1, fy.2.1.1, fx.2.2, fy.2.2⟩

theorem fill_quotient_facts (a b : Int) (ha : a ≤ 0) (hb : b ≤ 0) :
    0 ≤ (a : Rat) / (-100000 + (a : Rat) + (b : Rat)) ∧
    0 ≤ (b : Rat) / (-100000 + (a : Rat) + (b : Rat)) ∧
    (a : Rat) / (-100000 + (a : Rat) + (b : Rat))
      + (b : Rat) / (-100000 + (a : Rat) + (b : Rat)) < 1 := by
  have ca : (a : Rat) ≤ 0 := by exact_mod_cast ha
  have cb : (b : Rat) ≤ 0 := by exact_mod_cast hb
  have hd : -100000 + (a : Rat) + (b : Rat) < 0 := by linarith
  refine ⟨div_nonneg_of_nonpos ca (le_of_lt hd), div_nonneg_of_nonpos cb (le_of_lt hd), ?_⟩
  rw [← add_div, div_lt_one_of_neg hd]
  linarith

/-- C17: with each component replaced by `min(component, 0)`,
`CropQuotientsFromFillRect` always returns quotients,
`qx1 = X1 / (X1 + X2 - 100000)`, `qx2 = X2 / (X1 + X2 - 100000)` and likewise
vertically; every quotient is at least 0, each pair sums to less than 1, and
a positive component gives quotient 0. -/
theorem CropQuotientsFromFillRect_spec (r : IntegerRectangle2D) :
    ∃ q : Quotients, CropQuotientsFromFillRect r = some q ∧
      q.qx1 = ((min r.X1 0 : Int) : Rat)
        / (((min r.X1 0 : Int) : Rat) + ((min r.X2 0 : Int) : Rat) - 100000) ∧
      q.qx2 = ((min r.X2 0 : Int) : Rat)
        / (((min r.X1 0 : Int) : Rat) + ((min r.X2 0 : Int) : Rat) - 100000) ∧
      q.qy1 = ((min r.Y1 0 : Int) : Rat)
        / (((min r.Y1 0 : Int) : Rat) + ((min r.Y2 0 : Int) : Rat) - 100000) ∧
      q.qy2 = ((min r.Y2 0 : Int) : Rat)
        / (((min r.Y1 0 : Int) : Rat) + ((min r.Y2 0 : Int) : Rat) - 100000) ∧
      0 ≤ q.qx1 ∧ 0 ≤ q.qy1 ∧ 0 ≤ q.qx2 ∧ 0 ≤ q.qy2 ∧
      q.qx1 + q.qx2 < 1 ∧ q.qy1 + q.qy2 < 1 ∧
      (0 < r.X1 → q.qx1 = 0) ∧ (0 < r.Y1 → q.qy1 = 0) ∧
      (0 < r.X2 → q.qx2 = 0) ∧ (0 < r.Y2 → q.qy2 = 0) := by
  have hx := fill_quotient_facts (min r.X1 0) (min r.X2 0) (min_le_right _ _) (min_le_right _ _)
  have hy := fill_quotient_facts (min r.Y1 0) (min r.Y2 0) (min_le_right _ _) (min_le_right _ _)
  have ex : (-100000 + ((min r.X1 0 : Int) : Rat) + ((min r.X2 0 : Int) : Rat))
      = ((min r.X1 0 : Int) : Rat) + ((min r.X2 0 : Int) : Rat) - 100000 := by ring
  have ey : (-100000 + ((min r.Y1 0 : Int) : Rat) + ((min r.Y2 0 : Int) : Rat))
      = ((min r.Y1 0 : Int) : Rat) + ((min r.Y2 0 : Int) : Rat) - 100000 := by ring
  have hz : ∀ c : Int, 0 < c → ((min c 0 : Int) : Rat) = 0 := by
    intro c hc
    rw [min_eq_right (le_of_lt hc)]
    rfl
  refine ⟨_, rfl, ?_, ?_, ?_, ?_, hx.1, hy.1, hx.2.1, hy.2.1, hx.2.2, hy.2.2, ?_, ?_, ?_, ?_⟩
  · simp only [getQuotients, ex]
  · simp only [getQuotients, ex]
  · simp only [getQuotients, ey]
  · simp only [getQuotients, ey]
  · intro hc; simp only [getQuotients, hz _ hc, zero_div]
  · intro hc; simp only [getQuotients, hz _ hc, zero_div]
  · intro hc; simp only [getQuotients, hz _ hc, zero_div]
  · intro hc; simp only [getQuotients, hz _ hc, zero_div]

/-- The quotients returned for a fill rectangle are crop quotients. -/
theorem CropQuotients_of_FillRect (r : IntegerRectangle2D) (q : Quotients)
    (hq : CropQuotientsFromFillRect r = some q) : CropQuotients q := by
  have hx := fill_quotient_facts (min r.X1 0) (min r.X2 0) (min_le_right _ _) (min_le_right _ _)
  have hy := fill_quotient_facts (min r.Y1 0) (min r.Y2 0) (min_le_right _ _) (min_le_right _ _)
  have hq' : some (getQuotients ⟨min r.X1 0, min r.Y1 0, min r.X2 0, min r.Y2 0⟩
      (-100000 + ((min r.X1 0 : Int) : Rat) + ((min r.X2 0 : Int) : Rat))
      (-100000 + ((min r.Y1 0 : Int) : Rat) + ((min r.Y2 0 : Int) : Rat))) = some q := hq
  cases hq'
  exact ⟨hx.1, hy.1, hx.2.1, hy.2.1, hx.2.2, hy.2.2⟩

theorem stdRound_nonneg (x : Rat) (hx : 0 ≤ x) :
    0 ≤ stdRound x ∧ ((stdRound x : Int) : Rat) ≤ x + 1 / 2 := by
  unfold stdRound
  rw [if_pos hx]
  exact ⟨Int.floor_nonneg.2 (by linarith), Int.floor_le _⟩

theorem stdRound_eq (x : Rat) (z : Int) (hx : 0 ≤ x) (h1 : (z : Rat) ≤ x + 1 / 2)
    (h2 : x + 1 / 2 < (z : Rat) + 1) : stdRound x = z := by
  unfold stdRound
  rw [if_pos hx]
  exact Int.floor_eq_iff.2 ⟨h1, h2⟩

/-- Rounded crop widths of crop quotients never add up to more than the
bitmap width. -/
theorem stdRound_pair (w : Int) (hw : 1 ≤ w) (a b : Rat) (ha : 0 ≤ a) (hb : 0 ≤ b)
    (hab : a + b < 1) :
    0 ≤ stdRound (w * a) ∧ 0 ≤ stdRound (w * b) ∧
      stdRound (w * a) + stdRound (w * b) ≤ w := by
  have cw : (1 : Rat) ≤ (w : Rat) := by exact_mod_cast hw
  have ra := stdRound_nonneg ((w : Rat) * a) (mul_nonneg (by linarith) ha)
  have rb := stdRound_nonneg ((w : Rat) * b) (mul_nonneg (by linarith) hb)
  refine ⟨ra.1, rb.1, ?_⟩
  have hlt : (w : Rat) * a + (w : Rat) * b < (w : Rat) := by
    have h : (w : Rat) * (a + b) < (w : Rat) * 1 :=
      mul_lt_mul_of_pos_left hab (by linarith)
    linarith
  have hsum : ((stdRound (w * a) + stdRound (w * b) : Int) : Rat) < ((w + 1 : Int) : Rat) := by
    push_cast
    linarith [ra.2, rb.2]
  have := Int.cast_lt.1 hsum
  omega

/-- The rectangle passed to `Crop` for crop quotients. -/
theorem lclCropRectangle_of_CropQuotients (W H : Int) (hW : 1 ≤ W) (hH : 1 ≤ H)
    (q : Quotients) (hq : CropQuotients q) :
    InsideMaybeEmpty ⟨W, H⟩ (lclCropRectangle ⟨W, H⟩ q) := by
  obtain ⟨a1, a2, a3, a4, a5, a6⟩ := hq
  have hx := stdRound_pair W hW q.qx1 q.qx2 a1 a3 a5
  have hy := stdRound_pair H hH q.qy1 q.qy2 a2 a4 a6
  unfold InsideMaybeEmpty lclCropRectangle
  dsimp only
  refine ⟨hx.1, ?_, ?_, hy.1, ?_, ?_⟩ <;> omega

/-- C18 (counterexample): for a bitmap 2 pixels wide and high and the source
rectangle that crops 75% from the left, the rectangle passed to `Crop` is
`(2, 0, 1, 1)`: its left edge is right of its right edge and outside the
bitmap. -/
theorem lclCropRectangle_can_be_empty :
    CropQuotientsFromSrcRect ⟨75000, 0, 0, 0⟩ = some ⟨3 / 4, 0, 0, 0⟩ ∧
      lclCropRectangle ⟨2, 2⟩ ⟨3 / 4, 0, 0, 0⟩ = ⟨2, 0, 1, 1⟩ ∧
      ¬ InsideNonEmpty ⟨2, 2⟩ (lclCropRectangle ⟨2, 2⟩ ⟨3 / 4, 0, 0, 0⟩) := by
  have h1 : CropQuotientsFromSrcRect ⟨75000, 0, 0, 0⟩ = some ⟨3 / 4, 0, 0, 0⟩ := by
    have w1 : wrap32 (max (75000 : Int) 0 + max 0 0) = 75000 := by decide
    have w2 : wrap32 (max (0 : Int) 0 + max 0 0) = 0 := by decide
    unfold CropQuotientsFromSrcRect getQuotients
    dsimp only
    rw [w1, w2]
    norm_num
  have h2 : lclCropRectangle ⟨2, 2⟩ ⟨3 / 4, 0, 0, 0⟩ = ⟨2, 0, 1, 1⟩ := by
    have r1 : stdRound (((2 : Int) : Rat) * (3 / 4)) = 2 :=
      stdRound_eq _ 2 (by norm_num) (by norm_num) (by norm_num)
    have r0 : stdRound (((2 : Int) : Rat) * 0) = 0 :=
      stdRound_eq _ 0 (by norm_num) (by norm_num) (by norm_num)
    unfold lclCropRectangle
    dsimp only
    rw [r1, r0]
    rfl
  refine ⟨h1, h2, ?_⟩
  rw [h2]
  unfold InsideNonEmpty
  decide

/-- C18 (amended): for every bitmap of width `W ≥ 1` and height `H ≥ 1` and
every quotient tuple returned by `CropQuotientsFromSrcRect` (without 32-bit
overflow of its sums) or `CropQuotientsFromFillRect`, the rectangle
`(l, t, W - r - 1, H - b - 1)` passed to `Crop` satisfies `0 ≤ l ≤ W - r ≤ W`
and `0 ≤ t ≤ H - b ≤ H`: it never reaches beyond the bitmap on the right or
bottom and removes whole columns and rows, possibly all of them. -/
theorem lclCropRectangle_bounds (W H : Int) (hW : 1 ≤ W) (hH : 1 ≤ H)
    (r : IntegerRectangle2D) (q : Quotients)
    (hq : (CropQuotientsFromSrcRect r = some q ∧
          max r.X1 0 + max r.X2 0 < 2147483648 ∧ max r.Y1 0 + max r.Y2 0 < 2147483648) ∨
        CropQuotientsFromFillRect r = some q) :
    InsideMaybeEmpty ⟨W, H⟩ (lclCropRectangle ⟨W, H⟩ q) := by
  rcases hq with ⟨h1, h2, h3⟩ | h1
  · exact lclCropRectangle_of_CropQuotients W H hW hH q (CropQuotients_of_SrcRect r q h2 h3 h1)
  · exact lclCropRectangle_of_CropQuotients W H hW hH q (CropQuotients_of_FillRect r q h1)

/-- Witness for C18: a bitmap of 100 by 100 pixels cropped by 50% from the left
and 49.999% from the right. -/
theorem lclCropRectangle_bounds_witness :
    InsideMaybeEmpty ⟨100, 100⟩
      (lclCropRectangle ⟨100, 100⟩
        (getQuotients ⟨max 50000 0, max 0 0, max 49999 0, max 0 0⟩ 100000 100000)) :=
  lclCropRectangle_bounds 100 100 (by decide) (by decide) ⟨50000, 0, 49999, 0⟩ _
    (Or.inl ⟨by
      have w1 : wrap32 (max (50000 : Int) 0 + max 49999 0) = 99999 := by decide
      have w2 : wrap32 (max (0 : Int) 0 + max 0 0) = 0 := by decide
      unfold CropQuotientsFromSrcRect
      dsimp only
      rw [w1, w2]
      simp, by decide, by decide⟩)

end Oox

/-! ## Theorems, part 5: path gradients and gradient stops -/

namespace Oox

/-- The writes of `FillProperties::pushToPropMap` for a gradient fill on a map
that supports `FillGradient`: the gradient, the gradient transparency if there
are transparency stops, and the fill style. -/
theorem pushToPropMap_gradFill_writes (fp : FillProperties) (m : ShapePropertyMap)
    (h : GraphicHelper) (rot ph : Int) (size : Size) (theme : Int) (fh fv cs : Bool)
    (htype : fp.moFillType = some .gradFill) (hsup : m.supports .FillGradient = true) :
    (fp.pushToPropMap m h rot ph size theme fh fv cs).writes
      = m.writes ++
        ((.shape .FillGradient,
            .gradient (gradFillGradient h fp.maGradientProps rot ph fh fv)) ::
          ((if (gradFinalTransparencyStops h fp.maGradientProps).isEmpty then []
            else [(.shape .GradientTransparency,
              .gradient { gradFillGradient h fp.maGradientProps rot ph fh fv with
                ColorStops := gradFinalTransparencyStops h fp.maGradientProps })]) ++
          [(.shape .FillStyle, .fillStyle
            (if m.accepts .FillGradient
                (.gradient (gradFillGradient h fp.maGradientProps rot ph fh fv)) then
              FillStyle.GRADIENT else FillStyle.NONE))])) := by
  unfold FillProperties.pushToPropMap
  rw [htype]
  dsimp only
  unfold pushGradFill
  simp only [ShapePropertyMap.supportsProperty, hsup, if_true]
  cases hT : (gradFinalTransparencyStops h fp.maGradientProps).isEmpty <;>
    simp [ShapePropertyMap.setProperty, hT]

theorem getLimitedValue_percent (v : Int) :
    getLimitedValue v 0 100 = max 0 (min v 100) ∧ 0 ≤ getLimitedValue v 0 100 ∧
      getLimitedValue v 0 100 ≤ 100 :=
  getLimitedValue_clamp v 0 100 (by norm_num) (by norm_num) (by norm_num)

/-- The centre computation of a path gradient without 32-bit overflow. -/
theorem pathCentre_eq_spec (a b : Int) (ha : -1000000000 ≤ a ∧ a ≤ 1000000000)
    (hb : -1000000000 ≤ b ∧ b ≤ 1000000000) :
    getLimitedValue
        (Int.tdiv (Int.tdiv (wrap32 (wrap32 (MAX_PERCENT + a) - b)) 2) PER_PERCENT) 0 100
      = specPathOffset a b := by
  have e1 : wrap32 (MAX_PERCENT + a) = 100000 + a := by
    unfold MAX_PERCENT
    exact wrap32_of_range _ (by omega) (by omega)
  have e2 : wrap32 (100000 + a - b) = 100000 + a - b :=
    wrap32_of_range _ (by omega) (by omega)
  rw [e1, e2, (getLimitedValue_percent _).1]
  rfl

/-- Centre, style and corner angles of the gradient built for a path gradient. -/
theorem pathGradient_spec (g : GradientFillProperties) (path : Token) (G0 : Gradient2)
    (hG0 : G0.Style = .LINEAR) :
    (0 ≤ (pathGradient g path G0).XOffset ∧ (pathGradient g path G0).XOffset ≤ 100) ∧
    (0 ≤ (pathGradient g path G0).YOffset ∧ (pathGradient g path G0).YOffset ≤ 100) ∧
    (pathGradient g path G0).XOffset
      = getLimitedValue (Int.tdiv (Int.tdiv (wrap32 (wrap32 (MAX_PERCENT +
          (g.moFillToRect.getD ⟨0, 0, MAX_PERCENT, MAX_PERCENT⟩).X1) -
          (g.moFillToRect.getD ⟨0, 0, MAX_PERCENT, MAX_PERCENT⟩).X2)) 2) PER_PERCENT) 0 100 ∧
    (pathGradient g path G0).YOffset
      = getLimitedValue (Int.tdiv (Int.tdiv (wrap32 (wrap32 (MAX_PERCENT +
          (g.moFillToRect.getD ⟨0, 0, MAX_PERCENT, MAX_PERCENT⟩).Y1) -
          (g.moFillToRect.getD ⟨0, 0, MAX_PERCENT, MAX_PERCENT⟩).Y2)) 2) PER_PERCENT) 0 100 ∧
    (path = .circle →
      ((pathGradient g path G0).XOffset = 100 ∧ (pathGradient g path G0).YOffset = 100 →
        (pathGradient g path G0).Style = .LINEAR ∧ (pathGradient g path G0).Angle = 450) ∧
      ((pathGradient g path G0).XOffset = 0 ∧ (pathGradient g path G0).YOffset = 100 →
        (pathGradient g path G0).Style = .LINEAR ∧ (pathGradient g path G0).Angle = 3150) ∧
      ((pathGradient g path G0).XOffset = 100 ∧ (pathGradient g path G0).YOffset = 0 →
        (pathGradient g path G0).Style = .LINEAR ∧ (pathGradient g path G0).Angle = 1350) ∧
      ((pathGradient g path G0).XOffset = 0 ∧ (pathGradient g path G0).YOffset = 0 →
        (pathGradient g path G0).Style = .LINEAR ∧ (pathGradient g path G0).Angle = 2250) ∧
      (¬ (((pathGradient g path G0).XOffset = 0 ∨ (pathGradient g path G0).XOffset = 100) ∧
          ((pathGradient g path G0).YOffset = 0 ∨ (pathGradient g path G0).YOffset = 100)) →
        (pathGradient g path G0).Style = .RADIAL) ∧
      ((pathGradient g path G0).XOffset = 50 → (pathGradient g path G0).Style = .RADIAL)) ∧
    (path ≠ .circle → (pathGradient g path G0).Style = .RECT) := by
  have hx := getLimitedValue_percent (Int.tdiv (Int.tdiv (wrap32 (wrap32 (MAX_PERCENT +
      (g.moFillToRect.getD ⟨0, 0, MAX_PERCENT, MAX_PERCENT⟩).X1) -
      (g.moFillToRect.getD ⟨0, 0, MAX_PERCENT, MAX_PERCENT⟩).X2)) 2) PER_PERCENT)
  have hy := getLimitedValue_percent (Int.tdiv (Int.tdiv (wrap32 (wrap32 (MAX_PERCENT +
      (g.moFillToRect.getD ⟨0, 0, MAX_PERCENT, MAX_PERCENT⟩).Y1) -
      (g.moFillToRect.getD ⟨0, 0, MAX_PERCENT, MAX_PERCENT⟩).Y2)) 2) PER_PERCENT)
  unfold pathGradient
  dsimp only
  generalize getLimitedValue (Int.tdiv (Int.tdiv (wrap32 (wrap32 (MAX_PERCENT +
      (g.moFillToRect.getD ⟨0, 0, MAX_PERCENT, MAX_PERCENT⟩).X1) -
      (g.moFillToRect.getD ⟨0, 0, MAX_PERCENT, MAX_PERCENT⟩).X2)) 2) PER_PERCENT) 0 100
    = xo at hx ⊢
  generalize getLimitedValue (Int.tdiv (Int.tdiv (wrap32 (wrap32 (MAX_PERCENT +
      (g.moFillToRect.getD ⟨0, 0, MAX_PERCENT, MAX_PERCENT⟩).Y1) -
      (g.moFillToRect.getD ⟨0, 0, MAX_PERCENT, MAX_PERCENT⟩).Y2)) 2) PER_PERCENT) 0 100
    = yo at hy ⊢
  by_cases hp : path = .circle
  · subst hp
    rw [if_pos rfl]
    split_ifs with h1 h2 h3 h4
    · refine ⟨⟨hx.2.1, hx.2.2⟩, ⟨hy.2.1, hy.2.2⟩, rfl, rfl, ?_, fun hc => absurd rfl hc⟩
      intro _
      refine ⟨fun _ => ⟨hG0, rfl⟩, ?_, ?_, ?_, ?_, ?_⟩ <;> intro hc <;> dsimp only at hc <;> exfalso <;> omega
    · refine ⟨⟨hx.2.1, hx.2.2⟩, ⟨hy.2.1, hy.2.2⟩, rfl, rfl, ?_, fun hc => absurd rfl hc⟩
      intro _
      refine ⟨?_, fun _ => ⟨hG0, rfl⟩, ?_, ?_, ?_, ?_⟩ <;> intro hc <;> dsimp only at hc <;> exfalso <;> omega
    · refine ⟨⟨hx.2.1, hx.2.2⟩, ⟨hy.2.1, hy.2.2⟩, rfl, rfl, ?_, fun hc => absurd rfl hc⟩
      intro _
      refine ⟨?_, ?_, fun _ => ⟨hG0, rfl⟩, ?_, ?_, ?_⟩ <;> intro hc <;> dsimp only at hc <;> exfalso <;> omega
    · refine ⟨⟨hx.2.1, hx.2.2⟩, ⟨hy.2.1, hy.2.2⟩, rfl, rfl, ?_, fun hc => absurd rfl hc⟩
      intro _
      refine ⟨?_, ?_, ?_, fun _ => ⟨hG0, rfl⟩, ?_, ?_⟩ <;> intro hc <;> dsimp only at hc <;> exfalso <;> omega
    · refine ⟨⟨hx.2.1, hx.2.2⟩, ⟨hy.2.1, hy.2.2⟩, rfl, rfl, ?_, fun hc => absurd rfl hc⟩
      intro _
      exact ⟨fun hc => absurd hc h1, fun hc => absurd hc h2, fun hc => absurd hc h3,
        fun hc => absurd hc h4, fun _ => rfl, fun _ => rfl⟩
  · rw [if_neg hp]
    exact ⟨⟨hx.2.1, hx.2.2⟩, ⟨hy.2.1, hy.2.2⟩, rfl, rfl, fun hc => absurd hc hp,
      fun _ => rfl⟩

end Oox

namespace Oox

theorem gradGeometry_of_path (g : GradientFillProperties) (path : Token) (rot : Int)
    (fh fv : Bool) (hpath : g.moGradientPath = some path) :
    gradGeometry g rot fh fv
      = pathGradient g path
          { Angle := 900, StartIntensity := 100, EndIntensity := 100, Style := .LINEAR } := by
  simp [gradGeometry, hpath]

/-- C19: for a gradient fill with a gradient path, pushed to a map that
supports `FillGradient`, the gradient written has `XOffset` and `YOffset` in
`[0, 100]`, equal to `clamp(((100000 + X1 - X2) / 2) / 1000, 0, 100)` and
`clamp(((100000 + Y1 - Y2) / 2) / 1000, 0, 100)` of the fill-to rectangle
(default `(0, 0, 100000, 100000)`) as long as no 32-bit operation overflows.
For path `circle` the style is `RADIAL`, in particular when `XOffset` is 50,
except at the corners, where the style stays `LINEAR` with angle 450 for
`(100, 100)`, 3150 for `(0, 100)`, 1350 for `(100, 0)` and 2250 for `(0, 0)`;
for every other path the style is `RECT`. -/
theorem pushToPropMap_path_gradient (fp : FillProperties) (m : ShapePropertyMap)
    (h : GraphicHelper) (rot ph : Int) (size : Size) (theme : Int) (fh fv cs : Bool)
    (path : Token)
    (htype : fp.moFillType = some .gradFill)
    (hsup : m.supports .FillGradient = true)
    (hpath : fp.maGradientProps.moGradientPath = some path) :
    ∃ (G : Gradient2) (rest : List (PropKey × PropValue)),
      (fp.pushToPropMap m h rot ph size theme fh fv cs).writes
          = m.writes ++ (.shape .FillGradient, .gradient G) :: rest ∧
      (0 ≤ G.XOffset ∧ G.XOffset ≤ 100) ∧ (0 ≤ G.YOffset ∧ G.YOffset ≤ 100) ∧
      (∀ R : IntegerRectangle2D,
        fp.maGradientProps.moFillToRect.getD ⟨0, 0, 100000, 100000⟩ = R →
        (-1000000000 ≤ R.X1 ∧ R.X1 ≤ 1000000000 → -1000000000 ≤ R.X2 ∧ R.X2 ≤ 1000000000 →
          G.XOffset = specPathOffset R.X1 R.X2) ∧
        (-1000000000 ≤ R.Y1 ∧ R.Y1 ≤ 1000000000 → -1000000000 ≤ R.Y2 ∧ R.Y2 ≤ 1000000000 →
          G.YOffset = specPathOffset R.Y1 R.Y2)) ∧
      (path = .circle →
        (G.XOffset = 100 ∧ G.YOffset = 100 → G.Style = .LINEAR ∧ G.Angle = 450) ∧
        (G.XOffset = 0 ∧ G.YOffset = 100 → G.Style = .LINEAR ∧ G.Angle = 3150) ∧
        (G.XOffset = 100 ∧ G.YOffset = 0 → G.Style = .LINEAR ∧ G.Angle = 1350) ∧
        (G.XOffset = 0 ∧ G.YOffset = 0 → G.Style = .LINEAR ∧ G.Angle = 2250) ∧
        (¬ ((G.XOffset = 0 ∨ G.XOffset = 100) ∧ (G.YOffset = 0 ∨ G.YOffset = 100)) →
          G.Style = .RADIAL) ∧
        (G.XOffset = 50 → G.Style = .RADIAL)) ∧
      (path ≠ .circle → G.Style = .RECT) := by
  obtain ⟨rest, hw⟩ := pushGradFill_writes fp h m rot ph fh fv hsup
  have hgeo := gradGeometry_of_path fp.maGradientProps path rot fh fv hpath
  obtain ⟨sx, sy, ex, ey, hcircle, hrect⟩ := pathGradient_spec fp.maGradientProps path
    { Angle := 900, StartIntensity := 100, EndIntensity := 100, Style := .LINEAR } rfl
  rw [← hgeo] at sx sy ex ey hcircle hrect
  refine ⟨gradFillGradient h fp.maGradientProps rot ph fh fv,
    rest ++ [(.shape .FillStyle, .fillStyle (pushGradFill fp h m rot ph fh fv).2)],
    ?_, sx, sy, ?_, hcircle, hrect⟩
  · unfold FillProperties.pushToPropMap
    rw [htype]
    simp [ShapePropertyMap.setProperty, hw]
  · intro R hR
    have hR' : fp.maGradientProps.moFillToRect.getD ⟨0, 0, MAX_PERCENT, MAX_PERCENT⟩ = R := hR
    constructor
    · intro h1 h2
      show (gradGeometry fp.maGradientProps rot fh fv).XOffset = _
      rw [ex, hR', pathCentre_eq_spec _ _ h1 h2]
    · intro h1 h2
      show (gradGeometry fp.maGradientProps rot fh fv).YOffset = _
      rw [ey, hR', pathCentre_eq_spec _ _ h1 h2]

/-- Witness for C19: a circle path whose fill-to rectangle is centred gives a
radial gradient with its centre at 50%. -/
theorem pushToPropMap_path_gradient_witness :
    ∃ (G : Gradient2) (rest : List (PropKey × PropValue)),
      (sampleCircleFill.pushToPropMap emptyMap sampleHelper 0 0 ⟨10, 10⟩ 0 false false
          false).writes
          = emptyMap.writes ++ (.shape .FillGradient, .gradient G) :: rest ∧
      G.XOffset = 50 ∧ G.YOffset = 50 ∧ G.Style = .RADIAL :=
  (pushToPropMap_path_gradient sampleCircleFill emptyMap sampleHelper 0 0 ⟨10, 10⟩ 0 false
    false false .circle rfl rfl rfl).elim fun G hG => hG.elim fun rest hr =>
      have hx : G.XOffset = 50 :=
        ((hr.2.2.2.1 ⟨50000, 50000, 50000, 50000⟩ rfl).1 (by decide) (by decide)).trans
          (by decide)
      have hy : G.YOffset = 50 :=
        ((hr.2.2.2.1 ⟨50000, 50000, 50000, 50000⟩ rfl).2 (by decide) (by decide)).trans
          (by decide)
      ⟨G, rest, hr.1, hx, hy, (hr.2.2.2.2.1 rfl).2.2.2.2.2 hx⟩

theorem foldl_or_eq_any {α : Type} (f : α → Bool) (l : List α) (init : Bool) :
    l.foldl (fun b c => b || f c) init = (init || l.any f) := by
  induction l generalizing init with
  | nil => simp
  | cons x xs ih => simp [List.foldl_cons, ih, Bool.or_assoc]

theorem gradContainsTransparency_eq (g : GradientFillProperties) :
    gradContainsTransparency g = g.maGradientStops.any (fun s => s.2.hasTransparency) := by
  unfold gradContainsTransparency
  rw [foldl_or_eq_any (fun s : Rat × Color => s.2.hasTransparency)]
  simp

theorem gradTransparencyStops_eq (g : GradientFillProperties) :
    gradTransparencyStops g
      = if g.maGradientStops.any (fun s => s.2.hasTransparency) then
          g.maGradientStops.map specTransparencyStop
        else [] := by
  unfold gradTransparencyStops
  rw [gradContainsTransparency_eq]
  split
  · apply List.map_congr_left
    intro s _
    simp [specTransparencyStop, div_eq_mul_inv]
  · rfl

theorem writtenOrder_length (g : GradientFillProperties) (l : List ColorStop) :
    (writtenOrder g l).length = l.length := by
  unfold writtenOrder mirroredReverse
  split <;> simp

theorem writtenOrder_offsets (g : GradientFillProperties) (a b : List ColorStop)
    (hab : a.map (fun s => s.offset) = b.map (fun s => s.offset)) :
    (writtenOrder g a).map (fun s => s.offset) = (writtenOrder g b).map (fun s => s.offset) := by
  unfold writtenOrder mirroredReverse
  split
  · have e : ∀ l : List ColorStop,
        (l.reverse.map (fun s => (⟨1 - s.offset, s.color⟩ : ColorStop))).map (fun s => s.offset)
          = ((l.map (fun s => s.offset)).reverse).map (fun o => 1 - o) := by
      intro l
      simp [List.map_reverse, Function.comp_def]
    rw [e a, e b, hab]
  · exact hab

theorem gradFinalColorStops_eq (h : GraphicHelper) (g : GradientFillProperties) (ph : Int)
    (hrev : g.moGradientPath.isSome →
      ∀ l : List ColorStop, h.reverseColorStops l = mirroredReverse l) :
    gradFinalColorStops h g ph = writtenOrder g (g.maGradientStops.map (specColorStop h ph)) := by
  unfold gradFinalColorStops writtenOrder
  cases hp : g.moGradientPath with
  | none => rfl
  | some p =>
    rw [hp] at hrev
    simp only [hrev rfl, gradColorStops]
    rfl

theorem gradFinalTransparencyStops_eq (h : GraphicHelper) (g : GradientFillProperties)
    (hrev : g.moGradientPath.isSome →
      ∀ l : List ColorStop, h.reverseColorStops l = mirroredReverse l) :
    gradFinalTransparencyStops h g = writtenOrder g (gradTransparencyStops g) := by
  unfold gradFinalTransparencyStops writtenOrder
  cases hp : g.moGradientPath with
  | none => rfl
  | some p =>
    rw [hp] at hrev
    simp [hrev rfl]

theorem exists_head_getLast {α : Type} (l : List α) (hl : l ≠ []) :
    ∃ a b : α, l.head? = some a ∧ l.getLast? = some b := by
  refine ⟨l.head hl, l.getLast hl, ?_, ?_⟩
  · exact List.head?_eq_head hl
  · exact List.getLast?_eq_getLast l hl

theorem specStops_offsets (h : GraphicHelper) (ph : Int) (stops : List (Rat × Color)) :
    (stops.map specTransparencyStop).map (fun s => s.offset)
      = (stops.map (specColorStop h ph)).map (fun s => s.offset) := by
  simp [List.map_map, Function.comp_def, specTransparencyStop, specColorStop]

/-- C20: for a gradient fill with at least one DrawingML stop, pushed to a map
that supports `FillGradient` (and, for a path gradient, with
`basegfx::utils::reverseColorStops` reversing the order and mirroring the
offsets), the colour-stop list built has one `(offset, colour)` entry per
DrawingML stop, in the order of the stop map; the gradient written carries
that list in its written order, with `StartColor` the colour of its first and
`EndColor` the colour of its last stop; `GradientTransparency` is written if
and only if some stop has transparency, and then its stop list has as many
entries as there are stops, the offsets of the colour stops, and red, green
and blue all equal to the stop's transparency divided by 100. -/
theorem pushToPropMap_gradient_stops (fp : FillProperties) (m : ShapePropertyMap)
    (h : GraphicHelper) (rot ph : Int) (size : Size) (theme : Int) (fh fv cs : Bool)
    (htype : fp.moFillType = some .gradFill)
    (hsup : m.supports .FillGradient = true)
    (hstops : fp.maGradientProps.maGradientStops ≠ [])
    (hrev : fp.maGradientProps.moGradientPath.isSome →
      ∀ l : List ColorStop, h.reverseColorStops l = mirroredReverse l) :
    gradColorStops h fp.maGradientProps ph
        = fp.maGradientProps.maGradientStops.map (specColorStop h ph) ∧
    (gradColorStops h fp.maGradientProps ph).length
        = fp.maGradientProps.maGradientStops.length ∧
    ∃ (G : Gradient2) (first last : ColorStop) (v : FillStyle),
      (fp.pushToPropMap m h rot ph size theme fh fv cs).writes
          = m.writes ++
            ((.shape .FillGradient, .gradient G) ::
              ((if fp.maGradientProps.maGradientStops.any (fun s => s.2.hasTransparency) then
                  [(.shape .GradientTransparency,
                    .gradient { G with
                      ColorStops := writtenOrder fp.maGradientProps
                        (fp.maGradientProps.maGradientStops.map specTransparencyStop) })]
                else []) ++
              [(.shape .FillStyle, .fillStyle v)])) ∧
      G.ColorStops = writtenOrder fp.maGradientProps
          (fp.maGradientProps.maGradientStops.map (specColorStop h ph)) ∧
      G.ColorStops.length = fp.maGradientProps.maGradientStops.length ∧
      G.ColorStops.head? = some first ∧ G.ColorStops.getLast? = some last ∧
      G.StartColor = h.fromBColor first.color ∧ G.EndColor = h.fromBColor last.color ∧
      (writtenOrder fp.maGradientProps
          (fp.maGradientProps.maGradientStops.map specTransparencyStop)).length
        = fp.maGradientProps.maGradientStops.length ∧
      (writtenOrder fp.maGradientProps
          (fp.maGradientProps.maGradientStops.map specTransparencyStop)).map (fun s => s.offset)
        = G.ColorStops.map (fun s => s.offset) := by
  have hC := gradFinalColorStops_eq h fp.maGradientProps ph hrev
  have hT := gradFinalTransparencyStops_eq h fp.maGradientProps hrev
  have hlen : (gradFinalColorStops h fp.maGradientProps ph).length
      = fp.maGradientProps.maGradientStops.length := by
    rw [hC, writtenOrder_length, List.length_map]
  have hne : gradFinalColorStops h fp.maGradientProps ph ≠ [] := by
    intro he
    rw [he] at hlen
    exact hstops (List.length_eq_zero.mp hlen.symm)
  obtain ⟨first, last, hfirst, hlast⟩ := exists_head_getLast _ hne
  refine ⟨rfl, by simp [gradColorStops], gradFillGradient h fp.maGradientProps rot ph fh fv,
    first, last,
    (if m.accepts .FillGradient
        (.gradient (gradFillGradient h fp.maGradientProps rot ph fh fv)) then
      FillStyle.GRADIENT else FillStyle.NONE),
    ?_, hC, hlen, hfirst, hlast, ?_, ?_, ?_, ?_⟩
  · rw [pushToPropMap_gradFill_writes fp m h rot ph size theme fh fv cs htype hsup, hT,
      gradTransparencyStops_eq]
    by_cases hany : fp.maGradientProps.maGradientStops.any (fun s => s.2.hasTransparency) = true
    · have hne2 : (writtenOrder fp.maGradientProps
          (fp.maGradientProps.maGradientStops.map specTransparencyStop)).isEmpty = false := by
        cases hw : writtenOrder fp.maGradientProps
            (fp.maGradientProps.maGradientStops.map specTransparencyStop) with
        | nil =>
          have hl := writtenOrder_length fp.maGradientProps
            (fp.maGradientProps.maGradientStops.map specTransparencyStop)
          rw [hw, List.length_map] at hl
          exact absurd (List.length_eq_zero.mp hl.symm) hstops
        | cons a l => rfl
      simp only [hany, if_true, hne2]
      rfl
    · have hw : writtenOrder fp.maGradientProps [] = [] := by
        unfold writtenOrder mirroredReverse
        split <;> rfl
      rw [Bool.not_eq_true] at hany
      rw [hany]
      simp [hw]
  · show h.fromBColor (((gradFinalColorStops h fp.maGradientProps ph).head?.getD
      h.undefinedStop).color) = _
    rw [hfirst]
    rfl
  · show h.fromBColor (((gradFinalColorStops h fp.maGradientProps ph).getLast?.getD
      h.undefinedStop).color) = _
    rw [hlast]
    rfl
  · rw [writtenOrder_length, List.length_map]
  · show _ = (gradFinalColorStops h fp.maGradientProps ph).map (fun s => s.offset)
    rw [hC]
    exact writtenOrder_offsets _ _ _ (specStops_offsets h ph _)

/-- Witness for C20: a two-stop path gradient whose second stop is half
transparent writes the gradient, its transparency gradient and the fill
style, with two colour stops. -/
theorem pushToPropMap_gradient_stops_witness :
    ∃ (G : Gradient2) (v : FillStyle),
      (sampleTransparentPathFill.pushToPropMap emptyMap mirrorHelper 0 0 ⟨10, 10⟩ 0 false false
          false).writes
        = [(.shape .FillGradient, .gradient G),
            (.shape .GradientTransparency,
              .gradient { G with
                ColorStops := writtenOrder sampleTransparentPathFill.maGradientProps
                  (sampleTransparentPathFill.maGradientProps.maGradientStops.map
                    specTransparencyStop) }),
            (.shape .FillStyle, .fillStyle v)] ∧
      G.ColorStops.length = 2 ∧
      (writtenOrder sampleTransparentPathFill.maGradientProps
          (sampleTransparentPathFill.maGradientProps.maGradientStops.map
            specTransparencyStop)).map (fun s => s.offset)
        = G.ColorStops.map (fun s => s.offset) :=
  (pushToPropMap_gradient_stops sampleTransparentPathFill emptyMap mirrorHelper 0 0 ⟨10, 10⟩ 0
    false false false rfl rfl (List.cons_ne_nil _ _) (fun _ _ => rfl)).2.2.elim
    fun G hG => hG.elim fun _ h1 => h1.elim fun _ h2 => h2.elim fun v hv =>
      ⟨G, v, hv.1.trans rfl, hv.2.2.1, hv.2.2.2.2.2.2.2.2⟩

end Oox

/-! ## Theorems, part 6: colour transformations, empty stop lists, alpha -/

namespace Oox

/-- The switch of the loop body is the transformation step of the
specification. -/
theorem applyLoop_eq_foldl (m : ColorMethods) (ts : List Transformation) (aColor : Int) :
    ComplexColor.applyLoop m ts aColor = ts.foldl (specTransform m) aColor := by
  induction ts generalizing aColor with
  | nil => rfl
  | cons t rest ih =>
    rw [ComplexColor.applyLoop, ih, List.foldl_cons]
    congr 1
    unfold specTransform
    cases hT : t.meType <;> simp

/-- C21: `ComplexColor::applyTransformations` returns the left fold of the
transformation list over the input colour, where Tint `v` applies
`ApplyTintOrShade(v)`, Shade `v` applies `ApplyTintOrShade(-v)`, LumMod `v`
applies `ApplyLumModOff(v, 0)`, LumOff `v` applies `ApplyLumModOff(10000, v)`
and any other type leaves the colour unchanged; the `ComplexColor` is not
modified; an empty list returns the input colour; and applying `ts1 ++ ts2`
equals applying `ts2` to the result of applying `ts1`. -/
theorem applyTransformations_fold (self : ComplexColor) (m : ColorMethods) (rColor : Int) :
    (self.applyTransformations m rColor).1
        = self.maTransformations.foldl (specTransform m) rColor ∧
    (self.applyTransformations m rColor).2 = self ∧
    ((self.setTransformations []).applyTransformations m rColor).1 = rColor ∧
    ∀ ts1 ts2 : List Transformation,
      ((self.setTransformations (ts1 ++ ts2)).applyTransformations m rColor).1
        = ((self.setTransformations ts2).applyTransformations m
            ((self.setTransformations ts1).applyTransformations m rColor).1).1 := by
  refine ⟨applyLoop_eq_foldl m _ rColor, rfl, rfl, ?_⟩
  intro ts1 ts2
  show ComplexColor.applyLoop m (ts1 ++ ts2) rColor
    = ComplexColor.applyLoop m ts2 (ComplexColor.applyLoop m ts1 rColor)
  rw [applyLoop_eq_foldl, applyLoop_eq_foldl, applyLoop_eq_foldl, List.foldl_append]

/-- C22 (evaluation at the failing input): for a gradient fill without stops
and without a gradient path, pushed to a map that supports `FillGradient`, the
colour-stop list is empty where `front()` and `back()` are read, so that
`StartColor` and `EndColor` of the gradient written come from whatever these
reads of an empty vector yield. -/
theorem stopless_gradient_reads_empty_list (h : GraphicHelper) (rot ph : Int)
    (fh fv : Bool) :
    emptyMap.supportsProperty .FillGradient = true ∧
    gradFinalColorStops h sampleStoplessFill.maGradientProps ph = [] ∧
    (sampleStoplessFill.pushToPropMap emptyMap h rot ph ⟨10, 10⟩ 0 fh fv false).writes
      = [(.shape .FillGradient, .gradient
            { Style := .LINEAR
              StartColor := h.fromBColor h.undefinedStop.color
              EndColor := h.fromBColor h.undefinedStop.color
              Angle := 900
              StartIntensity := 100
              EndIntensity := 100
              ColorStops := [] }),
         (.shape .FillStyle, .fillStyle .GRADIENT)] := by
  refine ⟨rfl, rfl, ?_⟩
  rfl

/-- The alpha value computed for a transparency between 0 and 100 percent fits
a `sal_Int8` exactly from 50 percent on. -/
theorem computedToAlpha_fits_iff (T : Int) (h0 : 0 ≤ T) (h1 : T ≤ 100) :
    fitsInt8 (computedToAlpha T) ↔ 50 ≤ T := by
  interval_cases T <;> decide

/-- C23 (evaluation at the failing input): for an opaque `to` colour,
transparency 0, the value `(100 - 0) * 2.55` truncated to an integer is 254,
which a `sal_Int8` cannot hold; the same is true of transparency 49, where the
value is 130, while transparency 50 gives 127. -/
theorem opaque_toAlpha_exceeds_int8 :
    computedToAlpha 0 = 254 ∧ ¬ fitsInt8 (computedToAlpha 0) ∧
    computedToAlpha 49 = 130 ∧ ¬ fitsInt8 (computedToAlpha 49) ∧
    computedToAlpha 50 = 127 ∧ fitsInt8 (computedToAlpha 50) := by
  decide

end Oox

namespace Oox

theorem assignIfUsed_assoc {α : Type} (t a b : Option α) :
    assignIfUsed (assignIfUsed t a) b = assignIfUsed t (assignIfUsed a b) := by
  cases b <;> rfl

theorem colorAssignIfUsed_assoc (t a b : Color) :
    (t.assignIfUsed a).assignIfUsed b = t.assignIfUsed (a.assignIfUsed b) := by
  unfold Color.assignIfUsed
  cases hb : b.used <;> cases ha : a.used <;> simp [ha, hb]

theorem effectAssignUsed_assoc (t a b : ArtisticEffectProperties) :
    (t.assignUsed a).assignUsed b = t.assignUsed (a.assignUsed b) := by
  unfold ArtisticEffectProperties.assignUsed
  cases hb : b.isEmpty <;> cases ha : a.isEmpty <;>
    simp [ha, hb, ArtisticEffectProperties.isEmpty] <;>
    simp_all [ArtisticEffectProperties.isEmpty]

theorem gradientAssignUsed_assoc (t a b : GradientFillProperties) :
    (t.assignUsed a).assignUsed b = t.assignUsed (a.assignUsed b) := by
  unfold GradientFillProperties.assignUsed
  simp only [assignIfUsed_assoc]
  congr 1
  cases hb : b.maGradientStops.isEmpty <;> cases ha : a.maGradientStops.isEmpty <;>
    simp [ha, hb]

theorem patternAssignUsed_assoc (t a b : PatternFillProperties) :
    (t.assignUsed a).assignUsed b = t.assignUsed (a.assignUsed b) := by
  unfold PatternFillProperties.assignUsed
  simp only [assignIfUsed_assoc, colorAssignIfUsed_assoc]

theorem blipAssignUsed_assoc (t a b : BlipFillProperties) :
    (t.assignUsed a).assignUsed b = t.assignUsed (a.assignUsed b) := by
  unfold BlipFillProperties.assignUsed
  simp only [assignIfUsed_assoc, colorAssignIfUsed_assoc,
    effectAssignUsed_assoc]
  congr 1
  cases hb : b.mxFillGraphic <;> cases ha : a.mxFillGraphic <;> simp

theorem assignIfUsed_self {α : Type} (a : Option α) : assignIfUsed a a = a := by
  cases a <;> rfl

theorem colorAssignIfUsed_self (a : Color) : a.assignIfUsed a = a := by
  unfold Color.assignIfUsed
  split <;> rfl

theorem effectAssignUsed_self (a : ArtisticEffectProperties) :
    a.assignUsed a = a := by
  unfold ArtisticEffectProperties.assignUsed
  split <;> rfl

theorem gradientAssignUsed_self (a : GradientFillProperties) :
    a.assignUsed a = a := by
  unfold GradientFillProperties.assignUsed
  simp only [assignIfUsed_self, ite_self]

theorem patternAssignUsed_self (a : PatternFillProperties) :
    a.assignUsed a = a := by
  unfold PatternFillProperties.assignUsed
  simp only [assignIfUsed_self, colorAssignIfUsed_self]

theorem blipAssignUsed_self (a : BlipFillProperties) :
    a.assignUsed a = a := by
  unfold BlipFillProperties.assignUsed
  simp only [assignIfUsed_self, colorAssignIfUsed_self,
    effectAssignUsed_self, ite_self]

theorem fillAssignUsed_self (a : FillProperties) : a.assignUsed a = a := by
  unfold FillProperties.assignUsed
  simp only [assignIfUsed_self, colorAssignIfUsed_self,
    gradientAssignUsed_self, patternAssignUsed_self,
    blipAssignUsed_self]

/-- C25: writing `merge(t, s)` for the value of `t` after `t.assignUsed(s)`,
`merge(merge(t, a), b) = merge(t, merge(a, b))` for all `FillProperties` `t`,
`a` and `b`, and `merge(merge(t, s), s) = merge(t, s)`. -/
theorem assignUsed_assoc_idem (t a b : FillProperties) :
    (t.assignUsed a).assignUsed b = t.assignUsed (a.assignUsed b) ∧
    (t.assignUsed a).assignUsed a = t.assignUsed a := by
  have assoc : ∀ x y z : FillProperties,
      (x.assignUsed y).assignUsed z = x.assignUsed (y.assignUsed z) := by
    intro x y z
    unfold FillProperties.assignUsed
    simp only [assignIfUsed_assoc, colorAssignIfUsed_assoc,
      gradientAssignUsed_assoc, patternAssignUsed_assoc,
      blipAssignUsed_assoc]
  refine ⟨assoc t a b, ?_⟩
  rw [assoc, fillAssignUsed_self]

end Oox

namespace XPropertyTable

theorem gradientFromAny_stops (tools : GradientTools)
    (hcreate : ∀ s e : Oox.BColor,
      tools.createColorStopsFromStartEndColor s e = [⟨0, s⟩, ⟨1, e⟩])
    (hkeep : ∀ l : List Oox.ColorStop, tools.keptColorStops l = l)
    (rAny : GradientAny) (d : XGradient) (hd : gradientFromAny tools rAny = some d) :
    ∃ g : Gradient, rAny.toGradient = some g ∧
      d.aColorStops
        = if fillColorStopsFromAny rAny = [] then
            [⟨0, tools.getBColor g.StartColor⟩, ⟨1, tools.getBColor g.EndColor⟩]
          else fillColorStopsFromAny rAny := by
  unfold gradientFromAny at hd
  cases hg : rAny.toGradient with
  | none => rw [hg] at hd; cases hd
  | some g =>
    rw [hg] at hd
    refine ⟨g, rfl, ?_⟩
    simp only [Option.some.injEq, hkeep, hcreate] at hd
    subst hd
    cases hs : fillColorStopsFromAny rAny <;> simp

theorem createEntry_eq_some {P A : Type} (T : SvxUnoXPropertyTable P A) (rName : String)
    (rAny : A) (pEntry : XPropertyEntry P) (h : createEntry T rName rAny = some pEntry) :
    T.fromAny rAny = some pEntry.payload ∧ pEntry.name = rName := by
  unfold createEntry at h
  cases hf : T.fromAny rAny with
  | none => rw [hf] at h; cases h
  | some d =>
    rw [hf] at h
    cases h
    exact ⟨rfl, rfl⟩

theorem insertByName_ok_entry {P A : Type} (T : SvxUnoXPropertyTable P A)
    (mrList mrList' : XPropertyList P) (aName : String) (aElement : A)
    (h : insertByName T mrList aName aElement = (.ok (), mrList')) :
    ∃ pEntry, createEntry T (T.internalName aName) aElement = some pEntry ∧
      mrList' = Insert mrList pEntry := by
  unfold insertByName at h
  split at h
  · cases h
  · dsimp only at h
    split at h
    · cases h
    · rename_i pNewEntry hc
      cases h
      exact ⟨pNewEntry, hc, rfl⟩

theorem replaceByName_ok_entry {P A : Type} (T : SvxUnoXPropertyTable P A)
    (mrList mrList' : XPropertyList P) (aName : String) (aElement : A)
    (h : replaceByName T mrList aName aElement = (.ok (), mrList')) :
    ∃ (pEntry : XPropertyEntry P) (i : Nat),
      createEntry T (T.internalName aName) aElement = some pEntry ∧
      mrList' = Replace mrList pEntry i := by
  unfold replaceByName at h
  dsimp only at h
  split at h
  · rename_i i e hfind
    split at h
    · cases h
    · rename_i pNewEntry hc
      cases h
      exact ⟨pNewEntry, i, hc, rfl⟩
  · cases h

/-- C24: when `basegfx::utils::createColorStopsFromStartEndColor` returns the
two stops `(0, start)` and `(1, end)` and an `XGradient` keeps the stops it is
handed, every entry returned by `SvxUnoXGradientTable::createEntry` has a
non-empty colour-stop list: the two stops built from `StartColor` and
`EndColor` when the value carries no `ColorStops`, otherwise exactly the given
stops. For such an entry `getAny` reads an existing first and last stop and
returns their colours as `StartColor` and `EndColor`, together with the
entry's stops; and the entry that a successful `insertByName` or
`replaceByName` puts into the list is one returned by `createEntry`. -/
theorem gradientTable_entries_have_stops (tools : GradientTools)
    (internalName : String → String)
    (hcreate : ∀ s e : Oox.BColor,
      tools.createColorStopsFromStartEndColor s e = [⟨0, s⟩, ⟨1, e⟩])
    (hkeep : ∀ l : List Oox.ColorStop, tools.keptColorStops l = l) :
    (∀ (rName : String) (rAny : GradientAny) (pEntry : XPropertyEntry XGradient),
      createEntry (SvxUnoXGradientTable tools internalName) rName rAny = some pEntry →
        StopReadsDefined pEntry.payload ∧
        (∃ g : Gradient, rAny.toGradient = some g ∧
          pEntry.payload.aColorStops
            = if fillColorStopsFromAny rAny = [] then
                [⟨0, tools.getBColor g.StartColor⟩, ⟨1, tools.getBColor g.EndColor⟩]
              else fillColorStopsFromAny rAny) ∧
        ∃ (first last : Oox.ColorStop) (G : Gradient),
          pEntry.payload.aColorStops.head? = some first ∧
          pEntry.payload.aColorStops.getLast? = some last ∧
          (SvxUnoXGradientTable tools internalName).getAny pEntry
            = .gradient2 G pEntry.payload.aColorStops ∧
          G.StartColor = tools.fromBColor first.color ∧
          G.EndColor = tools.fromBColor last.color) ∧
    (∀ (mrList mrList' : XPropertyList XGradient) (aName : String) (aElement : GradientAny),
      insertByName (SvxUnoXGradientTable tools internalName) mrList aName aElement
          = (.ok (), mrList') →
        ∃ pEntry, createEntry (SvxUnoXGradientTable tools internalName)
            (internalName aName) aElement = some pEntry ∧
          mrList' = Insert mrList pEntry) ∧
    (∀ (mrList mrList' : XPropertyList XGradient) (aName : String) (aElement : GradientAny),
      replaceByName (SvxUnoXGradientTable tools internalName) mrList aName aElement
          = (.ok (), mrList') →
        ∃ (pEntry : XPropertyEntry XGradient) (i : Nat),
          createEntry (SvxUnoXGradientTable tools internalName)
            (internalName aName) aElement = some pEntry ∧
          mrList' = Replace mrList pEntry i) := by
  refine ⟨?_, ?_, ?_⟩
  · intro rName rAny pEntry hc
    have hd := (createEntry_eq_some _ rName rAny pEntry hc).1
    obtain ⟨g, hg, hstops⟩ := gradientFromAny_stops tools hcreate hkeep rAny _ hd
    have hne : pEntry.payload.aColorStops ≠ [] := by
      rw [hstops]
      split
      · exact List.cons_ne_nil _ _
      · assumption
    refine ⟨hne, ⟨g, hg, hstops⟩, pEntry.payload.aColorStops.head hne,
      pEntry.payload.aColorStops.getLast hne, _, List.head?_eq_head hne,
      List.getLast?_eq_getLast _ hne, rfl, ?_, ?_⟩
    · show tools.fromBColor ((pEntry.payload.aColorStops.head?.getD tools.undefinedStop).color)
        = _
      rw [List.head?_eq_head hne]
      rfl
    · show tools.fromBColor
        ((pEntry.payload.aColorStops.getLast?.getD tools.undefinedStop).color) = _
      rw [List.getLast?_eq_getLast _ hne]
      rfl
  · intro mrList mrList' aName aElement h
    exact insertByName_ok_entry _ mrList mrList' aName aElement h
  · intro mrList mrList' aName aElement h
    exact replaceByName_ok_entry _ mrList mrList' aName aElement h

/-- Witness for C24: the entry created from a plain gradient from colour 10 to
colour 20 has the two stops of these colours, so that its first and last stop
can be read. -/
theorem gradientTable_entries_have_stops_witness :
    ∃ pEntry : XPropertyEntry XGradient,
      createEntry (SvxUnoXGradientTable sampleGradientTools id) "Sky" sampleGradientAny
        = some pEntry ∧
      StopReadsDefined pEntry.payload ∧
      pEntry.payload.aColorStops
        = [⟨0, sampleGradientTools.getBColor 10⟩, ⟨1, sampleGradientTools.getBColor 20⟩] :=
  ⟨⟨"Sky",
      { aColorStops :=
          [⟨0, sampleGradientTools.getBColor 10⟩, ⟨1, sampleGradientTools.getBColor 20⟩]
        nOfsX := 0
        nOfsY := 0
        nIntensStart := 0
        nIntensEnd := 0 }⟩,
    rfl,
    ((gradientTable_entries_have_stops sampleGradientTools id (fun _ _ => rfl)
      (fun _ => rfl)).1 "Sky" sampleGradientAny _ rfl).1, rfl⟩

end XPropertyTable
